import Mathlib

/-!
Birdtray tray icon: font-size search and tray state machine.

A shallow embedding of `src/trayicon.cpp` (class `TrayIcon`) together with the
parts of `src/settings.h` and `src/windowtools.h` it reads.

Conventions of the embedding:
* C++ `int` values are Lean `Int`; `unsigned int` values are `Nat` reduced
  modulo `2 ^ 32` wherever the C++ arithmetic can wrap.
* `QDateTime` values are milliseconds since the epoch (`Int`); a null
  `QDateTime` is `none`.
* `double` opacities are exact rationals.
* calls into Qt, the window tools and the operating system are inputs of the
  handler that makes them, and every externally visible action a handler
  performs is appended to the `log` of the state.
-/

namespace Birdtray

/-! ## The font-size search (`largestFontSize`, trayicon.cpp 165-186) -/

/-- Embeds `QSize`: a width and a height in pixels. -/
structure QSize where
  width : Int
  height : Int
deriving DecidableEq, Repr

/-- The test of trayicon.cpp line 179:
`size.width() < rectsize.width() && size.height() <= rectsize.height()`. -/
def fitsRect (size rectsize : QSize) : Bool :=
  decide (size.width < rectsize.width) && decide (size.height ≤ rectsize.height)

/-- The three local variables of `largestFontSize` that the loop updates. -/
structure SearchVars where
  minfontsize : Int
  maxfontsize : Int
  cursize : Int
deriving DecidableEq, Repr

/-- One execution of the loop body (lines 173-182). `measure p` is
`QFontMetrics(testfont).size(Qt::TextSingleLine, text)` for `testfont` set to
point size `p` and the configured weight. C++ `/` on `int` truncates, hence
`Int.tdiv`. -/
def searchStep (measure : Int → QSize) (rectsize : QSize) (v : SearchVars) : SearchVars :=
  let cursize := v.minfontsize + Int.tdiv (v.maxfontsize - v.minfontsize) 2
  if fitsRect (measure cursize) rectsize then
    { minfontsize := cursize, maxfontsize := v.maxfontsize, cursize := cursize }
  else
    { minfontsize := v.minfontsize, maxfontsize := cursize, cursize := cursize }

/-- The `while ( maxfontsize - minfontsize > 1 )` loop (lines 171-183); the
result is the value of the three variables when the loop is left. -/
def searchLoop (measure : Int → QSize) (rectsize : QSize) (v : SearchVars) : SearchVars :=
  if _h : v.maxfontsize - v.minfontsize > 1 then
    searchLoop measure rectsize (searchStep measure rectsize v)
  else v
termination_by (v.maxfontsize - v.minfontsize).toNat
decreasing_by
  have hdiv : Int.tdiv (v.maxfontsize - v.minfontsize) 2
      = (v.maxfontsize - v.minfontsize) / 2 :=
    Int.tdiv_eq_ediv (by omega) (by omega)
  unfold searchStep
  simp only [hdiv]
  split <;> simp only <;> omega

/-- Embeds `largestFontSize(font, minfontsize, maxfontsize, text, rectsize)`:
`cursize` starts at `minfontsize` (line 167) and the function returns `cursize`
(line 185). The `unsigned int` return value is converted back with
`static_cast<int>` by the only caller, so the result is kept as an `Int`. -/
def largestFontSize (measure : Int → QSize) (minfontsize maxfontsize : Int)
    (rectsize : QSize) : Int :=
  (searchLoop measure rectsize
    { minfontsize := minfontsize, maxfontsize := maxfontsize, cursize := minfontsize }).cursize

/-! ## Settings (settings.h) and the painted icon -/

/-- Number of values of a C++ `unsigned int` (32 bit). -/
def UINT_MOD : Nat := 4294967296

/-- C++ `unsigned int` subtraction `a - b`, which wraps modulo `2 ^ 32`. -/
def usub (a b : Nat) : Nat := (a + (UINT_MOD - b % UINT_MOD)) % UINT_MOD

/-- Embeds `static_cast<int>(n)` for an `unsigned int` n. -/
def toInt32 (n : Nat) : Int :=
  if n % UINT_MOD < 2147483648 then ((n % UINT_MOD : Nat) : Int)
  else ((n % UINT_MOD : Nat) : Int) - 4294967296

/-- The members of `Settings` that `TrayIcon` reads. Pixmaps are represented by
what the tray icon asks of them: the size of `getNotificationIcon()` and whether
`mNotificationIconUnread` is null. `textSize weight pointSize text` is
`QFontMetrics(f).size(Qt::TextSingleLine, text)` for `mNotificationFont` at that
weight and point size. `startCmdline` is the result of
`getStartBetterbirdCmdline` (settings.cpp): `none` when it returns false,
otherwise the executable and its arguments. A `QColor` is its rgba value, and
an invalid border colour is `none`. -/
structure Settings where
  iconSize : QSize
  mNotificationIconUnreadIsNull : Bool
  textSize : Nat → Int → String → QSize
  mNotificationFontWeight : Nat
  mNotificationBorderColor : Option Nat
  mNotificationBorderWidth : Nat
  mBlinkSpeed : Nat
  mUnreadOpacityLevel : ℚ
  mShowHideBetterbird : Bool
  mLaunchBetterbird : Bool
  mLaunchBetterbirdDelay : Int
  mHideWhenStarted : Bool
  mExitBetterbirdWhenQuit : Bool
  mRestartBetterbird : Bool
  mHideWhenRestarted : Bool
  startClosedBetterbird : Bool
  hideWhenStartedManually : Bool
  mMonitorBetterbirdWindow : Bool
  mBlinkingUseAlphaTransition : Bool
  mAllowSuppressingUnreads : Bool
  mShowUnreadEmailCount : Bool
  ignoreUnreadCountOnStart : Bool
  ignoreUnreadCountOnShow : Bool
  ignoreUnreadCountOnHide : Bool
  onlyShowIconOnUnreadMessages : Bool
  mNotificationMinimumFontSize : Nat
  mNotificationMaximumFontSize : Nat
  mProcessRunOnCountChange : String
  startCmdline : Option (String × List String)

/-- One entry of `UnreadMonitor::getWarnings()`: the key (`none` for a null
`QString`), the account and folder names `Utils` derives from the key (`none`
for a null result) and the warning text (`none` for a null `QString`). -/
structure WarningEntry where
  path : Option String
  accountName : Option String
  mailFolderName : Option String
  message : Option String
deriving DecidableEq, Repr

/-- The unread counter as `updateIcon` paints it (lines 254-283). -/
structure CounterText where
  text : String
  fontsize : Int
  weight : Nat
  opacity : ℚ
  border : Option (Nat × Nat)
  color : Nat
deriving DecidableEq, Repr

/-- The pixmap `temp` that `updateIcon` paints, as the list of what was painted
on the transparent surface: the base icon (the unread icon or the default one)
and its opacity, the red cross (its pen width, the painter opacity set at line
244 and the end points `(x1, y1, x2, y2)` of the lines drawn at lines 248-249),
the unread counter, and the warning indicator. Two pixmaps are compared by
comparing what was painted. -/
structure Drawing where
  size : QSize
  unreadIcon : Bool
  iconOpacity : ℚ
  errorPenWidth : Option Int
  errorOpacity : Option ℚ
  errorLines : List (Int × Int × Int × Int)
  counter : Option CounterText
  warningIndicator : Bool
deriving DecidableEq, Repr

/-- The values `updateIcon` works with, recorded each time it runs: the raw
counter, the ignored baseline, whether a snooze deadline is set, and the value
of the local `unread` after lines 192-204. -/
structure IconRun where
  mUnreadCounter : Nat
  ignoredUnreadEmails : Nat
  snoozed : Bool
  unread : Nat
deriving DecidableEq, Repr

/-- What a handler does to the outside world, in the order it is done. -/
inductive Effect where
  | hookCommand (cmdline : String)
  | updateIcon (run : IconRun)
  | blinkTimerStart (interval : Nat)
  | blinkTimerStop
  | trayHide
  | trayShow
  | setToolTip (text : String)
  | painted (image : Drawing)
  | setIcon (image : Drawing)
  | unsnoozed
  | snoozed (deadline : Int)
  | lookup (found : Bool)
  | hideWindow (ok : Bool)
  | showWindow (ok : Bool)
  | closeWindow
  | startBetterbird
  | processRelease (handle : Nat)
  | processStart (handle : Nat) (executable : String) (args : List String)
  | messageBox
  | settingsChanged
deriving DecidableEq, Repr

/-! ## The tray icon state (trayicon.h) -/

/-- The members of `TrayIcon`, the part of the Qt objects it owns that its
handlers change (timer, menu entries, tray visibility, tooltip), the settings
singleton, the warnings of the unread monitor, and the log of effects.
`mBetterbirdProcess` is `none` for a null pointer and otherwise names the
`QProcess` object; `nextHandle` is the name the next `new QProcess()` gets.
`isWindows` is `Q_OS_WIN`. -/
structure State where
  settings : Settings
  isWindows : Bool
  hasWinTools : Bool
  mBlinkingIconOpacity : ℚ
  mBlinkingDelta : ℚ
  mBlinkingTimeout : Nat
  blinkTimerActive : Bool
  mUnreadCounter : Nat
  mUnreadColor : Nat
  haveUnreadMailsData : Bool
  ignoredUnreadEmails : Nat
  mSnoozedUntil : Option Int
  mBetterbirdStartTime : Int
  mBetterbirdWindowExisted : Bool
  mBetterbirdWindowExists : Bool
  mBetterbirdWindowHide : Bool
  mBetterbirdProcess : Option Nat
  nextHandle : Nat
  mLastDrawnIcon : Option Drawing
  toolTip : String
  trayVisible : Bool
  mMenuShowHideText : String
  mMenuShowHideEnabled : Bool
  mMenuIgnoreUnreads : Option String
  mMenuUnsnoozeVisible : Bool
  warnings : List WarningEntry
  log : List Effect

/-- Append an effect to the log. -/
def State.emit (s : State) (e : Effect) : State :=
  { s with log := s.log ++ [e] }

/-- Embeds `enableBlinking(enabled)` (lines 327-355). `2.0 / mBlinkSpeed` is infinite
for speed 0, so that the minimum with 1.0 is 1.0. -/
def enableBlinking (s : State) (enabled : Bool) : State :=
  if enabled then
    if s.settings.mBlinkingUseAlphaTransition then
      { s with
        mBlinkingIconOpacity := 1
        mBlinkingDelta :=
          if s.settings.mBlinkSpeed = 0 then 1 else min 1 (2 / (s.settings.mBlinkSpeed : ℚ))
        mBlinkingTimeout := if s.settings.mBlinkSpeed = 1 then 50 else 100
        blinkTimerActive := true
        log := s.log ++
          [Effect.blinkTimerStart (if s.settings.mBlinkSpeed = 1 then 50 else 100)] }
    else
      { s with
        mBlinkingIconOpacity := 1
        mBlinkingDelta := 0
        mBlinkingTimeout := (s.settings.mBlinkSpeed * 50) % UINT_MOD
        blinkTimerActive := true
        log := s.log ++ [Effect.blinkTimerStart ((s.settings.mBlinkSpeed * 50) % UINT_MOD)] }
  else
    { s with
      blinkTimerActive := false
      mBlinkingIconOpacity := 1
      mBlinkingDelta := 0
      mBlinkingTimeout := 0
      log := s.log ++ [Effect.blinkTimerStop] }

/-- The name shown for a warning (lines 300-308). -/
def warningName (w : WarningEntry) : String :=
  match w.accountName, w.mailFolderName with
  | some account, some folder => account ++ " [" ++ folder ++ "]"
  | _, _ => w.path.getD ""

/-- The value `warnings.value(QString())`: a null and an empty key compare
equal, and a missing key gives a null string. -/
def globalWarning (warnings : List WarningEntry) : Option String :=
  match warnings.find? (fun w => w.path.getD "" == "") with
  | some w => w.message
  | none => none

/-- The tooltip lines of lines 288-311, before they are joined. -/
def toolTipLines (warnings : List WarningEntry) : List String :=
  (match globalWarning warnings with
    | some g => ["Warning: " ++ g]
    | none => [])
  ++ (warnings.filter (fun w => w.path.isSome)).map
      (fun w => warningName w ++ ": " ++ w.message.getD "")

/-- The text handed to `setToolTip` (lines 284-312). -/
def toolTipText (warnings : List WarningEntry) : String :=
  if warnings.isEmpty then "" else "\n".intercalate (toolTipLines warnings)

/-- The value of the local `unread` after lines 192-204. -/
def displayedUnread (s : State) : Nat :=
  if s.mSnoozedUntil.isSome then 0 else usub s.mUnreadCounter s.ignoredUnreadEmails

/-- Lines 205-211: `updateIcon` arming or disarming the blinking when no snooze
deadline is set. -/
def adjustBlinking (s : State) (unread : Nat) : State :=
  let s1 :=
    if 0 < unread ∧ 0 < s.settings.mBlinkSpeed ∧ s.mBlinkingTimeout = 0 then
      enableBlinking s true
    else s
  if unread = 0 ∧ s1.mBlinkingTimeout ≠ 0 then enableBlinking s1 false else s1

/-- The unread counter of lines 254-283 for the value `unread` left after the
error sign and the pixmap size `size`. -/
def paintCounter (s : State) (unread : Nat) (size : QSize) : Option CounterText :=
  if 0 < unread ∧ s.settings.mShowUnreadEmailCount = true then
    some
      { text := toString unread
        fontsize := largestFontSize
          (fun p => s.settings.textSize s.settings.mNotificationFontWeight p (toString unread))
          (toInt32 s.settings.mNotificationMinimumFontSize)
          (toInt32 s.settings.mNotificationMaximumFontSize)
          { width := size.width - 2, height := size.height - 2 }
        weight := s.settings.mNotificationFontWeight
        opacity := if s.mBlinkingTimeout ≠ 0 then 1 - s.mBlinkingIconOpacity else 1
        border :=
          match s.settings.mNotificationBorderColor with
          | some c =>
            if 0 < s.settings.mNotificationBorderWidth then
              some (c, s.settings.mNotificationBorderWidth)
            else none
          | none => none
        color := s.mUnreadColor }
  else none

/-- Lines 218-283 and 313: the pixmap painted for the value `unread`. -/
def paintIcon (s : State) (unread : Nat) : Drawing :=
  let error : Bool := s.settings.mMonitorBetterbirdWindow && !s.mBetterbirdWindowExists
  { size := s.settings.iconSize
    unreadIcon := decide (unread ≠ 0) && !s.settings.mNotificationIconUnreadIsNull
    iconOpacity :=
      if s.mSnoozedUntil.isSome then 1 / 2
      else if unread = 0 then 1
      else s.mBlinkingIconOpacity
    errorPenWidth :=
      if error then some (Int.tdiv (s.settings.iconSize.width * 10) 100) else none
    errorOpacity := if error then some 1 else none
    errorLines :=
      if error then
        [(2, 2, s.settings.iconSize.width - 3, s.settings.iconSize.height - 3),
          (s.settings.iconSize.width - 3, 2, 2, s.settings.iconSize.height - 3)]
      else []
    counter := paintCounter s (if error then 0 else unread) s.settings.iconSize
    warningIndicator := !s.warnings.isEmpty }

/-- The record `updateIcon` logs when it runs in state `s`. -/
def iconRunOf (s : State) : IconRun :=
  { mUnreadCounter := s.mUnreadCounter
    ignoredUnreadEmails := s.ignoredUnreadEmails
    snoozed := s.mSnoozedUntil.isSome
    unread := displayedUnread s }

/-- Lines 190-212 of `updateIcon`: the displayed count is computed and, when no
snooze deadline is set, the blinking is armed or disarmed. -/
def prepareIcon (s : State) : State :=
  let s0 := s.emit (Effect.updateIcon (iconRunOf s))
  if s0.mSnoozedUntil.isSome then s0 else adjustBlinking s0 (displayedUnread s)

/-- Lines 218-324 of `updateIcon`: the pixmap is painted, the tooltip set, the
icon replaced when the image differs from the last one drawn, and the tray icon
shown. -/
def renderIcon (s : State) (unread : Nat) : State :=
  let temp := paintIcon s unread
  let tip := toolTipText s.warnings
  let s2 := { s with
    toolTip := tip
    log := s.log ++ [Effect.setToolTip tip, Effect.painted temp] }
  let s3 :=
    if s2.mLastDrawnIcon ≠ some temp then
      { s2 with mLastDrawnIcon := some temp, log := s2.log ++ [Effect.setIcon temp] }
    else s2
  { s3 with trayVisible := true, log := s3.log ++ [Effect.trayShow] }

/-- Embeds `updateIcon()` (lines 188-325). -/
def updateIcon (s : State) : State :=
  let unread := displayedUnread s
  let s1 := prepareIcon s
  if s1.settings.onlyShowIconOnUnreadMessages = true ∧ unread = 0 then
    { s1 with trayVisible := false, log := s1.log ++ [Effect.trayHide] }
  else renderIcon s1 unread

/-! ## The handlers of `TrayIcon` -/

/-- The text of the "ignore unread emails" menu entry (lines 825-830). -/
def ignoreMenuText (ignored : Nat) : String :=
  if 0 < ignored then "Ignore unread emails (now " ++ toString ignored ++ ")"
  else "Ignore unread emails"

/-- Embeds `setIgnoredUnreadMails(ignoredMails, updateIcon)` (lines 818-835). -/
def setIgnoredUnreadMails (s : State) (ignoredMails : Nat) (doUpdateIcon : Bool) : State :=
  if ignoredMails = s.ignoredUnreadEmails then s
  else
    let s1 := { s with
      ignoredUnreadEmails := ignoredMails
      mMenuIgnoreUnreads :=
        match s.mMenuIgnoreUnreads with
        | some _ => some (ignoreMenuText ignoredMails)
        | none => none }
    if doUpdateIcon then updateIcon s1 else s1

/-- The hook command line of lines 134-140. -/
def hookCmdline (template : String) (total old : Nat) : String :=
  (template.replace "%NEW%" (toString total)).replace "%OLD%" (toString old)

/-- Embeds `unreadCounterUpdate(total, color)` (lines 119-153). -/
def unreadCounterUpdate (s : State) (total color : Nat) : State :=
  let s1 :=
    if s.settings.ignoreUnreadCountOnStart = true ∧ s.haveUnreadMailsData = false then
      setIgnoredUnreadMails s total false
    else s
  let s2 := if total < s1.ignoredUnreadEmails then setIgnoredUnreadMails s1 total false else s1
  let s3 :=
    if s2.settings.mProcessRunOnCountChange ≠ "" then
      s2.emit (Effect.hookCommand
        (hookCmdline s2.settings.mProcessRunOnCountChange total s2.mUnreadCounter))
    else s2
  updateIcon { s3 with
    mUnreadCounter := total
    mUnreadColor := color
    haveUnreadMailsData := true }

/-- Embeds `unreadMonitorWarningChanged(path)` (lines 155-162); `warnings` is what
`getWarnings()` returns from now on. -/
def unreadMonitorWarningChanged (s : State) (warnings : List WarningEntry) : State :=
  updateIcon { s with warnings := warnings }

/-- Embeds `onBetterbirdWindowShown()` (lines 794-799). -/
def onBetterbirdWindowShown (s : State) : State :=
  let s1 := { s with mMenuShowHideText := "Hide Betterbird" }
  if s1.haveUnreadMailsData = true ∧ s1.settings.ignoreUnreadCountOnShow = true then
    setIgnoredUnreadMails s1 s1.mUnreadCounter true
  else s1

/-- Embeds `onBetterbirdWindowHidden()` (lines 801-806). -/
def onBetterbirdWindowHidden (s : State) : State :=
  let s1 := { s with mMenuShowHideText := "Show Betterbird" }
  if s1.haveUnreadMailsData = true ∧ s1.settings.ignoreUnreadCountOnHide = true then
    setIgnoredUnreadMails s1 s1.mUnreadCounter true
  else s1

/-- Embeds `hideBetterbird()` (lines 808-811): `ok` is what `mWinTools->hide()`
returns; the window tools emit `onWindowHidden` exactly when it is true. -/
def hideBetterbird (s : State) (ok : Bool) : State :=
  let s1 := s.emit (Effect.hideWindow ok)
  if ok then onBetterbirdWindowHidden s1 else s1

/-- Embeds `showBetterbird()` (lines 813-816): `ok` is what `mWinTools->show()`
returns; the window tools emit `onWindowShown` exactly when it is true. -/
def showBetterbird (s : State) (ok : Bool) : State :=
  let s1 := s.emit (Effect.showWindow ok)
  if ok then onBetterbirdWindowShown s1 else s1

/-- Embeds `startBetterbird()` (lines 682-706). -/
def startBetterbird (s : State) : State :=
  let s0 := s.emit Effect.startBetterbird
  match s0.settings.startCmdline with
  | none => s0
  | some cmd =>
    let s1 :=
      match s0.mBetterbirdProcess with
      | some old => s0.emit (Effect.processRelease old)
      | none => s0
    { s1 with
      mBetterbirdProcess := some s1.nextHandle
      nextHandle := s1.nextHandle + 1
      log := s1.log ++ [Effect.processStart s1.nextHandle cmd.1 cmd.2] }

/-- Embeds `actionUnsnooze()` (lines 528-536). -/
def actionUnsnooze (s : State) : State :=
  updateIcon { s with
    mSnoozedUntil := none
    mMenuUnsnoozeVisible := false
    log := s.log ++ [Effect.unsnoozed] }

/-- Embeds `actionSnoozeFor()` (lines 511-526): `seconds` is the data of the menu
action that was triggered and `nowUtc` is `QDateTime::currentDateTimeUtc()`. -/
def actionSnoozeFor (s : State) (seconds nowUtc : Int) : State :=
  let s1 := { s with
    mSnoozedUntil := some (nowUtc + 1000 * seconds)
    mMenuUnsnoozeVisible := true
    log := s.log ++ [Effect.snoozed (nowUtc + 1000 * seconds)] }
  updateIcon (enableBlinking s1 false)

/-- The snooze menu of lines 617-623: seconds and label of each entry. -/
def snoozingTimes : List (Nat × String) :=
  [(360, "5 minutes"), (600, "10 minutes"), (1800, "30 minutes"), (3600, "1 hour"),
    (3600 * 4, "4 hours")]

/-- Embeds `actionIgnoreEmails()` (lines 563-566). -/
def actionIgnoreEmails (s : State) : State :=
  setIgnoredUnreadMails s s.mUnreadCounter true

/-- What one run of `updateState` reads from outside: the two clock readings
`QDateTime::currentDateTimeUtc()` (line 359) and `QDateTime::currentDateTime()`
(line 393), and the results of `mWinTools->lookup()`, `mWinTools->hide()` and
`mWinTools->isHidden()`. -/
structure PollEnv where
  nowUtc : Int
  now : Int
  lookup : Bool
  hideOk : Bool
  isHidden : Bool
deriving DecidableEq, Repr

/-- Lines 357-363 of `updateState`: the snooze deadline check. -/
def checkSnooze (s : State) (nowUtc : Int) : State :=
  match s.mSnoozedUntil with
  | some deadline => if deadline < nowUtc then actionUnsnooze s else s
  | none => s

/-- Lines 367-412 of `updateState`: the window lookup and what follows from
it. -/
def reconcileWindow (s : State) (env : PollEnv) : State :=
  let s1 := { s with
    mBetterbirdWindowExists := env.lookup
    log := s.log ++ [Effect.lookup env.lookup] }
  if s1.mBetterbirdWindowExists = true then
    let s2 := { s1 with mBetterbirdWindowExisted := true, mMenuShowHideEnabled := true }
    if s2.mBetterbirdWindowHide = true then
      hideBetterbird { s2 with mBetterbirdWindowHide := false } env.hideOk
    else s2
  else if s1.mBetterbirdWindowExisted = false then
    if s1.settings.mLaunchBetterbird = true ∧ s1.mBetterbirdProcess = none ∧
        s1.mBetterbirdStartTime < env.now then
      let s2 := startBetterbird s1
      if s2.settings.mHideWhenStarted = true then { s2 with mBetterbirdWindowHide := true }
      else s2
    else s1
  else
    if s1.settings.mRestartBetterbird = true ∧ s1.mBetterbirdProcess = none then
      let s2 := startBetterbird s1
      if s2.settings.mHideWhenRestarted = true then { s2 with mBetterbirdWindowHide := true }
      else s2
    else s1

/-- Embeds `updateState()` (lines 357-422). -/
def updateState (s : State) (env : PollEnv) : State :=
  let s1 := checkSnooze s env.nowUtc
  if s1.hasWinTools = true then
    let s2 := reconcileWindow s1 env
    updateIcon { s2 with
      mMenuShowHideText := if env.isHidden then "Show Betterbird" else "Hide Betterbird" }
  else s1

/-- Embeds `blinkTimeout()` (lines 424-452). -/
def blinkTimeout (s : State) : State :=
  if s.mBlinkingDelta ≠ 0 then
    let delta :=
      if s.mBlinkingIconOpacity + s.mBlinkingDelta > 1 ∨
          s.mBlinkingIconOpacity + s.mBlinkingDelta < 0 then -s.mBlinkingDelta
      else s.mBlinkingDelta
    updateIcon { s with
      mBlinkingDelta := delta
      mBlinkingIconOpacity := s.mBlinkingIconOpacity + delta }
  else if s.settings.mBlinkSpeed ≠ 0 then
    if s.mBlinkingIconOpacity = s.settings.mUnreadOpacityLevel then
      updateIcon { s with mBlinkingIconOpacity := 1 - s.settings.mUnreadOpacityLevel }
    else updateIcon { s with mBlinkingIconOpacity := s.settings.mUnreadOpacityLevel }
  else updateIcon { s with mBlinkingIconOpacity := s.settings.mUnreadOpacityLevel }

/-- Embeds `createMenu()` (lines 577-669). Line 654 passes the old value of
`ignoredUnreadEmails` while the post-increment has already stored the
incremented one. -/
def createMenu (s : State) : State :=
  let s1 := { s with
    mMenuShowHideText := "Hide Betterbird"
    mMenuShowHideEnabled := false
    mMenuUnsnoozeVisible := false }
  if s1.settings.mAllowSuppressingUnreads = true then
    setIgnoredUnreadMails
      { s1 with
        mMenuIgnoreUnreads := some "Ignore unread emails"
        ignoredUnreadEmails := (s1.ignoredUnreadEmails + 1) % UINT_MOD }
      s1.ignoredUnreadEmails false
  else { s1 with mMenuIgnoreUnreads := none }

/-- The handler of `QDialog::finished` for an accepted settings dialog (lines
469-489); `newSettings` is what the dialog left in the settings singleton. -/
def settingsAccepted (s : State) (newSettings : Settings) : State :=
  let s0 := { s with settings := newSettings }
  let s1 := if s0.settings.mAllowSuppressingUnreads = false then
      setIgnoredUnreadMails s0 0 false
    else s0
  let s2 := updateIcon (enableBlinking (createMenu s1) false)
  s2.emit Effect.settingsChanged

/-- What `actionActivate` reads from outside: the results of
`mWinTools->lookup()`, `isHidden()`, `show()` and `hide()`. -/
structure ActivateEnv where
  lookup : Bool
  isHidden : Bool
  showOk : Bool
  hideOk : Bool
deriving DecidableEq, Repr

/-- Embeds `actionActivate()` (lines 493-509). -/
def actionActivate (s : State) (env : ActivateEnv) : State :=
  if s.hasWinTools = false then s
  else if s.settings.startClosedBetterbird = true then
    let s1 := s.emit (Effect.lookup env.lookup)
    if env.lookup = false then
      let s2 := startBetterbird s1
      if s2.settings.hideWhenStartedManually = true then
        { s2 with mBetterbirdWindowHide := true }
      else s2
    else if env.isHidden = true then showBetterbird s1 env.showOk
    else hideBetterbird s1 env.hideOk
  else if env.isHidden = true then showBetterbird s env.showOk
  else hideBetterbird s env.hideOk

/-- Embeds `actionSystrayIconActivated(reason)` (lines 568-575); `trigger` says whether
the reason is `QSystemTrayIcon::Trigger`. -/
def actionSystrayIconActivated (s : State) (trigger : Bool) (env : ActivateEnv) : State :=
  if trigger = true ∧ (s.settings.mShowHideBetterbird = true ∨
      (s.mBetterbirdWindowExists = false ∧ s.settings.startClosedBetterbird = true)) then
    actionActivate s env
  else s

/-- Embeds `bbProcessError(error)` (lines 708-725): `attached` is whether
`mBetterbirdUpdaterProcess->attach()` succeeds. The handle is kept. -/
def bbProcessError (s : State) (attached : Bool) : State :=
  if s.isWindows = true ∧ attached = true then s else s.emit Effect.messageBox

/-- Embeds `bbProcessFinished(exitCode, exitStatus)` (lines 727-740): `attached` is
whether `mBetterbirdUpdaterProcess->attach()` succeeds. -/
def bbProcessFinished (s : State) (attached : Bool) : State :=
  if s.isWindows = true ∧ attached = true then s
  else
    match s.mBetterbirdProcess with
    | some h => { s with mBetterbirdProcess := none, log := s.log ++ [Effect.processRelease h] }
    | none => s

/-- Embeds `bbUpdaterProcessFinished(exitReason)` (lines 743-755, Windows only). -/
def bbUpdaterProcessFinished (s : State) (isError : Bool) : State :=
  if isError then s.emit Effect.messageBox
  else
    match s.mBetterbirdProcess with
    | some h => { s with mBetterbirdProcess := none, log := s.log ++ [Effect.processRelease h] }
    | none => s

/-! ## Construction and reachable states -/

/-- The members as the constructor initialises them (lines 19-46 and the
default member initialisers of trayicon.h); `now` is
`QDateTime::currentDateTime()` at line 44. -/
def initialState (settings : Settings) (isWindows hasWinTools : Bool) (now : Int) : State :=
  { settings := settings
    isWindows := isWindows
    hasWinTools := hasWinTools
    mBlinkingIconOpacity := 1
    mBlinkingDelta := 0
    mBlinkingTimeout := 0
    blinkTimerActive := false
    mUnreadCounter := 0
    mUnreadColor := 0
    haveUnreadMailsData := false
    ignoredUnreadEmails := 0
    mSnoozedUntil := none
    mBetterbirdStartTime := now + 1000 * settings.mLaunchBetterbirdDelay
    mBetterbirdWindowExisted := false
    mBetterbirdWindowExists := false
    mBetterbirdWindowHide := false
    mBetterbirdProcess := none
    nextHandle := 0
    mLastDrawnIcon := none
    toolTip := ""
    trayVisible := false
    mMenuShowHideText := ""
    mMenuShowHideEnabled := false
    mMenuIgnoreUnreads := none
    mMenuUnsnoozeVisible := false
    warnings := []
    log := [] }

/-- The constructor `TrayIcon::TrayIcon` (lines 17-65): initialisation,
`createMenu()`, then `updateState()`, `updateIcon()` and `show()`. -/
def construct (settings : Settings) (isWindows hasWinTools : Bool) (now : Int)
    (env : PollEnv) : State :=
  let s := updateIcon (updateState (createMenu (initialState settings isWindows hasWinTools now)) env)
  { s with trayVisible := true, log := s.log ++ [Effect.trayShow] }

/-- The signals and timer ticks that reach the tray icon after construction,
with what the handler reads from outside. -/
inductive Event where
  | unreadCounterUpdate (total color : Nat)
  | unreadMonitorWarningChanged (warnings : List WarningEntry)
  | updateState (env : PollEnv)
  | blinkTimeout
  | settingsAccepted (newSettings : Settings)
  | actionActivate (env : ActivateEnv)
  | actionSystrayIconActivated (trigger : Bool) (env : ActivateEnv)
  | actionSnoozeFor (seconds nowUtc : Int)
  | actionUnsnooze
  | actionIgnoreEmails
  | onBetterbirdWindowShown
  | onBetterbirdWindowHidden
  | bbProcessError (attached : Bool)
  | bbProcessFinished (attached : Bool)
  | bbUpdaterProcessFinished (isError : Bool)

/-- When an event can be delivered: an `unsigned int` count is below `2 ^ 32`,
the blink timer only fires while it is running, and the process signals only
come from a tracked process (the updater signal only on Windows). -/
def Event.enabled (s : State) : Event → Prop
  | Event.unreadCounterUpdate total _ => total < UINT_MOD
  | Event.blinkTimeout => s.blinkTimerActive = true
  | Event.bbProcessError _ => s.mBetterbirdProcess ≠ none
  | Event.bbProcessFinished _ => s.mBetterbirdProcess ≠ none
  | Event.bbUpdaterProcessFinished _ => s.isWindows = true ∧ s.mBetterbirdProcess ≠ none
  | _ => True

/-- The handler run for an event. -/
def step (s : State) : Event → State
  | Event.unreadCounterUpdate total color => unreadCounterUpdate s total color
  | Event.unreadMonitorWarningChanged warnings => unreadMonitorWarningChanged s warnings
  | Event.updateState env => updateState s env
  | Event.blinkTimeout => blinkTimeout s
  | Event.settingsAccepted newSettings => settingsAccepted s newSettings
  | Event.actionActivate env => actionActivate s env
  | Event.actionSystrayIconActivated trigger env => actionSystrayIconActivated s trigger env
  | Event.actionSnoozeFor seconds nowUtc => actionSnoozeFor s seconds nowUtc
  | Event.actionUnsnooze => actionUnsnooze s
  | Event.actionIgnoreEmails => actionIgnoreEmails s
  | Event.onBetterbirdWindowShown => onBetterbirdWindowShown s
  | Event.onBetterbirdWindowHidden => onBetterbirdWindowHidden s
  | Event.bbProcessError attached => bbProcessError s attached
  | Event.bbProcessFinished attached => bbProcessFinished s attached
  | Event.bbUpdaterProcessFinished isError => bbUpdaterProcessFinished s isError

/-- The states the tray icon can be in: the state the constructor leaves, and
every state an enabled event leads to from such a state. -/
inductive Reachable : State → Prop where
  | init (settings : Settings) (isWindows hasWinTools : Bool) (now : Int) (env : PollEnv) :
      Reachable (construct settings isWindows hasWinTools now env)
  | step (s : State) (ev : Event) : Reachable s → ev.enabled s → Reachable (step s ev)

/-! ## Predicates used by the theorems -/

/-- The members `updateIcon` never writes agree in `s` and `t`. -/
structure SameCore (s t : State) : Prop where
  settings : t.settings = s.settings
  isWindows : t.isWindows = s.isWindows
  hasWinTools : t.hasWinTools = s.hasWinTools
  mUnreadCounter : t.mUnreadCounter = s.mUnreadCounter
  mUnreadColor : t.mUnreadColor = s.mUnreadColor
  haveUnreadMailsData : t.haveUnreadMailsData = s.haveUnreadMailsData
  ignoredUnreadEmails : t.ignoredUnreadEmails = s.ignoredUnreadEmails
  mSnoozedUntil : t.mSnoozedUntil = s.mSnoozedUntil
  mBetterbirdStartTime : t.mBetterbirdStartTime = s.mBetterbirdStartTime
  mBetterbirdWindowExisted : t.mBetterbirdWindowExisted = s.mBetterbirdWindowExisted
  mBetterbirdWindowExists : t.mBetterbirdWindowExists = s.mBetterbirdWindowExists
  mBetterbirdWindowHide : t.mBetterbirdWindowHide = s.mBetterbirdWindowHide
  mBetterbirdProcess : t.mBetterbirdProcess = s.mBetterbirdProcess
  nextHandle : t.nextHandle = s.nextHandle
  mMenuShowHideText : t.mMenuShowHideText = s.mMenuShowHideText
  mMenuShowHideEnabled : t.mMenuShowHideEnabled = s.mMenuShowHideEnabled
  mMenuIgnoreUnreads : t.mMenuIgnoreUnreads = s.mMenuIgnoreUnreads
  mMenuUnsnoozeVisible : t.mMenuUnsnoozeVisible = s.mMenuUnsnoozeVisible
  warnings : t.warnings = s.warnings

/-- A run of `updateIcon` whose subtraction did not wrap: the baseline was at
most the raw counter, and without a snooze the displayed count was
`max(0, raw - baseline)`. -/
def IconRun.ok (r : IconRun) : Prop :=
  r.ignoredUnreadEmails ≤ r.mUnreadCounter ∧
  (r.snoozed = false →
    r.unread = usub r.mUnreadCounter r.ignoredUnreadEmails ∧
    (r.unread : Int) = max 0 ((r.mUnreadCounter : Int) - (r.ignoredUnreadEmails : Int)))

/-- Blinking is off: the state `enableBlinking(false)` leaves. -/
def BlinkOff (s : State) : Prop :=
  s.mBlinkingTimeout = 0 ∧ s.mBlinkingIconOpacity = 1 ∧ s.mBlinkingDelta = 0 ∧
    s.blinkTimerActive = false

/-- The invariant of the reachable states: the counters are `unsigned int`
values with the baseline at most the raw counter, every logged run of
`updateIcon` was free of wrap-around, and blinking is off while a snooze
deadline is set. -/
structure Inv (s : State) : Prop where
  counter_lt : s.mUnreadCounter < UINT_MOD
  ignored_le : s.ignoredUnreadEmails ≤ s.mUnreadCounter
  runs_ok : ∀ r : IconRun, Effect.updateIcon r ∈ s.log → r.ok
  snooze_blink : s.mSnoozedUntil.isSome = true → BlinkOff s

/-- The effect is a request to start Betterbird or the start of a process. -/
def Effect.isStart : Effect → Bool
  | Effect.startBetterbird => true
  | Effect.processStart _ _ _ => true
  | _ => false

/-- The effect is the start of a process (`QProcess::start`). -/
def Effect.isProcessStart : Effect → Bool
  | Effect.processStart _ _ _ => true
  | _ => false

/-- The effects `updateIcon` produces after its opening record. -/
def Effect.isIconDetail : Effect → Bool
  | Effect.blinkTimerStart _ => true
  | Effect.blinkTimerStop => true
  | Effect.trayHide => true
  | Effect.trayShow => true
  | Effect.setToolTip _ => true
  | Effect.painted _ => true
  | Effect.setIcon _ => true
  | _ => false

/-- The effects that only concern the tray icon and the visibility of the
window: those of `updateIcon`, and the calls of `hide()` and `show()`. -/
def Effect.isQuiet : Effect → Bool
  | Effect.updateIcon _ => true
  | Effect.hideWindow _ => true
  | Effect.showWindow _ => true
  | e => e.isIconDetail

/-- The four blinking members agree in `s` and `t`. -/
def SameBlink (s t : State) : Prop :=
  t.mBlinkingTimeout = s.mBlinkingTimeout ∧ t.mBlinkingIconOpacity = s.mBlinkingIconOpacity ∧
    t.mBlinkingDelta = s.mBlinkingDelta ∧ t.blinkTimerActive = s.blinkTimerActive

/-- The effects logged on the way from `s` to `t`. -/
def effectsSince (s t : State) : List Effect := t.log.drop s.log.length

/-- What the icon-only operations (`updateIcon`, `setIgnoredUnreadMails`, the
window shown and hidden handlers, `hideBetterbird`, `showBetterbird`) leave
alone on the way from `s` to `t`: the settings, the raw counter, the snooze
deadline, the window and process members; the blinking members while a snooze
deadline is set; and the log, which only grows by quiet effects. -/
structure Quiet (s t : State) : Prop where
  settings : t.settings = s.settings
  isWindows : t.isWindows = s.isWindows
  hasWinTools : t.hasWinTools = s.hasWinTools
  mUnreadCounter : t.mUnreadCounter = s.mUnreadCounter
  haveUnreadMailsData : t.haveUnreadMailsData = s.haveUnreadMailsData
  mSnoozedUntil : t.mSnoozedUntil = s.mSnoozedUntil
  mBetterbirdStartTime : t.mBetterbirdStartTime = s.mBetterbirdStartTime
  mBetterbirdWindowExisted : t.mBetterbirdWindowExisted = s.mBetterbirdWindowExisted
  mBetterbirdWindowExists : t.mBetterbirdWindowExists = s.mBetterbirdWindowExists
  mBetterbirdWindowHide : t.mBetterbirdWindowHide = s.mBetterbirdWindowHide
  mBetterbirdProcess : t.mBetterbirdProcess = s.mBetterbirdProcess
  nextHandle : t.nextHandle = s.nextHandle
  blink : s.mSnoozedUntil.isSome = true → SameBlink s t
  log : ∃ l : List Effect, t.log = s.log ++ l ∧ ∀ e ∈ l, e.isQuiet = true

/-- What every step of a poll tick other than `startBetterbird` leaves alone on
the way from `s` to `t`: the settings, the launch time, the tracked process;
and the log only grows by effects that are neither a start request nor a
process start. -/
structure NoStart (s t : State) : Prop where
  settings : t.settings = s.settings
  hasWinTools : t.hasWinTools = s.hasWinTools
  mBetterbirdStartTime : t.mBetterbirdStartTime = s.mBetterbirdStartTime
  mBetterbirdProcess : t.mBetterbirdProcess = s.mBetterbirdProcess
  nextHandle : t.nextHandle = s.nextHandle
  log : ∃ l : List Effect, t.log = s.log ++ l ∧ ∀ e ∈ l, e.isStart = false

/-- The number of processes started so far (`QProcess::start`, line 705). -/
def spawnCount (s : State) : Nat := s.log.countP Effect.isProcessStart

/-- A run of consecutive poll ticks, one `updateState` per environment. -/
def pollRun (s : State) (envs : List PollEnv) : State := envs.foldl updateState s

/-- The condition under which lines 365-412 of `updateState` call
`startBetterbird()`: the window tools exist, the lookup fails, no process is
tracked, and either the window never existed, auto-launch is set and the
launch time has passed, or the window existed before and auto-restart is
set. -/
def startRequested (s : State) (env : PollEnv) : Prop :=
  s.hasWinTools = true ∧ env.lookup = false ∧ s.mBetterbirdProcess = none ∧
    (if s.mBetterbirdWindowExisted = false then
      s.settings.mLaunchBetterbird = true ∧ s.mBetterbirdStartTime < env.now
    else s.settings.mRestartBetterbird = true)

instance (s : State) (env : PollEnv) : Decidable (startRequested s env) := by
  unfold startRequested
  infer_instance

/-- Settings used in the examples: nothing is enabled but the unread counter,
the icon is 128 pixels wide and high, and text of point size `p` measures `p`
by `p` pixels. -/
def exampleSettings : Settings :=
  { iconSize := { width := 128, height := 128 }
    mNotificationIconUnreadIsNull := true
    textSize := fun _ p _ => { width := p, height := p }
    mNotificationFontWeight := 50
    mNotificationBorderColor := none
    mNotificationBorderWidth := 0
    mBlinkSpeed := 0
    mUnreadOpacityLevel := 3 / 4
    mShowHideBetterbird := false
    mLaunchBetterbird := false
    mLaunchBetterbirdDelay := 0
    mHideWhenStarted := false
    mExitBetterbirdWhenQuit := false
    mRestartBetterbird := false
    mHideWhenRestarted := false
    startClosedBetterbird := false
    hideWhenStartedManually := false
    mMonitorBetterbirdWindow := false
    mBlinkingUseAlphaTransition := false
    mAllowSuppressingUnreads := false
    mShowUnreadEmailCount := false
    ignoreUnreadCountOnStart := false
    ignoreUnreadCountOnShow := false
    ignoreUnreadCountOnHide := false
    onlyShowIconOnUnreadMessages := false
    mNotificationMinimumFontSize := 4
    mNotificationMaximumFontSize := 512
    mProcessRunOnCountChange := ""
    startCmdline := some ("betterbird", []) }

/-- The example settings with auto-launch switched on. -/
def launchSettings : Settings := { exampleSettings with mLaunchBetterbird := true }

/-- The example settings with auto-restart switched on. -/
def restartSettings : Settings := { exampleSettings with mRestartBetterbird := true }

/-- The example settings with auto-restart switched on and no command line to
start Betterbird with (`getStartBetterbirdCmdline` returns false). -/
def restartSettingsNoCmdline : Settings :=
  { exampleSettings with mRestartBetterbird := true, startCmdline := none }

/-- A poll tick at time 0 that finds no window. -/
def exampleEnv : PollEnv :=
  { nowUtc := 0, now := 0, lookup := false, hideOk := false, isHidden := false }

/-- The state the constructor leaves for `exampleSettings` with window tools
present, at time 0. -/
def exampleState : State := construct exampleSettings false true 0 exampleEnv

/-- The effect is a call of `mWinTools->hide()`. -/
def Effect.isHide : Effect → Bool
  | Effect.hideWindow _ => true
  | _ => false

/-- The effect is a call of `mWinTools->lookup()` that found the window. -/
def Effect.isFound : Effect → Bool
  | Effect.lookup true => true
  | _ => false

/-- The effect is a start or a stop of the blink timer. -/
def Effect.isBlinkTimer : Effect → Bool
  | Effect.blinkTimerStart _ => true
  | Effect.blinkTimerStop => true
  | _ => false

/-- The number of calls of `mWinTools->hide()` so far. -/
def hideCount (s : State) : Nat := s.log.countP Effect.isHide

/-- The number of calls of `mWinTools->lookup()` so far that found the window. -/
def foundCount (s : State) : Nat := s.log.countP Effect.isFound

/-- The condition of line 206 together with the snooze test of line 195:
`updateIcon` calls `enableBlinking(true)` exactly under it. -/
def armsBlinking (s : State) : Prop :=
  s.mSnoozedUntil.isSome = false ∧ 0 < displayedUnread s ∧ 0 < s.settings.mBlinkSpeed ∧
    s.mBlinkingTimeout = 0

instance (s : State) : Decidable (armsBlinking s) := by
  unfold armsBlinking
  infer_instance

/-- The condition of line 213 under which `updateIcon` hides the tray icon
instead of painting it. -/
def hidesIcon (s : State) : Prop :=
  s.settings.onlyShowIconOnUnreadMessages = true ∧ displayedUnread s = 0

instance (s : State) : Decidable (hidesIcon s) := by
  unfold hidesIcon
  infer_instance

/-- The data (seconds) of the snooze menu action with the given label (lines
628-635 store the key of `snoozingTimes` in the action labelled with its
value). -/
def snoozeEntrySeconds (label : String) : Option Nat :=
  (snoozingTimes.find? (fun e => e.2 == label)).map (fun e => e.1)

/-- Triggering the snooze menu action with the given label: `actionSnoozeFor`
runs with the data of that action. -/
def triggerSnoozeEntry (s : State) (label : String) (nowUtc : Int) : State :=
  match snoozeEntrySeconds label with
  | some seconds => actionSnoozeFor s (seconds : Int) nowUtc
  | none => s

/-- The example settings with blinking at speed 10 and the given mode. -/
def blinkSettings (alpha : Bool) : Settings :=
  { exampleSettings with mBlinkSpeed := 10, mBlinkingUseAlphaTransition := alpha }

/-- The example settings with the tray icon shown only for unread mail. -/
def onlyUnreadSettings : Settings :=
  { exampleSettings with onlyShowIconOnUnreadMessages := true }

/-- The example settings with the window monitored and the counter shown. -/
def monitorSettings : Settings :=
  { exampleSettings with mMonitorBetterbirdWindow := true, mShowUnreadEmailCount := true }

/-- One global warning of the unread monitor. -/
def exampleWarnings : List WarningEntry :=
  [{ path := none, accountName := none, mailFolderName := none, message := some "unreadable" }]

/-- What the steps of a poll tick that neither look the window up nor hide it
leave alone on the way from `s` to `t`: the hide-after-shown flag, the number
of `hide()` calls and the number of successful `lookup()` calls. -/
structure TickIdle (s t : State) : Prop where
  flag : t.mBetterbirdWindowHide = s.mBetterbirdWindowHide
  hides : hideCount t = hideCount s
  founds : foundCount t = foundCount s

/-- The value 1 for a pending hide-after-shown flag and 0 otherwise. -/
def pendingHide (s : State) : Nat := if s.mBetterbirdWindowHide = true then 1 else 0

/-- One if the poll tick on `s` arms the hide-after-shown flag (the flag is
clear in `s` and set after `updateState`, lines 398 and 408), zero
otherwise. -/
def armedIn (s : State) (env : PollEnv) : Nat :=
  if s.mBetterbirdWindowHide = false ∧ (updateState s env).mBetterbirdWindowHide = true then 1
  else 0

/-- The number of armings of the hide-after-shown flag over a run of poll
ticks from `s`. -/
def armings (s : State) : List PollEnv → Nat
  | [] => 0
  | env :: envs => armedIn s env + armings (updateState s env) envs

/-- A reachable state in which "only show icon on unread" is configured, 5
mails are unread, a snooze of 600 s was taken at time 0 and the unread monitor
has then reported a warning. -/
def snoozedWithWarning : State :=
  step (step (step (construct onlyUnreadSettings false true 0 exampleEnv)
    (Event.unreadCounterUpdate 5 0)) (Event.actionSnoozeFor 600 0))
    (Event.unreadMonitorWarningChanged exampleWarnings)

/-- The example settings with auto-launch and hide-when-started switched on. -/
def hideWhenStartedSettings : Settings :=
  { exampleSettings with mLaunchBetterbird := true, mHideWhenStarted := true }

/-- Three poll ticks: the window is absent at time 1 and found at times 2 and 3. -/
def hideRunEnvs : List PollEnv :=
  [{ exampleEnv with now := 1 }, { exampleEnv with now := 2, lookup := true },
    { exampleEnv with now := 3, lookup := true }]

/-- The effect is a run of the hook command (`QProcess::startDetached`, line
144). -/
def Effect.isHook : Effect → Bool
  | Effect.hookCommand _ => true
  | _ => false

/-- The example settings with a hook command configured. -/
def hookSettings : Settings :=
  { exampleSettings with mProcessRunOnCountChange := "notify %NEW% %OLD%" }

/-- The state after construction with `hookSettings` and a first report of 5
unread mails. -/
def hookState : State :=
  step (construct hookSettings false true 0 exampleEnv) (Event.unreadCounterUpdate 5 0)

/-- The effect is a call of `setIcon`: a new bitmap is published. -/
def Effect.isSetIcon : Effect → Bool
  | Effect.setIcon _ => true
  | _ => false

/-- The number of bitmaps published (`setIcon`) so far. -/
def publishCount (s : State) : Nat := s.log.countP Effect.isSetIcon

/-- The condition of line 210 together with the snooze test of line 195:
`updateIcon` calls `enableBlinking(false)` exactly under it. -/
def disarmsBlinking (s : State) : Prop :=
  s.mSnoozedUntil.isSome = false ∧ displayedUnread s = 0 ∧ s.mBlinkingTimeout ≠ 0

instance (s : State) : Decidable (disarmsBlinking s) := by
  unfold disarmsBlinking
  infer_instance

/-- The example settings with the unread counter drawn and discrete blinking
at the given speed. -/
def counterSettings (speed : Nat) : Settings :=
  { exampleSettings with mShowUnreadEmailCount := true, mBlinkSpeed := speed }

/-- The state after construction with `exampleSettings` (blink speed 0, unread
opacity level 0.75) and a report of 5 unread mails. -/
def steadyUnreadState : State :=
  step exampleState (Event.unreadCounterUpdate 5 0)

/-- One expiry of the blink interval: `blinkTimeout` runs if the blink timer is
running (a stopped `QTimer` does not signal). -/
def blinkTick (s : State) : State :=
  if s.blinkTimerActive = true then blinkTimeout s else s

/-- The state after `n` expiries of the blink interval. -/
def blinkTicks : Nat → State → State
  | 0, s => s
  | n + 1, s => blinkTick (blinkTicks n s)

/-- What holds of the blinking members from `enableBlinking(true)` in alpha
transition mode on: the opacity is within 0 and 1 and is a whole number of
steps of the size of the delta below 1, the delta is at most 1 in size, and
while the blink timer runs the delta and the interval are not 0. -/
def AlphaInv (s : State) : Prop :=
  0 ≤ s.mBlinkingIconOpacity ∧ s.mBlinkingIconOpacity ≤ 1 ∧ |s.mBlinkingDelta| ≤ 1 ∧
    (∃ k : Nat, s.mBlinkingIconOpacity = 1 - (k : ℚ) * |s.mBlinkingDelta|) ∧
    (s.blinkTimerActive = true → s.mBlinkingDelta ≠ 0 ∧ s.mBlinkingTimeout ≠ 0)

/-- The delta `blinkTimeout` adds to the opacity in state `s` (lines 429-430): the
stored delta, reversed if the sum would leave the range from 0 to 1. -/
def tickDelta (s : State) : ℚ :=
  if s.mBlinkingIconOpacity + s.mBlinkingDelta > 1 ∨
      s.mBlinkingIconOpacity + s.mBlinkingDelta < 0 then -s.mBlinkingDelta
  else s.mBlinkingDelta

/-- What holds of the blink timer in every reachable state: it does not run
while a snooze deadline is set, and while it runs with an interval other than 0
the displayed unread count is above 0. -/
def ArmedUnread (s : State) : Prop :=
  (s.mSnoozedUntil.isSome = true → s.blinkTimerActive = false) ∧
    (s.blinkTimerActive = true → s.mBlinkingTimeout ≠ 0 → 0 < displayedUnread s)

/-- The example settings with discrete blinking at speed 2147483648, for which
`mBlinkSpeed * 50` is 0 in `unsigned int` arithmetic. -/
def wrapSettings : Settings := { exampleSettings with mBlinkSpeed := 2147483648 }

/-- The state after construction with `wrapSettings` and a report of 5 unread
mails. -/
def wrapState : State :=
  step (construct wrapSettings false true 0 exampleEnv) (Event.unreadCounterUpdate 5 0)

/-- The state after construction with discrete blinking at speed 10 and a
report of 5 unread mails. -/
def discreteState : State :=
  step (construct (blinkSettings false) false true 0 exampleEnv)
    (Event.unreadCounterUpdate 5 0)

/-- What holds of the loop variables `w` at loop exit, relative to the
variables `v` at loop entry. -/
structure SearchPost (measure : Int → QSize) (rectsize : QSize) (v w : SearchVars) : Prop where
  bracket : w.maxfontsize = w.minfontsize + 1
  floor_ge : v.minfontsize ≤ w.minfontsize
  ceil_le : w.maxfontsize ≤ v.maxfontsize
  floor_fits : w.minfontsize = v.minfontsize ∨ fitsRect (measure w.minfontsize) rectsize = true
  ceil_fails : w.maxfontsize = v.maxfontsize ∨ fitsRect (measure w.maxfontsize) rectsize = false
  cur : (w.cursize = v.cursize ∧ v.maxfontsize = v.minfontsize + 1) ∨
        (w.cursize = w.minfontsize ∧ v.minfontsize < w.minfontsize) ∨
        (w.cursize = w.maxfontsize ∧ w.maxfontsize < v.maxfontsize)

/-! ## Theorems about the font-size search -/

theorem searchLoop_of_gt (measure : Int → QSize) (rectsize : QSize) (v : SearchVars)
    (h : v.maxfontsize - v.minfontsize > 1) :
    searchLoop measure rectsize v = searchLoop measure rectsize (searchStep measure rectsize v) := by
  rw [searchLoop]
  simp [h]

theorem searchLoop_of_le (measure : Int → QSize) (rectsize : QSize) (v : SearchVars)
    (h : ¬ v.maxfontsize - v.minfontsize > 1) :
    searchLoop measure rectsize v = v := by
  rw [searchLoop]
  simp [h]

theorem searchLoop_post (measure : Int → QSize) (rectsize : QSize) :
    ∀ (n : Nat) (v : SearchVars), (v.maxfontsize - v.minfontsize).toNat ≤ n →
      v.minfontsize < v.maxfontsize →
      SearchPost measure rectsize v (searchLoop measure rectsize v) := by
  intro n
  induction n with
  | zero => intro v hn hlt; omega
  | succ n ih =>
    intro v hn hlt
    by_cases h : v.maxfontsize - v.minfontsize > 1
    · rw [searchLoop_of_gt measure rectsize v h]
      have hdiv : Int.tdiv (v.maxfontsize - v.minfontsize) 2
          = (v.maxfontsize - v.minfontsize) / 2 :=
        Int.tdiv_eq_ediv (by omega) (by omega)
      by_cases hf : fitsRect (measure (v.minfontsize + (v.maxfontsize - v.minfontsize) / 2))
          rectsize = true
      · have hs : searchStep measure rectsize v =
            { minfontsize := v.minfontsize + (v.maxfontsize - v.minfontsize) / 2,
              maxfontsize := v.maxfontsize,
              cursize := v.minfontsize + (v.maxfontsize - v.minfontsize) / 2 } := by
          simp [searchStep, hdiv, hf]
        rw [hs]
        obtain ⟨p1, p2, p3, p4, p5, p6⟩ := ih
          { minfontsize := v.minfontsize + (v.maxfontsize - v.minfontsize) / 2,
            maxfontsize := v.maxfontsize,
            cursize := v.minfontsize + (v.maxfontsize - v.minfontsize) / 2 }
          (by dsimp only; omega) (by dsimp only; omega)
        dsimp only at p2 p3 p4 p5 p6
        refine ⟨p1, by omega, p3, ?_, p5, ?_⟩
        · rcases p4 with e | e
          · right; rw [e]; exact hf
          · right; exact e
        · rcases p6 with ⟨e1, e2⟩ | ⟨e1, e2⟩ | ⟨e1, e2⟩
          · right; left; constructor <;> omega
          · right; left; constructor <;> omega
          · right; right; exact ⟨e1, e2⟩
      · have hf2 : fitsRect (measure (v.minfontsize + (v.maxfontsize - v.minfontsize) / 2))
            rectsize = false := by simpa using hf
        have hs : searchStep measure rectsize v =
            { minfontsize := v.minfontsize,
              maxfontsize := v.minfontsize + (v.maxfontsize - v.minfontsize) / 2,
              cursize := v.minfontsize + (v.maxfontsize - v.minfontsize) / 2 } := by
          simp [searchStep, hdiv, hf2]
        rw [hs]
        obtain ⟨p1, p2, p3, p4, p5, p6⟩ := ih
          { minfontsize := v.minfontsize,
            maxfontsize := v.minfontsize + (v.maxfontsize - v.minfontsize) / 2,
            cursize := v.minfontsize + (v.maxfontsize - v.minfontsize) / 2 }
          (by dsimp only; omega) (by dsimp only; omega)
        dsimp only at p2 p3 p4 p5 p6
        refine ⟨p1, p2, by omega, p4, ?_, ?_⟩
        · rcases p5 with e | e
          · right; rw [e]; exact hf2
          · right; exact e
        · rcases p6 with ⟨e1, e2⟩ | ⟨e1, e2⟩ | ⟨e1, e2⟩
          · right; right; constructor <;> omega
          · right; left; exact ⟨e1, e2⟩
          · right; right; constructor <;> omega
    · rw [searchLoop_of_le measure rectsize v h]
      exact ⟨by omega, le_refl _, le_refl _, Or.inl rfl, Or.inl rfl, Or.inl ⟨rfl, by omega⟩⟩

/-- Claim C1, refuted as stated: with `minfontsize = 4`, `maxfontsize = 5` the
loop body never runs, so no size is measured and 4 is returned although the
text does not fit the bounds at any size. -/
theorem largestFontSize_fits_counterexample :
    largestFontSize (fun _ => { width := 10, height := 10 }) 4 5 { width := 5, height := 5 } = 4
    ∧ fitsRect ((fun _ : Int => ({ width := 10, height := 10 } : QSize))
        (largestFontSize (fun _ => { width := 10, height := 10 }) 4 5
          { width := 5, height := 5 })) { width := 5, height := 5 } = false := by
  have h : largestFontSize (fun _ => { width := 10, height := 10 }) 4 5
      { width := 5, height := 5 } = 4 := by
    simp [largestFontSize, searchLoop]
  refine ⟨h, ?_⟩
  rw [h]
  decide

/-- The returned size need not fit even when `minfontsize` fits and the
measurement is monotone: for the bracket 4..6 the only midpoint is 5; when 5
does not fit the ceiling becomes 5, the loop ends and `cursize = 5` is returned
rather than the floor 4. -/
theorem largestFontSize_returns_rejected_midpoint :
    largestFontSize (fun p => { width := p, height := p }) 4 6 { width := 5, height := 5 } = 5
    ∧ fitsRect { width := 4, height := 4 } { width := 5, height := 5 } = true
    ∧ fitsRect { width := 5, height := 5 } { width := 5, height := 5 } = false := by
  refine ⟨?_, by decide, by decide⟩
  simp [largestFontSize, searchLoop, searchStep, fitsRect, Int.tdiv]

/-- Claim C1, amended: for `min < max` and every measurement under which `min`
itself fits, the floor of the search bracket at loop exit fits the bounds, and
the returned size fits whenever it is that floor (no midpoint was measured, or
the last midpoint measured fit). -/
theorem largestFontSize_floor_fits (measure : Int → QSize) (rectsize : QSize)
    (minfontsize maxfontsize : Int) (hlt : minfontsize < maxfontsize)
    (hmin : fitsRect (measure minfontsize) rectsize = true) :
    fitsRect (measure (searchLoop measure rectsize
        { minfontsize := minfontsize, maxfontsize := maxfontsize,
          cursize := minfontsize }).minfontsize) rectsize = true
    ∧ ((searchLoop measure rectsize
        { minfontsize := minfontsize, maxfontsize := maxfontsize,
          cursize := minfontsize }).cursize
        = (searchLoop measure rectsize
        { minfontsize := minfontsize, maxfontsize := maxfontsize,
          cursize := minfontsize }).minfontsize →
      fitsRect (measure (largestFontSize measure minfontsize maxfontsize rectsize))
        rectsize = true) := by
  have post := searchLoop_post measure rectsize _
    { minfontsize := minfontsize, maxfontsize := maxfontsize, cursize := minfontsize }
    (le_refl _) hlt
  have hfloor : fitsRect (measure (searchLoop measure rectsize
        { minfontsize := minfontsize, maxfontsize := maxfontsize,
          cursize := minfontsize }).minfontsize) rectsize = true := by
    rcases post.floor_fits with e | e
    · rw [e]; exact hmin
    · exact e
  refine ⟨hfloor, ?_⟩
  intro hcur
  unfold largestFontSize
  rw [hcur]
  exact hfloor

theorem largestFontSize_floor_fits_witness :
    fitsRect ((fun p : Int => ({ width := p, height := p } : QSize)) 4)
        { width := 8, height := 8 } = true
    ∧ largestFontSize (fun p => { width := p, height := p }) 4 8 { width := 8, height := 8 } = 7
    ∧ fitsRect ((fun p : Int => ({ width := p, height := p } : QSize))
        (largestFontSize (fun p => { width := p, height := p }) 4 8
          { width := 8, height := 8 })) { width := 8, height := 8 } = true := by
  have hloop : searchLoop (fun p => { width := p, height := p }) { width := 8, height := 8 }
      { minfontsize := 4, maxfontsize := 8, cursize := 4 }
      = { minfontsize := 7, maxfontsize := 8, cursize := 7 } := by
    simp [searchLoop, searchStep, fitsRect, Int.tdiv]
  refine ⟨by decide, by simp [largestFontSize, hloop], ?_⟩
  exact (largestFontSize_floor_fits (fun p => { width := p, height := p })
    { width := 8, height := 8 } 4 8 (by decide) (by decide)).2 (by rw [hloop])

theorem enableBlinking_sameCore (s : State) (b : Bool) : SameCore s (enableBlinking s b) := by
  unfold enableBlinking
  split_ifs <;> constructor <;> rfl

theorem adjustBlinking_sameCore (s : State) (unread : Nat) :
    SameCore s (adjustBlinking s unread) := by
  unfold adjustBlinking enableBlinking
  dsimp only
  split_ifs <;> constructor <;> rfl

theorem SameCore.coreRefl (s : State) : SameCore s s := by
  constructor <;> rfl

theorem SameCore.coreTrans {s t u : State} (h1 : SameCore s t) (h2 : SameCore t u) :
    SameCore s u := by
  obtain ⟨a1, a2, a3, a4, a5, a6, a7, a8, a9, a10, a11, a12, a13, a14, a15, a16, a17, a18,
    a19⟩ := h1
  obtain ⟨b1, b2, b3, b4, b5, b6, b7, b8, b9, b10, b11, b12, b13, b14, b15, b16, b17, b18,
    b19⟩ := h2
  exact ⟨b1.trans a1, b2.trans a2, b3.trans a3, b4.trans a4, b5.trans a5, b6.trans a6,
    b7.trans a7, b8.trans a8, b9.trans a9, b10.trans a10, b11.trans a11, b12.trans a12,
    b13.trans a13, b14.trans a14, b15.trans a15, b16.trans a16, b17.trans a17, b18.trans a18,
    b19.trans a19⟩

theorem prepareIcon_sameCore (s : State) : SameCore s (prepareIcon s) := by
  have h0 : SameCore s (s.emit (Effect.updateIcon (iconRunOf s))) := by
    constructor <;> rfl
  unfold prepareIcon
  dsimp only
  split_ifs
  · exact h0
  · exact h0.coreTrans (adjustBlinking_sameCore _ _)

theorem renderIcon_sameCore (s : State) (unread : Nat) : SameCore s (renderIcon s unread) := by
  unfold renderIcon
  dsimp only
  split_ifs <;> constructor <;> rfl

theorem updateIcon_sameCore (s : State) : SameCore s (updateIcon s) := by
  unfold updateIcon
  dsimp only
  split_ifs
  · exact (prepareIcon_sameCore s).coreTrans (by constructor <;> rfl)
  · exact (prepareIcon_sameCore s).coreTrans (renderIcon_sameCore _ _)

theorem enableBlinking_log (s : State) (b : Bool) :
    ∃ e : Effect, (enableBlinking s b).log = s.log ++ [e] ∧ e.isIconDetail = true := by
  unfold enableBlinking
  split_ifs <;> exact ⟨_, rfl, rfl⟩

theorem adjustBlinking_log (s : State) (unread : Nat) :
    ∃ l : List Effect, (adjustBlinking s unread).log = s.log ++ l ∧
      ∀ e ∈ l, e.isIconDetail = true := by
  unfold adjustBlinking
  dsimp only
  split_ifs
  · obtain ⟨e1, h1, d1⟩ := enableBlinking_log s true
    obtain ⟨e2, h2, d2⟩ := enableBlinking_log (enableBlinking s true) false
    refine ⟨[e1, e2], ?_, ?_⟩
    · rw [h2, h1]; simp
    · intro e he
      simp only [List.mem_cons, List.mem_singleton, List.not_mem_nil, or_false] at he
      rcases he with rfl | rfl <;> assumption
  · obtain ⟨e1, h1, d1⟩ := enableBlinking_log s true
    exact ⟨[e1], h1, by simpa using d1⟩
  · obtain ⟨e1, h1, d1⟩ := enableBlinking_log s false
    exact ⟨[e1], h1, by simpa using d1⟩
  · exact ⟨[], by simp, by simp⟩

theorem prepareIcon_log (s : State) :
    ∃ l : List Effect, (prepareIcon s).log = s.log ++ Effect.updateIcon (iconRunOf s) :: l ∧
      ∀ e ∈ l, e.isIconDetail = true := by
  unfold prepareIcon
  dsimp only
  split_ifs
  · exact ⟨[], rfl, by simp⟩
  · obtain ⟨l, h, d⟩ := adjustBlinking_log (s.emit (Effect.updateIcon (iconRunOf s)))
      (displayedUnread s)
    refine ⟨l, ?_, d⟩
    rw [h]
    simp [State.emit]

theorem renderIcon_log (s : State) (unread : Nat) :
    ∃ l : List Effect, (renderIcon s unread).log = s.log ++ l ∧
      ∀ e ∈ l, e.isIconDetail = true := by
  unfold renderIcon
  dsimp only
  split_ifs
  · exact ⟨[Effect.setToolTip (toolTipText s.warnings), Effect.painted (paintIcon s unread),
      Effect.setIcon (paintIcon s unread), Effect.trayShow], by simp,
      by simp [Effect.isIconDetail]⟩
  · exact ⟨[Effect.setToolTip (toolTipText s.warnings), Effect.painted (paintIcon s unread),
      Effect.trayShow], by simp, by simp [Effect.isIconDetail]⟩

theorem updateIcon_log (s : State) :
    ∃ l : List Effect, (updateIcon s).log = s.log ++ Effect.updateIcon (iconRunOf s) :: l ∧
      ∀ e ∈ l, e.isIconDetail = true := by
  obtain ⟨l1, h1, d1⟩ := prepareIcon_log s
  unfold updateIcon
  dsimp only
  split_ifs
  · refine ⟨l1 ++ [Effect.trayHide], ?_, ?_⟩
    · simp [h1]
    · intro e he
      rcases List.mem_append.mp he with h | h
      · exact d1 e h
      · simp only [List.mem_singleton] at h
        subst h; rfl
  · obtain ⟨l2, h2, d2⟩ := renderIcon_log (prepareIcon s) (displayedUnread s)
    refine ⟨l1 ++ l2, ?_, ?_⟩
    · rw [h2, h1]; simp
    · intro e he
      rcases List.mem_append.mp he with h | h
      · exact d1 e h
      · exact d2 e h

theorem adjustBlinking_zero_off (s : State) (h : s.mBlinkingTimeout = 0) :
    adjustBlinking s 0 = s := by
  unfold adjustBlinking
  simp [h]

theorem prepareIcon_blink_snoozed (s : State) (h : s.mSnoozedUntil.isSome = true) :
    SameBlink s (prepareIcon s) := by
  unfold prepareIcon State.emit
  simp only [h, if_true]
  exact ⟨rfl, rfl, rfl, rfl⟩

theorem renderIcon_blink (s : State) (unread : Nat) : SameBlink s (renderIcon s unread) := by
  unfold renderIcon
  dsimp only
  split_ifs <;> exact ⟨rfl, rfl, rfl, rfl⟩

theorem SameBlink.blinkTrans {s t u : State} (h1 : SameBlink s t) (h2 : SameBlink t u) :
    SameBlink s u :=
  ⟨h2.1.trans h1.1, h2.2.1.trans h1.2.1, h2.2.2.1.trans h1.2.2.1, h2.2.2.2.trans h1.2.2.2⟩

theorem updateIcon_blink_snoozed (s : State) (h : s.mSnoozedUntil.isSome = true) :
    SameBlink s (updateIcon s) := by
  have hp := prepareIcon_blink_snoozed s h
  unfold updateIcon
  dsimp only
  split_ifs
  · exact hp.blinkTrans ⟨rfl, rfl, rfl, rfl⟩
  · exact hp.blinkTrans (renderIcon_blink _ _)

theorem isQuiet_of_isIconDetail (e : Effect) (h : e.isIconDetail = true) : e.isQuiet = true := by
  cases e <;> simp_all [Effect.isQuiet, Effect.isIconDetail]

theorem Quiet.quietRefl (s : State) : Quiet s s :=
  ⟨rfl, rfl, rfl, rfl, rfl, rfl, rfl, rfl, rfl, rfl, rfl, rfl, fun _ => ⟨rfl, rfl, rfl, rfl⟩,
    ⟨[], by simp, by simp⟩⟩

theorem Quiet.quietTrans {s t u : State} (h1 : Quiet s t) (h2 : Quiet t u) : Quiet s u := by
  obtain ⟨a1, a2, a3, a4, a5, a6, a7, a8, a9, a10, a11, a12, ab, l1, al, aq⟩ := h1
  obtain ⟨b1, b2, b3, b4, b5, b6, b7, b8, b9, b10, b11, b12, bb, l2, bl, bq⟩ := h2
  refine ⟨b1.trans a1, b2.trans a2, b3.trans a3, b4.trans a4, b5.trans a5, b6.trans a6,
    b7.trans a7, b8.trans a8, b9.trans a9, b10.trans a10, b11.trans a11, b12.trans a12, ?_,
    l1 ++ l2, ?_, ?_⟩
  · intro hs
    exact (ab hs).blinkTrans (bb (by rw [a6]; exact hs))
  · rw [bl, al, List.append_assoc]
  · intro e he
    rcases List.mem_append.mp he with h | h
    · exact aq e h
    · exact bq e h

theorem updateIcon_quiet (s : State) : Quiet s (updateIcon s) := by
  have c := updateIcon_sameCore s
  obtain ⟨l, hl, hd⟩ := updateIcon_log s
  refine ⟨c.settings, c.isWindows, c.hasWinTools, c.mUnreadCounter, c.haveUnreadMailsData,
    c.mSnoozedUntil, c.mBetterbirdStartTime, c.mBetterbirdWindowExisted,
    c.mBetterbirdWindowExists, c.mBetterbirdWindowHide, c.mBetterbirdProcess, c.nextHandle,
    updateIcon_blink_snoozed s, _, hl, ?_⟩
  intro e he
  rcases List.mem_cons.mp he with h | h
  · subst h; rfl
  · exact isQuiet_of_isIconDetail e (hd e h)

/-! ## The invariant is kept by every handler -/

theorem usub_of_le (a b : Nat) (hb : b ≤ a) (ha : a < UINT_MOD) : usub a b = a - b := by
  unfold usub UINT_MOD at *
  omega

theorem iconRunOf_ok (s : State) (hc : s.mUnreadCounter < UINT_MOD)
    (hi : s.ignoredUnreadEmails ≤ s.mUnreadCounter) : (iconRunOf s).ok := by
  refine ⟨hi, ?_⟩
  intro hs
  have hs2 : s.mSnoozedUntil.isSome = false := hs
  simp only [iconRunOf, displayedUnread, hs2, Bool.false_eq_true, if_false]
  refine ⟨trivial, ?_⟩
  rw [usub_of_le _ _ hi hc]
  omega

theorem runs_ok_append (log l : List Effect)
    (h : ∀ r : IconRun, Effect.updateIcon r ∈ log → r.ok)
    (hl : ∀ r : IconRun, Effect.updateIcon r ∈ l → r.ok) :
    ∀ r : IconRun, Effect.updateIcon r ∈ log ++ l → r.ok := by
  intro r hr
  rcases List.mem_append.mp hr with h1 | h1
  · exact h r h1
  · exact hl r h1

theorem updateIcon_inv (s : State) (h : Inv s) : Inv (updateIcon s) := by
  have c := updateIcon_sameCore s
  obtain ⟨l, hl, hd⟩ := updateIcon_log s
  refine ⟨?_, ?_, ?_, ?_⟩
  · rw [c.mUnreadCounter]; exact h.counter_lt
  · rw [c.mUnreadCounter, c.ignoredUnreadEmails]; exact h.ignored_le
  · rw [hl]
    apply runs_ok_append _ _ h.runs_ok
    intro r hr
    rcases List.mem_cons.mp hr with h1 | h1
    · have : r = iconRunOf s := by injection h1
      rw [this]
      exact iconRunOf_ok s h.counter_lt h.ignored_le
    · have := hd _ h1
      simp [Effect.isIconDetail] at this
  · intro hs
    rw [c.mSnoozedUntil] at hs
    obtain ⟨b1, b2, b3, b4⟩ := updateIcon_blink_snoozed s hs
    obtain ⟨o1, o2, o3, o4⟩ := h.snooze_blink hs
    exact ⟨b1.trans o1, b2.trans o2, b3.trans o3, b4.trans o4⟩

theorem emit_inv (s : State) (h : Inv s) (e : Effect)
    (he : ∀ r : IconRun, e ≠ Effect.updateIcon r) : Inv (s.emit e) := by
  refine ⟨h.counter_lt, h.ignored_le, ?_, h.snooze_blink⟩
  apply runs_ok_append _ _ h.runs_ok
  intro r hr
  simp only [List.mem_singleton] at hr
  exact absurd hr.symm (he r)

theorem setIgnoredUnreadMails_inv (s : State) (h : Inv s) (v : Nat)
    (hv : v ≤ s.mUnreadCounter) (b : Bool) : Inv (setIgnoredUnreadMails s v b) := by
  unfold setIgnoredUnreadMails
  dsimp only
  split_ifs
  · exact h
  · exact updateIcon_inv _ ⟨h.counter_lt, hv, h.runs_ok, h.snooze_blink⟩
  · exact ⟨h.counter_lt, hv, h.runs_ok, h.snooze_blink⟩

theorem onBetterbirdWindowShown_inv (s : State) (h : Inv s) :
    Inv (onBetterbirdWindowShown s) := by
  unfold onBetterbirdWindowShown
  dsimp only
  split_ifs
  · refine setIgnoredUnreadMails_inv _ ?_ _ ?_ true
    · exact ⟨h.counter_lt, h.ignored_le, h.runs_ok, h.snooze_blink⟩
    · exact le_refl _
  · exact ⟨h.counter_lt, h.ignored_le, h.runs_ok, h.snooze_blink⟩

theorem onBetterbirdWindowHidden_inv (s : State) (h : Inv s) :
    Inv (onBetterbirdWindowHidden s) := by
  unfold onBetterbirdWindowHidden
  dsimp only
  split_ifs
  · refine setIgnoredUnreadMails_inv _ ?_ _ ?_ true
    · exact ⟨h.counter_lt, h.ignored_le, h.runs_ok, h.snooze_blink⟩
    · exact le_refl _
  · exact ⟨h.counter_lt, h.ignored_le, h.runs_ok, h.snooze_blink⟩

theorem hideBetterbird_inv (s : State) (h : Inv s) (ok : Bool) :
    Inv (hideBetterbird s ok) := by
  have h1 : Inv (s.emit (Effect.hideWindow ok)) := emit_inv s h _ (by intro r; simp)
  unfold hideBetterbird
  dsimp only
  split_ifs
  · exact onBetterbirdWindowHidden_inv _ h1
  · exact h1

theorem showBetterbird_inv (s : State) (h : Inv s) (ok : Bool) :
    Inv (showBetterbird s ok) := by
  have h1 : Inv (s.emit (Effect.showWindow ok)) := emit_inv s h _ (by intro r; simp)
  unfold showBetterbird
  dsimp only
  split_ifs
  · exact onBetterbirdWindowShown_inv _ h1
  · exact h1

theorem startBetterbird_inv (s : State) (h : Inv s) : Inv (startBetterbird s) := by
  have h0 : Inv (s.emit Effect.startBetterbird) := emit_inv s h _ (by intro r; simp)
  unfold startBetterbird
  dsimp only
  split
  · exact h0
  · split
    · have h1 := emit_inv _ h0 (Effect.processRelease ‹Nat›) (by intro r; simp)
      have h2 := emit_inv _ h1 (Effect.processStart
        (s.emit Effect.startBetterbird).nextHandle ‹String × List String›.1
        ‹String × List String›.2) (by intro r; simp)
      exact ⟨h2.counter_lt, h2.ignored_le, h2.runs_ok, h2.snooze_blink⟩
    · have h2 := emit_inv _ h0 (Effect.processStart
        (s.emit Effect.startBetterbird).nextHandle ‹String × List String›.1
        ‹String × List String›.2) (by intro r; simp)
      exact ⟨h2.counter_lt, h2.ignored_le, h2.runs_ok, h2.snooze_blink⟩

theorem actionUnsnooze_inv (s : State) (h : Inv s) : Inv (actionUnsnooze s) := by
  unfold actionUnsnooze
  apply updateIcon_inv
  refine ⟨h.counter_lt, h.ignored_le, ?_, ?_⟩
  · apply runs_ok_append _ _ h.runs_ok
    intro r hr
    simp at hr
  · intro hs
    simp at hs

theorem enableBlinking_false_blinkOff (s : State) : BlinkOff (enableBlinking s false) := by
  unfold enableBlinking
  simp [BlinkOff]

theorem enableBlinking_false_inv (s : State) (h : Inv s) : Inv (enableBlinking s false) := by
  refine ⟨h.counter_lt, h.ignored_le, ?_, fun _ => enableBlinking_false_blinkOff s⟩
  obtain ⟨e, he, hd⟩ := enableBlinking_log s false
  rw [he]
  apply runs_ok_append _ _ h.runs_ok
  intro r hr
  simp only [List.mem_singleton] at hr
  subst hr
  simp [Effect.isIconDetail] at hd

theorem actionSnoozeFor_inv (s : State) (h : Inv s) (seconds nowUtc : Int) :
    Inv (actionSnoozeFor s seconds nowUtc) := by
  unfold actionSnoozeFor
  dsimp only
  apply updateIcon_inv
  have hb := enableBlinking_false_blinkOff { s with
    mSnoozedUntil := some (nowUtc + 1000 * seconds)
    mMenuUnsnoozeVisible := true
    log := s.log ++ [Effect.snoozed (nowUtc + 1000 * seconds)] }
  refine ⟨h.counter_lt, h.ignored_le, ?_, fun _ => hb⟩
  obtain ⟨e, he, hd⟩ := enableBlinking_log { s with
    mSnoozedUntil := some (nowUtc + 1000 * seconds)
    mMenuUnsnoozeVisible := true
    log := s.log ++ [Effect.snoozed (nowUtc + 1000 * seconds)] } false
  rw [he]
  apply runs_ok_append
  · apply runs_ok_append _ _ h.runs_ok
    intro r hr
    simp at hr
  · intro r hr
    simp only [List.mem_singleton] at hr
    subst hr
    simp [Effect.isIconDetail] at hd

theorem actionIgnoreEmails_inv (s : State) (h : Inv s) : Inv (actionIgnoreEmails s) :=
  setIgnoredUnreadMails_inv s h _ (le_refl _) true

theorem checkSnooze_inv (s : State) (h : Inv s) (nowUtc : Int) :
    Inv (checkSnooze s nowUtc) := by
  unfold checkSnooze
  split
  · split_ifs
    · exact actionUnsnooze_inv s h
    · exact h
  · exact h

theorem reconcileWindow_inv (s : State) (h : Inv s) (env : PollEnv) :
    Inv (reconcileWindow s env) := by
  have h1 : Inv { s with
      mBetterbirdWindowExists := env.lookup
      log := s.log ++ [Effect.lookup env.lookup] } := by
    refine ⟨h.counter_lt, h.ignored_le, ?_, h.snooze_blink⟩
    apply runs_ok_append _ _ h.runs_ok
    intro r hr
    simp at hr
  unfold reconcileWindow
  dsimp only
  split_ifs
  · refine hideBetterbird_inv _ ?_ _
    exact ⟨h1.counter_lt, h1.ignored_le, h1.runs_ok, h1.snooze_blink⟩
  · exact ⟨h1.counter_lt, h1.ignored_le, h1.runs_ok, h1.snooze_blink⟩
  · have h2 := startBetterbird_inv _ h1
    exact ⟨h2.counter_lt, h2.ignored_le, h2.runs_ok, h2.snooze_blink⟩
  · exact startBetterbird_inv _ h1
  · exact h1
  · have h2 := startBetterbird_inv _ h1
    exact ⟨h2.counter_lt, h2.ignored_le, h2.runs_ok, h2.snooze_blink⟩
  · exact startBetterbird_inv _ h1
  · exact h1

theorem updateState_inv (s : State) (h : Inv s) (env : PollEnv) :
    Inv (updateState s env) := by
  have h1 := checkSnooze_inv s h env.nowUtc
  unfold updateState
  dsimp only
  have h2 := reconcileWindow_inv _ h1 env
  split_ifs
  · exact updateIcon_inv _ ⟨h2.counter_lt, h2.ignored_le, h2.runs_ok, h2.snooze_blink⟩
  · exact updateIcon_inv _ ⟨h2.counter_lt, h2.ignored_le, h2.runs_ok, h2.snooze_blink⟩
  · exact h1

theorem blinkTimeout_inv (s : State) (h : Inv s) (ht : s.blinkTimerActive = true) :
    Inv (blinkTimeout s) := by
  have hs : ¬ s.mSnoozedUntil.isSome = true := by
    intro hs
    have := (h.snooze_blink hs).2.2.2
    rw [ht] at this
    exact Bool.noConfusion this
  unfold blinkTimeout
  dsimp only
  split_ifs <;> apply updateIcon_inv <;>
    exact ⟨h.counter_lt, h.ignored_le, h.runs_ok, fun hx => absurd hx hs⟩

theorem unreadMonitorWarningChanged_inv (s : State) (h : Inv s)
    (warnings : List WarningEntry) : Inv (unreadMonitorWarningChanged s warnings) := by
  unfold unreadMonitorWarningChanged
  apply updateIcon_inv
  exact ⟨h.counter_lt, h.ignored_le, h.runs_ok, h.snooze_blink⟩

theorem setIgnoredUnreadMails_false_fields (s : State) (v : Nat) :
    (setIgnoredUnreadMails s v false).ignoredUnreadEmails = v
    ∧ (setIgnoredUnreadMails s v false).mUnreadCounter = s.mUnreadCounter
    ∧ (setIgnoredUnreadMails s v false).log = s.log
    ∧ (setIgnoredUnreadMails s v false).mSnoozedUntil = s.mSnoozedUntil
    ∧ SameBlink s (setIgnoredUnreadMails s v false)
    ∧ (setIgnoredUnreadMails s v false).settings = s.settings
    ∧ (setIgnoredUnreadMails s v false).haveUnreadMailsData = s.haveUnreadMailsData := by
  by_cases h : v = s.ignoredUnreadEmails
  · have e : setIgnoredUnreadMails s v false = s := by
      unfold setIgnoredUnreadMails
      rw [if_pos h]
    rw [e]
    exact ⟨h.symm, rfl, rfl, rfl, ⟨rfl, rfl, rfl, rfl⟩, rfl, rfl⟩
  · have e : setIgnoredUnreadMails s v false = { s with
        ignoredUnreadEmails := v
        mMenuIgnoreUnreads :=
          match s.mMenuIgnoreUnreads with
          | some _ => some (ignoreMenuText v)
          | none => none } := by
      unfold setIgnoredUnreadMails
      rw [if_neg h]
      simp
    rw [e]
    exact ⟨rfl, rfl, rfl, rfl, ⟨rfl, rfl, rfl, rfl⟩, rfl, rfl⟩

theorem inv_of_fields (s t : State) (h : Inv s) (hc : t.mUnreadCounter < UINT_MOD)
    (hi : t.ignoredUnreadEmails ≤ t.mUnreadCounter)
    (hl : ∀ r : IconRun, Effect.updateIcon r ∈ t.log → Effect.updateIcon r ∈ s.log)
    (hs : t.mSnoozedUntil = s.mSnoozedUntil) (hb : SameBlink s t) : Inv t := by
  refine ⟨hc, hi, fun r hr => h.runs_ok r (hl r hr), ?_⟩
  intro hx
  rw [hs] at hx
  obtain ⟨o1, o2, o3, o4⟩ := h.snooze_blink hx
  obtain ⟨b1, b2, b3, b4⟩ := hb
  exact ⟨b1.trans o1, b2.trans o2, b3.trans o3, b4.trans o4⟩

theorem createMenu_inv (s : State) (h : Inv s) : Inv (createMenu s) := by
  unfold createMenu
  dsimp only
  split_ifs
  · obtain ⟨f1, f2, f3, f4, f5, _, _⟩ := setIgnoredUnreadMails_false_fields
      { s with
        mMenuShowHideText := "Hide Betterbird"
        mMenuShowHideEnabled := false
        mMenuUnsnoozeVisible := false
        mMenuIgnoreUnreads := some "Ignore unread emails"
        ignoredUnreadEmails := (s.ignoredUnreadEmails + 1) % UINT_MOD }
      s.ignoredUnreadEmails
    refine inv_of_fields s _ h ?_ ?_ ?_ f4 f5
    · rw [f2]; exact h.counter_lt
    · rw [f1, f2]; exact h.ignored_le
    · intro r hr
      rw [f3] at hr
      exact hr
  · exact ⟨h.counter_lt, h.ignored_le, h.runs_ok, h.snooze_blink⟩

theorem settingsAccepted_inv (s : State) (h : Inv s) (newSettings : Settings) :
    Inv (settingsAccepted s newSettings) := by
  have h0 : Inv { s with settings := newSettings } :=
    ⟨h.counter_lt, h.ignored_le, h.runs_ok, h.snooze_blink⟩
  unfold settingsAccepted
  dsimp only
  apply emit_inv _ _ _ (by intro r; simp)
  apply updateIcon_inv
  apply enableBlinking_false_inv
  apply createMenu_inv
  split_ifs
  · exact setIgnoredUnreadMails_inv _ h0 0 (Nat.zero_le _) false
  · exact h0

theorem unreadCounterUpdate_inv (s : State) (h : Inv s) (total color : Nat)
    (ht : total < UINT_MOD) : Inv (unreadCounterUpdate s total color) := by
  unfold unreadCounterUpdate
  dsimp only
  apply updateIcon_inv
  -- the state after the `ignoreUnreadCountOnStart` rule
  have k1 : ∀ s1 : State,
      s1 = (if s.settings.ignoreUnreadCountOnStart = true ∧ s.haveUnreadMailsData = false then
        setIgnoredUnreadMails s total false else s) →
      s1.log = s.log ∧ s1.mSnoozedUntil = s.mSnoozedUntil ∧ SameBlink s s1 := by
    intro s1 e
    subst e
    split_ifs
    · obtain ⟨_, _, f3, f4, f5, _, _⟩ := setIgnoredUnreadMails_false_fields s total
      exact ⟨f3, f4, f5⟩
    · exact ⟨rfl, rfl, ⟨rfl, rfl, rfl, rfl⟩⟩
  generalize hs1 : (if s.settings.ignoreUnreadCountOnStart = true ∧
      s.haveUnreadMailsData = false then setIgnoredUnreadMails s total false else s) = s1
  obtain ⟨a1, a2, a3⟩ := k1 s1 hs1.symm
  -- the state after the baseline was lowered
  have k2 : ∀ s2 : State,
      s2 = (if total < s1.ignoredUnreadEmails then setIgnoredUnreadMails s1 total false
        else s1) →
      s2.log = s.log ∧ s2.mSnoozedUntil = s.mSnoozedUntil ∧ SameBlink s s2 ∧
        s2.ignoredUnreadEmails ≤ total := by
    intro s2 e
    subst e
    split_ifs with hlt
    · obtain ⟨f1, _, f3, f4, f5, _, _⟩ := setIgnoredUnreadMails_false_fields s1 total
      exact ⟨f3.trans a1, f4.trans a2, a3.blinkTrans f5, le_of_eq f1⟩
    · exact ⟨a1, a2, a3, Nat.le_of_not_lt hlt⟩
  generalize hs2 : (if total < s1.ignoredUnreadEmails then
      setIgnoredUnreadMails s1 total false else s1) = s2
  obtain ⟨b1, b2, b3, b4⟩ := k2 s2 hs2.symm
  split_ifs
  · refine inv_of_fields s _ h ht b4 ?_ b2 b3
    intro r hr
    have hr2 : Effect.updateIcon r ∈ s2.log ++ [Effect.hookCommand
        (hookCmdline s2.settings.mProcessRunOnCountChange total s2.mUnreadCounter)] := hr
    rw [b1] at hr2
    simpa using hr2
  · refine inv_of_fields s _ h ht b4 ?_ b2 b3
    intro r hr
    have hr2 : Effect.updateIcon r ∈ s2.log := hr
    rw [b1] at hr2
    exact hr2

theorem actionActivate_inv (s : State) (h : Inv s) (env : ActivateEnv) :
    Inv (actionActivate s env) := by
  have h1 : Inv (s.emit (Effect.lookup env.lookup)) := emit_inv s h _ (by intro r; simp)
  unfold actionActivate
  dsimp only
  split_ifs
  · exact h
  · have h2 := startBetterbird_inv _ h1
    exact ⟨h2.counter_lt, h2.ignored_le, h2.runs_ok, h2.snooze_blink⟩
  · exact startBetterbird_inv _ h1
  · exact showBetterbird_inv _ h1 _
  · exact hideBetterbird_inv _ h1 _
  · exact showBetterbird_inv _ h _
  · exact hideBetterbird_inv _ h _

theorem actionSystrayIconActivated_inv (s : State) (h : Inv s) (trigger : Bool)
    (env : ActivateEnv) : Inv (actionSystrayIconActivated s trigger env) := by
  unfold actionSystrayIconActivated
  split_ifs
  · exact actionActivate_inv s h env
  · exact h

theorem bbProcessError_inv (s : State) (h : Inv s) (attached : Bool) :
    Inv (bbProcessError s attached) := by
  unfold bbProcessError
  split_ifs
  · exact h
  · exact emit_inv s h _ (by intro r; simp)

theorem bbProcessFinished_inv (s : State) (h : Inv s) (attached : Bool) :
    Inv (bbProcessFinished s attached) := by
  unfold bbProcessFinished
  split_ifs
  · exact h
  · split
    · have h1 := emit_inv s h (Effect.processRelease ‹Nat›) (by intro r; simp)
      exact ⟨h1.counter_lt, h1.ignored_le, h1.runs_ok, h1.snooze_blink⟩
    · exact h

theorem bbUpdaterProcessFinished_inv (s : State) (h : Inv s) (isError : Bool) :
    Inv (bbUpdaterProcessFinished s isError) := by
  unfold bbUpdaterProcessFinished
  split_ifs
  · exact emit_inv s h _ (by intro r; simp)
  · split
    · have h1 := emit_inv s h (Effect.processRelease ‹Nat›) (by intro r; simp)
      exact ⟨h1.counter_lt, h1.ignored_le, h1.runs_ok, h1.snooze_blink⟩
    · exact h

theorem initialState_inv (settings : Settings) (isWindows hasWinTools : Bool) (now : Int) :
    Inv (initialState settings isWindows hasWinTools now) := by
  refine ⟨by simp [initialState, UINT_MOD], le_refl _, ?_, ?_⟩
  · intro r hr
    simp [initialState] at hr
  · intro hs
    simp [initialState] at hs

theorem construct_inv (settings : Settings) (isWindows hasWinTools : Bool) (now : Int)
    (env : PollEnv) : Inv (construct settings isWindows hasWinTools now env) := by
  have h := updateIcon_inv _ (updateState_inv _ (createMenu_inv _
    (initialState_inv settings isWindows hasWinTools now)) env)
  have h2 := emit_inv _ h Effect.trayShow (by intro r; simp)
  exact ⟨h2.counter_lt, h2.ignored_le, h2.runs_ok, h2.snooze_blink⟩

theorem step_inv (s : State) (ev : Event) (h : Inv s) (he : ev.enabled s) : Inv (step s ev) := by
  cases ev with
  | unreadCounterUpdate total color => exact unreadCounterUpdate_inv s h total color he
  | unreadMonitorWarningChanged warnings => exact unreadMonitorWarningChanged_inv s h warnings
  | updateState env => exact updateState_inv s h env
  | blinkTimeout => exact blinkTimeout_inv s h he
  | settingsAccepted newSettings => exact settingsAccepted_inv s h newSettings
  | actionActivate env => exact actionActivate_inv s h env
  | actionSystrayIconActivated trigger env => exact actionSystrayIconActivated_inv s h trigger env
  | actionSnoozeFor seconds nowUtc => exact actionSnoozeFor_inv s h seconds nowUtc
  | actionUnsnooze => exact actionUnsnooze_inv s h
  | actionIgnoreEmails => exact actionIgnoreEmails_inv s h
  | onBetterbirdWindowShown => exact onBetterbirdWindowShown_inv s h
  | onBetterbirdWindowHidden => exact onBetterbirdWindowHidden_inv s h
  | bbProcessError attached => exact bbProcessError_inv s h attached
  | bbProcessFinished attached => exact bbProcessFinished_inv s h attached
  | bbUpdaterProcessFinished isError => exact bbUpdaterProcessFinished_inv s h isError

theorem reachable_inv (s : State) (h : Reachable s) : Inv s := by
  induction h with
  | init settings isWindows hasWinTools now env =>
    exact construct_inv settings isWindows hasWinTools now env
  | step s ev _ he ih => exact step_inv s ev ih he

/-! ## Icon-only operations -/

theorem setIgnoredUnreadMails_quiet (s : State) (v : Nat) (b : Bool) :
    Quiet s (setIgnoredUnreadMails s v b) := by
  have h1 : Quiet s { s with
      ignoredUnreadEmails := v
      mMenuIgnoreUnreads :=
        match s.mMenuIgnoreUnreads with
        | some _ => some (ignoreMenuText v)
        | none => none } :=
    ⟨rfl, rfl, rfl, rfl, rfl, rfl, rfl, rfl, rfl, rfl, rfl, rfl, fun _ => ⟨rfl, rfl, rfl, rfl⟩,
      ⟨[], by simp, by simp⟩⟩
  unfold setIgnoredUnreadMails
  dsimp only
  split_ifs
  · exact Quiet.quietRefl s
  · exact h1.quietTrans (updateIcon_quiet _)
  · exact h1

theorem onBetterbirdWindowShown_quiet (s : State) : Quiet s (onBetterbirdWindowShown s) := by
  have h1 : Quiet s { s with mMenuShowHideText := "Hide Betterbird" } :=
    ⟨rfl, rfl, rfl, rfl, rfl, rfl, rfl, rfl, rfl, rfl, rfl, rfl, fun _ => ⟨rfl, rfl, rfl, rfl⟩,
      ⟨[], by simp, by simp⟩⟩
  unfold onBetterbirdWindowShown
  dsimp only
  split_ifs
  · exact h1.quietTrans (setIgnoredUnreadMails_quiet _ _ _)
  · exact h1

theorem onBetterbirdWindowHidden_quiet (s : State) : Quiet s (onBetterbirdWindowHidden s) := by
  have h1 : Quiet s { s with mMenuShowHideText := "Show Betterbird" } :=
    ⟨rfl, rfl, rfl, rfl, rfl, rfl, rfl, rfl, rfl, rfl, rfl, rfl, fun _ => ⟨rfl, rfl, rfl, rfl⟩,
      ⟨[], by simp, by simp⟩⟩
  unfold onBetterbirdWindowHidden
  dsimp only
  split_ifs
  · exact h1.quietTrans (setIgnoredUnreadMails_quiet _ _ _)
  · exact h1

theorem emit_quiet (s : State) (e : Effect) (he : e.isQuiet = true) : Quiet s (s.emit e) :=
  ⟨rfl, rfl, rfl, rfl, rfl, rfl, rfl, rfl, rfl, rfl, rfl, rfl, fun _ => ⟨rfl, rfl, rfl, rfl⟩,
    ⟨[e], rfl, by simpa using he⟩⟩

theorem hideBetterbird_quiet (s : State) (ok : Bool) : Quiet s (hideBetterbird s ok) := by
  have h1 := emit_quiet s (Effect.hideWindow ok) rfl
  unfold hideBetterbird
  dsimp only
  split_ifs
  · exact h1.quietTrans (onBetterbirdWindowHidden_quiet _)
  · exact h1

theorem showBetterbird_quiet (s : State) (ok : Bool) : Quiet s (showBetterbird s ok) := by
  have h1 := emit_quiet s (Effect.showWindow ok) rfl
  unfold showBetterbird
  dsimp only
  split_ifs
  · exact h1.quietTrans (onBetterbirdWindowShown_quiet _)
  · exact h1

theorem isStart_of_isQuiet (e : Effect) (h : e.isQuiet = true) : e.isStart = false := by
  cases e <;> simp_all [Effect.isQuiet, Effect.isIconDetail, Effect.isStart]

theorem NoStart.noStartRefl (s : State) : NoStart s s :=
  ⟨rfl, rfl, rfl, rfl, rfl, ⟨[], by simp, by simp⟩⟩

theorem NoStart.noStartTrans {s t u : State} (h1 : NoStart s t) (h2 : NoStart t u) : NoStart s u := by
  obtain ⟨a1, a2, a3, a4, a5, l1, al, aq⟩ := h1
  obtain ⟨b1, b2, b3, b4, b5, l2, bl, bq⟩ := h2
  refine ⟨b1.trans a1, b2.trans a2, b3.trans a3, b4.trans a4, b5.trans a5, l1 ++ l2, ?_, ?_⟩
  · rw [bl, al, List.append_assoc]
  · intro e he
    rcases List.mem_append.mp he with h | h
    · exact aq e h
    · exact bq e h

theorem Quiet.noStart {s t : State} (h : Quiet s t) : NoStart s t := by
  obtain ⟨l, hl, hq⟩ := h.log
  exact ⟨h.settings, h.hasWinTools, h.mBetterbirdStartTime, h.mBetterbirdProcess, h.nextHandle,
    l, hl, fun e he => isStart_of_isQuiet e (hq e he)⟩

theorem effectsSince_of_log (s t : State) (l : List Effect) (h : t.log = s.log ++ l) :
    effectsSince s t = l := by
  unfold effectsSince
  rw [h]
  simp

/-! ## The ignored baseline (claims C3 and C4) -/

/-- Claim C3: in every reachable state the ignored baseline is at most the raw
counter, and every run of `updateIcon` on the way there (recorded in the log
with the values it read) had `ignoredUnreadEmails ≤ mUnreadCounter`, so that
without a snooze the displayed count, the unsigned subtraction
`mUnreadCounter - ignoredUnreadEmails`, did not wrap and equals
`max(0, rawCount - ignoredBaseline)`. -/
theorem displayed_count_never_wraps (s : State) (h : Reachable s) :
    s.ignoredUnreadEmails ≤ s.mUnreadCounter ∧
    ∀ r : IconRun, Effect.updateIcon r ∈ s.log →
      r.ignoredUnreadEmails ≤ r.mUnreadCounter ∧
      (r.snoozed = false →
        r.unread = usub r.mUnreadCounter r.ignoredUnreadEmails ∧
        (r.unread : Int) = max 0 ((r.mUnreadCounter : Int) - (r.ignoredUnreadEmails : Int))) :=
  ⟨(reachable_inv s h).ignored_le, fun r hr => (reachable_inv s h).runs_ok r hr⟩

theorem displayed_count_never_wraps_witness :
    Reachable (step exampleState (Event.unreadCounterUpdate 5 0)) ∧
    Effect.updateIcon (IconRun.mk 5 0 false 5) ∈ (step exampleState (Event.unreadCounterUpdate 5 0)).log ∧
    (step exampleState (Event.unreadCounterUpdate 5 0)).ignoredUnreadEmails
      ≤ (step exampleState (Event.unreadCounterUpdate 5 0)).mUnreadCounter ∧
    (5 : Nat) = usub 5 0 ∧ ((5 : Nat) : Int) = max 0 (((5 : Nat) : Int) - ((0 : Nat) : Int)) :=
  have hr : Reachable (step exampleState (Event.unreadCounterUpdate 5 0)) :=
    Reachable.step exampleState (Event.unreadCounterUpdate 5 0)
      (Reachable.init exampleSettings false true 0 exampleEnv)
      (by simp [Event.enabled, UINT_MOD])
  have hm : Effect.updateIcon (IconRun.mk 5 0 false 5) ∈
      (step exampleState (Event.unreadCounterUpdate 5 0)).log := by decide
  have h := displayed_count_never_wraps _ hr
  ⟨hr, hm, h.1, (h.2 _ hm).2 rfl⟩

theorem unreadCounterUpdate_ignoredUnreadEmails (s : State) (total color : Nat) :
    (unreadCounterUpdate s total color).ignoredUnreadEmails =
      if (s.settings.ignoreUnreadCountOnStart = true ∧ s.haveUnreadMailsData = false) ∨
          total < s.ignoredUnreadEmails then total
      else s.ignoredUnreadEmails := by
  unfold unreadCounterUpdate
  dsimp only
  rw [(updateIcon_sameCore _).ignoredUnreadEmails]
  have f := fun (x : State) => (setIgnoredUnreadMails_false_fields x total).1
  by_cases c1 : s.settings.ignoreUnreadCountOnStart = true ∧ s.haveUnreadMailsData = false
  · simp only [c1, and_self, if_true, true_or, f, lt_irrefl, if_false]
    split_ifs <;> exact f s
  · simp only [c1, if_false, false_or]
    by_cases c2 : total < s.ignoredUnreadEmails
    · simp only [c2, if_true]
      split_ifs <;> exact f s
    · simp only [c2, if_false]
      split_ifs <;> rfl

/-- Claim C4: `unreadCounterUpdate(total, color)` sets the ignored baseline to
`total` when `total` is below the current baseline; when `total` is at or above
the baseline and the ignore-on-start rule does not apply (it applies when
`ignoreUnreadCountOnStart` is set and no unread data has arrived yet), the
baseline is unchanged. -/
theorem unreadCounterUpdate_baseline (s : State) (total color : Nat) :
    (total < s.ignoredUnreadEmails →
      (unreadCounterUpdate s total color).ignoredUnreadEmails = total) ∧
    (s.ignoredUnreadEmails ≤ total →
      ¬ (s.settings.ignoreUnreadCountOnStart = true ∧ s.haveUnreadMailsData = false) →
      (unreadCounterUpdate s total color).ignoredUnreadEmails = s.ignoredUnreadEmails) := by
  rw [unreadCounterUpdate_ignoredUnreadEmails]
  constructor
  · intro h
    simp [h]
  · intro h1 h2
    have h3 : ¬ total < s.ignoredUnreadEmails := Nat.not_lt.mpr h1
    rw [if_neg]
    intro hc
    rcases hc with hc | hc
    · exact h2 hc
    · exact h3 hc

theorem unreadCounterUpdate_baseline_witness :
    (unreadCounterUpdate
        { initialState exampleSettings false true 0 with
          mUnreadCounter := 10, ignoredUnreadEmails := 7 } 3 0).ignoredUnreadEmails = 3 ∧
    (unreadCounterUpdate
        { initialState exampleSettings false true 0 with
          mUnreadCounter := 10, ignoredUnreadEmails := 7 } 12 0).ignoredUnreadEmails = 7 :=
  ⟨(unreadCounterUpdate_baseline
      { initialState exampleSettings false true 0 with
        mUnreadCounter := 10, ignoredUnreadEmails := 7 } 3 0).1 (by decide),
    (unreadCounterUpdate_baseline
      { initialState exampleSettings false true 0 with
        mUnreadCounter := 10, ignoredUnreadEmails := 7 } 12 0).2 (by decide) (by decide)⟩

/-! ## Snooze (claims C5, C6 and C7) -/

theorem actionSnoozeFor_mSnoozedUntil (s : State) (seconds nowUtc : Int) :
    (actionSnoozeFor s seconds nowUtc).mSnoozedUntil = some (nowUtc + 1000 * seconds) := by
  unfold actionSnoozeFor
  dsimp only
  rw [(updateIcon_sameCore _).mSnoozedUntil, (enableBlinking_sameCore _ _).mSnoozedUntil]

/-- Claim C7: in every reachable state with a snooze deadline set, blinking is
off: `mBlinkingTimeout = 0` and the opacity is 1.0 (and the delta is 0 and the
blink timer is stopped). `actionSnoozeFor` calls `enableBlinking(false)`, and
no handler arms the blinking again while the deadline is set. -/
theorem snooze_keeps_blinking_off (s : State) (h : Reachable s)
    (hs : s.mSnoozedUntil.isSome = true) :
    s.mBlinkingTimeout = 0 ∧ s.mBlinkingIconOpacity = 1 ∧ s.mBlinkingDelta = 0 ∧
      s.blinkTimerActive = false :=
  (reachable_inv s h).snooze_blink hs

theorem snooze_keeps_blinking_off_witness :
    Reachable (step exampleState (Event.actionSnoozeFor 600 0)) ∧
    (step exampleState (Event.actionSnoozeFor 600 0)).mSnoozedUntil = some 600000 ∧
    (step exampleState (Event.actionSnoozeFor 600 0)).mBlinkingTimeout = 0 ∧
    (step exampleState (Event.actionSnoozeFor 600 0)).mBlinkingIconOpacity = 1 :=
  have hr : Reachable (step exampleState (Event.actionSnoozeFor 600 0)) :=
    Reachable.step exampleState (Event.actionSnoozeFor 600 0)
      (Reachable.init exampleSettings false true 0 exampleEnv) trivial
  have hd : (step exampleState (Event.actionSnoozeFor 600 0)).mSnoozedUntil = some 600000 := by
    simp [step, actionSnoozeFor_mSnoozedUntil]
  have hb := snooze_keeps_blinking_off _ hr (by rw [hd]; rfl)
  ⟨hr, hd, hb.1, hb.2.1⟩

theorem renderIcon_effects (s : State) (unread : Nat) :
    ∃ l : List Effect, (renderIcon s unread).log = s.log ++ l ∧
      ∀ e ∈ l, e = Effect.setToolTip (toolTipText s.warnings) ∨
        e = Effect.painted (paintIcon s unread) ∨ e = Effect.setIcon (paintIcon s unread) ∨
        e = Effect.trayShow := by
  unfold renderIcon
  dsimp only
  split_ifs
  · exact ⟨[Effect.setToolTip (toolTipText s.warnings), Effect.painted (paintIcon s unread),
      Effect.setIcon (paintIcon s unread), Effect.trayShow], by simp, by simp⟩
  · exact ⟨[Effect.setToolTip (toolTipText s.warnings), Effect.painted (paintIcon s unread),
      Effect.trayShow], by simp, by simp⟩

theorem paintIcon_zero (s : State) :
    (paintIcon s 0).counter = none ∧ (paintIcon s 0).unreadIcon = false := by
  simp [paintIcon, paintCounter]

theorem prepareIcon_snoozed (s : State) (hs : s.mSnoozedUntil.isSome = true) :
    prepareIcon s = s.emit (Effect.updateIcon (iconRunOf s)) := by
  unfold prepareIcon State.emit
  simp [hs]

theorem displayedUnread_snoozed (s : State) (hs : s.mSnoozedUntil.isSome = true) :
    displayedUnread s = 0 := by
  simp [displayedUnread, hs]

/-- Claim C5: with a snooze deadline set, `updateIcon` works with a displayed
unread count of 0 whatever the raw count, the baseline and the settings: the
blinking members are left as they are and the blink timer is not started, and
whatever it paints or publishes has no unread counter and not the unread
icon. -/
theorem updateIcon_snoozed (s : State) (hs : s.mSnoozedUntil.isSome = true) :
    displayedUnread s = 0 ∧ SameBlink s (updateIcon s) ∧
    ∀ e ∈ effectsSince s (updateIcon s),
      (∀ r : IconRun, e = Effect.updateIcon r → r.unread = 0) ∧
      (∀ interval : Nat, e ≠ Effect.blinkTimerStart interval) ∧
      (∀ d : Drawing, e = Effect.painted d ∨ e = Effect.setIcon d →
        d.counter = none ∧ d.unreadIcon = false) := by
  have hu := displayedUnread_snoozed s hs
  refine ⟨hu, updateIcon_blink_snoozed s hs, ?_⟩
  have key : ∃ l : List Effect, (updateIcon s).log = s.log ++ l ∧
      ∀ e ∈ l, e = Effect.updateIcon (iconRunOf s) ∨ e = Effect.trayHide ∨
        (∃ t, e = Effect.setToolTip t) ∨
        e = Effect.painted (paintIcon (prepareIcon s) 0) ∨
        e = Effect.setIcon (paintIcon (prepareIcon s) 0) ∨ e = Effect.trayShow := by
    unfold updateIcon
    dsimp only
    rw [hu]
    split_ifs
    · refine ⟨[Effect.updateIcon (iconRunOf s), Effect.trayHide], ?_, by simp⟩
      rw [prepareIcon_snoozed s hs]
      simp [State.emit]
    · obtain ⟨l, hl, hd⟩ := renderIcon_effects (prepareIcon s) 0
      refine ⟨Effect.updateIcon (iconRunOf s) :: l, ?_, ?_⟩
      · rw [hl, prepareIcon_snoozed s hs]
        simp [State.emit]
      · intro e he
        rcases List.mem_cons.mp he with h | h
        · exact Or.inl h
        · rcases hd e h with h | h | h | h
          · exact Or.inr (Or.inr (Or.inl ⟨_, h⟩))
          · exact Or.inr (Or.inr (Or.inr (Or.inl h)))
          · exact Or.inr (Or.inr (Or.inr (Or.inr (Or.inl h))))
          · exact Or.inr (Or.inr (Or.inr (Or.inr (Or.inr h))))
  obtain ⟨l, hl, hd⟩ := key
  rw [effectsSince_of_log s _ l hl]
  intro e he
  have hz := paintIcon_zero (prepareIcon s)
  rcases hd e he with h | h | ⟨t, h⟩ | h | h | h <;> subst h
  · refine ⟨?_, by intro i; simp, by intro d hd; simp at hd⟩
    intro r hr
    have : r = iconRunOf s := by injection hr with hr; exact hr.symm
    rw [this]
    exact hu
  · exact ⟨by intro r hr; simp at hr, by intro i; simp, by intro d hd; simp at hd⟩
  · exact ⟨by intro r hr; simp at hr, by intro i; simp, by intro d hd; simp at hd⟩
  · refine ⟨by intro r hr; simp at hr, by intro i; simp, ?_⟩
    intro d hd
    simp only [Effect.painted.injEq, reduceCtorEq, or_false] at hd
    rw [← hd]; exact hz
  · refine ⟨by intro r hr; simp at hr, by intro i; simp, ?_⟩
    intro d hd
    simp only [Effect.setIcon.injEq, reduceCtorEq, false_or] at hd
    rw [← hd]; exact hz
  · exact ⟨by intro r hr; simp at hr, by intro i; simp, by intro d hd; simp at hd⟩

theorem updateIcon_snoozed_witness :
    displayedUnread { initialState exampleSettings false true 0 with
        mUnreadCounter := 5, mSnoozedUntil := some 1000 } = 0 ∧
    (updateIcon { initialState exampleSettings false true 0 with
        mUnreadCounter := 5, mSnoozedUntil := some 1000 }).mBlinkingTimeout = 0 :=
  have h := updateIcon_snoozed { initialState exampleSettings false true 0 with
    mUnreadCounter := 5, mSnoozedUntil := some 1000 } rfl
  ⟨h.1, h.2.1.1⟩

theorem startBetterbird_frame (s : State) :
    (startBetterbird s).settings = s.settings
    ∧ (startBetterbird s).hasWinTools = s.hasWinTools
    ∧ (startBetterbird s).mSnoozedUntil = s.mSnoozedUntil
    ∧ (startBetterbird s).mBetterbirdStartTime = s.mBetterbirdStartTime
    ∧ (startBetterbird s).mBetterbirdWindowExisted = s.mBetterbirdWindowExisted
    ∧ (startBetterbird s).mBetterbirdWindowHide = s.mBetterbirdWindowHide := by
  unfold startBetterbird State.emit
  dsimp only
  split
  · exact ⟨rfl, rfl, rfl, rfl, rfl, rfl⟩
  · split <;> exact ⟨rfl, rfl, rfl, rfl, rfl, rfl⟩

theorem startBetterbird_log (s : State) :
    ∃ l : List Effect, (startBetterbird s).log = s.log ++ Effect.startBetterbird :: l ∧
      l.countP Effect.isProcessStart = (if s.settings.startCmdline.isSome then 1 else 0) := by
  unfold startBetterbird State.emit
  dsimp only
  split
  · rename_i h
    exact ⟨[], rfl, by simp [h]⟩
  · rename_i cmd h
    split
    · rename_i old _
      exact ⟨[Effect.processRelease old, Effect.processStart s.nextHandle cmd.1 cmd.2],
        by simp, by simp [h, Effect.isProcessStart]⟩
    · exact ⟨[Effect.processStart s.nextHandle cmd.1 cmd.2], by simp,
        by simp [h, Effect.isProcessStart]⟩

theorem startBetterbird_process (s : State) :
    (startBetterbird s).mBetterbirdProcess =
      if s.settings.startCmdline.isSome then some s.nextHandle else s.mBetterbirdProcess := by
  unfold startBetterbird State.emit
  dsimp only
  split
  · rename_i h
    simp [h]
  · rename_i cmd h
    split <;> simp [h]

theorem checkSnooze_mSnoozedUntil (s : State) (nowUtc : Int) :
    (checkSnooze s nowUtc).mSnoozedUntil =
      match s.mSnoozedUntil with
      | some deadline => if deadline < nowUtc then none else some deadline
      | none => none := by
  unfold checkSnooze
  split
  · rename_i deadline h
    split_ifs
    · unfold actionUnsnooze
      rw [(updateIcon_sameCore _).mSnoozedUntil]
    · exact h
  · rename_i h
    exact h

theorem reconcileWindow_mSnoozedUntil (s : State) (env : PollEnv) :
    (reconcileWindow s env).mSnoozedUntil = s.mSnoozedUntil := by
  unfold reconcileWindow
  dsimp only
  split_ifs
  · rw [(hideBetterbird_quiet _ _).mSnoozedUntil]
  · rfl
  · exact (startBetterbird_frame _).2.2.1
  · exact (startBetterbird_frame _).2.2.1
  · rfl
  · exact (startBetterbird_frame _).2.2.1
  · exact (startBetterbird_frame _).2.2.1
  · rfl

theorem checkSnooze_hasWinTools (s : State) (nowUtc : Int) :
    (checkSnooze s nowUtc).hasWinTools = s.hasWinTools := by
  unfold checkSnooze
  split
  · split_ifs
    · unfold actionUnsnooze
      rw [(updateIcon_sameCore _).hasWinTools]
    · rfl
  · rfl

theorem updateState_mSnoozedUntil (s : State) (env : PollEnv) :
    (updateState s env).mSnoozedUntil = (checkSnooze s env.nowUtc).mSnoozedUntil := by
  unfold updateState
  dsimp only
  split_ifs
  · rw [(updateIcon_sameCore _).mSnoozedUntil]
    exact reconcileWindow_mSnoozedUntil _ env
  · rw [(updateIcon_sameCore _).mSnoozedUntil]
    exact reconcileWindow_mSnoozedUntil _ env
  · rfl

theorem reconcileWindow_log (s : State) (env : PollEnv) :
    ∃ l : List Effect, (reconcileWindow s env).log = s.log ++ Effect.lookup env.lookup :: l := by
  unfold reconcileWindow
  dsimp only
  split_ifs
  · obtain ⟨l, hl, _⟩ := (hideBetterbird_quiet { s with
        mBetterbirdWindowExists := env.lookup
        log := s.log ++ [Effect.lookup env.lookup]
        mBetterbirdWindowExisted := true
        mMenuShowHideEnabled := true
        mBetterbirdWindowHide := false } env.hideOk).log
    exact ⟨l, by rw [hl]; simp⟩
  · exact ⟨[], rfl⟩
  · obtain ⟨l, hl, _⟩ := startBetterbird_log { s with
        mBetterbirdWindowExists := env.lookup
        log := s.log ++ [Effect.lookup env.lookup] }
    exact ⟨Effect.startBetterbird :: l, by dsimp only; rw [hl]; simp⟩
  · obtain ⟨l, hl, _⟩ := startBetterbird_log { s with
        mBetterbirdWindowExists := env.lookup
        log := s.log ++ [Effect.lookup env.lookup] }
    exact ⟨Effect.startBetterbird :: l, by rw [hl]; simp⟩
  · exact ⟨[], rfl⟩
  · obtain ⟨l, hl, _⟩ := startBetterbird_log { s with
        mBetterbirdWindowExists := env.lookup
        log := s.log ++ [Effect.lookup env.lookup] }
    exact ⟨Effect.startBetterbird :: l, by dsimp only; rw [hl]; simp⟩
  · obtain ⟨l, hl, _⟩ := startBetterbird_log { s with
        mBetterbirdWindowExists := env.lookup
        log := s.log ++ [Effect.lookup env.lookup] }
    exact ⟨Effect.startBetterbird :: l, by rw [hl]; simp⟩
  · exact ⟨[], rfl⟩

theorem updateIcon_log_icon (s : State) :
    ∃ l : List Effect, (updateIcon s).log = s.log ++ l ∧
      ∀ e ∈ l, (∃ r : IconRun, e = Effect.updateIcon r) ∨ e.isIconDetail = true := by
  obtain ⟨l, hl, hd⟩ := updateIcon_log s
  refine ⟨Effect.updateIcon (iconRunOf s) :: l, hl, ?_⟩
  intro e he
  rcases List.mem_cons.mp he with h | h
  · exact Or.inl ⟨_, h⟩
  · exact Or.inr (hd e h)

theorem actionUnsnooze_log (s : State) :
    ∃ l : List Effect, (actionUnsnooze s).log = s.log ++ Effect.unsnoozed :: l ∧
      ∀ e ∈ l, (∃ r : IconRun, e = Effect.updateIcon r) ∨ e.isIconDetail = true := by
  unfold actionUnsnooze
  obtain ⟨l, hl, hd⟩ := updateIcon_log_icon { s with
    mSnoozedUntil := none
    mMenuUnsnoozeVisible := false
    log := s.log ++ [Effect.unsnoozed] }
  refine ⟨l, ?_, hd⟩
  rw [hl]
  simp

/-- The snooze deadline of exactly the current time is not cleared: for a
snooze of 600 s taken at time 0 the deadline is 600000 ms, and a poll tick that
reads the UTC time 600000 leaves it set, although `now ≥ snoozedUntil`. -/
theorem updateState_snooze_counterexample :
    (actionSnoozeFor exampleState 600 0).mSnoozedUntil = some 600000 ∧
    ({ exampleEnv with nowUtc := 600000 } : PollEnv).nowUtc ≥ 600000 ∧
    (updateState (actionSnoozeFor exampleState 600 0)
      { exampleEnv with nowUtc := 600000 }).mSnoozedUntil = some 600000 := by
  have h : (actionSnoozeFor exampleState 600 0).mSnoozedUntil = some 600000 := by
    rw [actionSnoozeFor_mSnoozedUntil]; rfl
  refine ⟨h, by decide, ?_⟩
  rw [updateState_mSnoozedUntil, checkSnooze_mSnoozedUntil, h]
  decide

/-- Claim C6, amended: for a state with snooze deadline `snoozedUntil`, a poll
tick (`updateState`) that reads the UTC time `now` clears the deadline if and
only if `now > snoozedUntil` (otherwise the deadline is left as it is), and when
it clears it, it does so first: the tick's effects begin with the unsnooze,
followed only by the effects of the `updateIcon` it triggers, and the window
lookup with everything that follows from it comes after. -/
theorem updateState_clears_snooze (s : State) (env : PollEnv) (deadline : Int)
    (hs : s.mSnoozedUntil = some deadline) :
    ((updateState s env).mSnoozedUntil = none ↔ deadline < env.nowUtc) ∧
    (¬ deadline < env.nowUtc → (updateState s env).mSnoozedUntil = some deadline) ∧
    (deadline < env.nowUtc →
      ∃ pre post : List Effect,
        effectsSince s (updateState s env) = Effect.unsnoozed :: pre ++ post ∧
        (∀ e ∈ pre, (∃ r : IconRun, e = Effect.updateIcon r) ∨ e.isIconDetail = true) ∧
        (s.hasWinTools = true → ∃ rest, post = Effect.lookup env.lookup :: rest) ∧
        (s.hasWinTools = false → post = [])) := by
  have hm : (updateState s env).mSnoozedUntil =
      if deadline < env.nowUtc then none else some deadline := by
    rw [updateState_mSnoozedUntil, checkSnooze_mSnoozedUntil, hs]
  refine ⟨?_, ?_, ?_⟩
  · rw [hm]
    split_ifs with h <;> simp [h]
  · intro h
    rw [hm, if_neg h]
  · intro h
    have hc : checkSnooze s env.nowUtc = actionUnsnooze s := by
      unfold checkSnooze
      simp [hs, h]
    obtain ⟨pre, hpre, hd⟩ := actionUnsnooze_log s
    have hw := checkSnooze_hasWinTools s env.nowUtc
    by_cases hwt : s.hasWinTools = true
    · obtain ⟨l2, hl2⟩ := reconcileWindow_log (actionUnsnooze s) env
      have key : ∃ rest : List Effect, (updateState s env).log =
          s.log ++ (Effect.unsnoozed :: pre ++ Effect.lookup env.lookup :: rest) := by
        unfold updateState
        dsimp only
        rw [hw, if_pos hwt, hc]
        obtain ⟨l3, hl3, _⟩ := updateIcon_log { reconcileWindow (actionUnsnooze s) env with
          mMenuShowHideText := if env.isHidden then "Show Betterbird" else "Hide Betterbird" }
        refine ⟨l2 ++ Effect.updateIcon (iconRunOf { reconcileWindow (actionUnsnooze s) env with
          mMenuShowHideText :=
            if env.isHidden then "Show Betterbird" else "Hide Betterbird" }) :: l3, ?_⟩
        rw [hl3]
        dsimp only
        rw [hl2, hpre]
        simp
      obtain ⟨rest, hrest⟩ := key
      refine ⟨pre, Effect.lookup env.lookup :: rest, ?_, hd, fun _ => ⟨rest, rfl⟩, ?_⟩
      · exact effectsSince_of_log s _ _ hrest
      · intro hf
        rw [hwt] at hf
        exact Bool.noConfusion hf
    · have key : (updateState s env).log = s.log ++ (Effect.unsnoozed :: pre ++ []) := by
        unfold updateState
        dsimp only
        rw [hw, if_neg hwt, hc, hpre]
        simp
      refine ⟨pre, [], effectsSince_of_log s _ _ key, hd, fun h1 => absurd h1 hwt, fun _ => rfl⟩

theorem updateState_clears_snooze_witness :
    (actionSnoozeFor exampleState 600 0).mSnoozedUntil = some 600000 ∧
    (updateState (actionSnoozeFor exampleState 600 0)
      { exampleEnv with nowUtc := 600001 }).mSnoozedUntil = none :=
  have h : (actionSnoozeFor exampleState 600 0).mSnoozedUntil = some 600000 := by
    rw [actionSnoozeFor_mSnoozedUntil]; rfl
  ⟨h, (updateState_clears_snooze (actionSnoozeFor exampleState 600 0)
    { exampleEnv with nowUtc := 600001 } 600000 h).1.mpr (by decide)⟩

/-! ## Starting the process from the poll tick (claims C8, C9 and C10) -/

theorem isStart_of_isProcessStart (e : Effect) (h : e.isProcessStart = true) :
    e.isStart = true := by
  cases e <;> simp_all [Effect.isProcessStart, Effect.isStart]

theorem countP_isProcessStart_of_noStart (l : List Effect) (h : ∀ e ∈ l, e.isStart = false) :
    l.countP Effect.isProcessStart = 0 := by
  rw [List.countP_eq_zero]
  intro e he hp
  have := isStart_of_isProcessStart e hp
  rw [h e he] at this
  exact Bool.noConfusion this

theorem NoStart.spawnCount_eq {s t : State} (h : NoStart s t) : spawnCount t = spawnCount s := by
  obtain ⟨l, hl, hq⟩ := h.log
  unfold spawnCount
  rw [hl, List.countP_append, countP_isProcessStart_of_noStart l hq]
  rfl

theorem NoStart.effects {s t : State} (h : NoStart s t) :
    ∀ e ∈ effectsSince s t, e.isStart = false := by
  obtain ⟨l, hl, hq⟩ := h.log
  rw [effectsSince_of_log s t l hl]
  exact hq

theorem actionUnsnooze_noStart (s : State) : NoStart s (actionUnsnooze s) := by
  unfold actionUnsnooze
  have h1 : NoStart s { s with
      mSnoozedUntil := none
      mMenuUnsnoozeVisible := false
      log := s.log ++ [Effect.unsnoozed] } :=
    ⟨rfl, rfl, rfl, rfl, rfl, ⟨[Effect.unsnoozed], rfl, by simp [Effect.isStart]⟩⟩
  exact h1.noStartTrans (updateIcon_quiet _).noStart

theorem checkSnooze_noStart (s : State) (nowUtc : Int) : NoStart s (checkSnooze s nowUtc) := by
  unfold checkSnooze
  split
  · split_ifs
    · exact actionUnsnooze_noStart s
    · exact NoStart.noStartRefl s
  · exact NoStart.noStartRefl s

theorem checkSnooze_existed (s : State) (nowUtc : Int) :
    (checkSnooze s nowUtc).mBetterbirdWindowExisted = s.mBetterbirdWindowExisted := by
  unfold checkSnooze
  split
  · split_ifs
    · unfold actionUnsnooze
      rw [(updateIcon_sameCore _).mBetterbirdWindowExisted]
    · rfl
  · rfl

theorem reconcileWindow_requested (s : State) (env : PollEnv)
    (h : startRequested s env) :
    ∃ hide : Bool, reconcileWindow s env =
      { startBetterbird { s with
          mBetterbirdWindowExists := env.lookup
          log := s.log ++ [Effect.lookup env.lookup] } with
        mBetterbirdWindowHide := hide } := by
  obtain ⟨_, hl, hp, hc⟩ := h
  unfold reconcileWindow
  dsimp only
  rw [if_neg (by simp [hl])]
  by_cases he : s.mBetterbirdWindowExisted = false
  · rw [if_pos he] at hc
    rw [if_pos he, if_pos ⟨hc.1, hp, hc.2⟩]
    split_ifs
    · exact ⟨true, rfl⟩
    · exact ⟨_, rfl⟩
  · rw [if_neg he] at hc
    rw [if_neg he, if_pos ⟨hc, hp⟩]
    split_ifs
    · exact ⟨true, rfl⟩
    · exact ⟨_, rfl⟩

theorem reconcileWindow_not_requested (s : State) (env : PollEnv)
    (hw : s.hasWinTools = true) (h : ¬ startRequested s env) :
    NoStart s (reconcileWindow s env) := by
  have h1 : NoStart s { s with
      mBetterbirdWindowExists := env.lookup
      log := s.log ++ [Effect.lookup env.lookup] } :=
    ⟨rfl, rfl, rfl, rfl, rfl, ⟨[Effect.lookup env.lookup], rfl, by simp [Effect.isStart]⟩⟩
  unfold reconcileWindow
  dsimp only
  split_ifs with c1 c2 c3 c4 c5 c6 c7
  · refine h1.noStartTrans (NoStart.noStartTrans ?_ (hideBetterbird_quiet _ _).noStart)
    exact ⟨rfl, rfl, rfl, rfl, rfl, ⟨[], by simp, by simp⟩⟩
  · refine h1.noStartTrans ?_
    exact ⟨rfl, rfl, rfl, rfl, rfl, ⟨[], by simp, by simp⟩⟩
  · exact absurd ⟨hw, by simpa using c1, c4.2.1, by rw [if_pos c3]; exact ⟨c4.1, c4.2.2⟩⟩ h
  · exact absurd ⟨hw, by simpa using c1, c4.2.1, by rw [if_pos c3]; exact ⟨c4.1, c4.2.2⟩⟩ h
  · exact h1
  · exact absurd ⟨hw, by simpa using c1, c6.2, by rw [if_neg c3]; exact c6.1⟩ h
  · exact absurd ⟨hw, by simpa using c1, c6.2, by rw [if_neg c3]; exact c6.1⟩ h
  · exact h1

theorem startRequested_checkSnooze (s : State) (env : PollEnv) :
    startRequested (checkSnooze s env.nowUtc) env ↔ startRequested s env := by
  have h := checkSnooze_noStart s env.nowUtc
  unfold startRequested
  rw [h.hasWinTools, h.mBetterbirdProcess, h.settings, h.mBetterbirdStartTime,
    checkSnooze_existed]

theorem updateState_of_requested (s : State) (env : PollEnv) (h : startRequested s env) :
    ∃ hide : Bool, updateState s env =
      updateIcon { startBetterbird { checkSnooze s env.nowUtc with
          mBetterbirdWindowExists := env.lookup
          log := (checkSnooze s env.nowUtc).log ++ [Effect.lookup env.lookup] } with
        mBetterbirdWindowHide := hide
        mMenuShowHideText := if env.isHidden then "Show Betterbird" else "Hide Betterbird" } := by
  obtain ⟨hide, hrw⟩ := reconcileWindow_requested (checkSnooze s env.nowUtc) env
    ((startRequested_checkSnooze s env).mpr h)
  refine ⟨hide, ?_⟩
  unfold updateState
  dsimp only
  rw [if_pos ((checkSnooze_noStart s env.nowUtc).hasWinTools.trans h.1), hrw]

theorem updateState_not_requested (s : State) (env : PollEnv) (h : ¬ startRequested s env) :
    NoStart s (updateState s env) := by
  have h0 := checkSnooze_noStart s env.nowUtc
  unfold updateState
  dsimp only
  rw [h0.hasWinTools]
  by_cases hw : s.hasWinTools = true
  · rw [if_pos hw]
    have h1 := reconcileWindow_not_requested (checkSnooze s env.nowUtc) env
      (by rw [h0.hasWinTools]; exact hw)
      (fun hc => h ((startRequested_checkSnooze s env).mp hc))
    refine (h0.noStartTrans h1).noStartTrans (NoStart.noStartTrans ?_ (updateIcon_quiet _).noStart)
    exact ⟨rfl, rfl, rfl, rfl, rfl, ⟨[], by simp, by simp⟩⟩
  · rw [if_neg hw]
    exact h0

theorem updateState_requested_log (s : State) (env : PollEnv) (h : startRequested s env) :
    ∃ l0 l1 l2 : List Effect,
      (updateState s env).log =
        s.log ++ (l0 ++ Effect.lookup env.lookup :: Effect.startBetterbird :: l1 ++ l2) ∧
      (∀ e ∈ l0, e.isStart = false) ∧ (∀ e ∈ l2, e.isStart = false) ∧
      l1.countP Effect.isProcessStart = (if s.settings.startCmdline.isSome then 1 else 0) := by
  obtain ⟨hide, hrw⟩ := updateState_of_requested s env h
  have h0 := checkSnooze_noStart s env.nowUtc
  obtain ⟨l0, hl0, hq0⟩ := h0.log
  obtain ⟨l1, hl1, hc1⟩ := startBetterbird_log { checkSnooze s env.nowUtc with
    mBetterbirdWindowExists := env.lookup
    log := (checkSnooze s env.nowUtc).log ++ [Effect.lookup env.lookup] }
  obtain ⟨l2, hl2, hq2⟩ := (updateIcon_quiet { startBetterbird { checkSnooze s env.nowUtc with
      mBetterbirdWindowExists := env.lookup
      log := (checkSnooze s env.nowUtc).log ++ [Effect.lookup env.lookup] } with
    mBetterbirdWindowHide := hide
    mMenuShowHideText :=
      if env.isHidden then "Show Betterbird" else "Hide Betterbird" }).noStart.log
  refine ⟨l0, l1, l2, ?_, hq0, hq2, ?_⟩
  · rw [hrw, hl2]
    dsimp only
    rw [hl1]
    dsimp only
    rw [hl0]
    simp
  · rw [hc1]
    dsimp only
    rw [h0.settings]

theorem updateState_process (s : State) (env : PollEnv) :
    (updateState s env).mBetterbirdProcess =
      if startRequested s env ∧ s.settings.startCmdline.isSome = true then some s.nextHandle
      else s.mBetterbirdProcess := by
  by_cases h : startRequested s env
  · obtain ⟨hide, hrw⟩ := updateState_of_requested s env h
    have h0 := checkSnooze_noStart s env.nowUtc
    rw [hrw, (updateIcon_sameCore _).mBetterbirdProcess]
    dsimp only
    rw [startBetterbird_process]
    dsimp only
    rw [h0.settings, h0.nextHandle, h0.mBetterbirdProcess]
    simp only [h, true_and]
  · rw [(updateState_not_requested s env h).mBetterbirdProcess]
    simp [h]

theorem updateState_spawnCount (s : State) (env : PollEnv) :
    spawnCount (updateState s env) =
      spawnCount s +
        (if startRequested s env ∧ s.settings.startCmdline.isSome = true then 1 else 0) := by
  by_cases h : startRequested s env
  · obtain ⟨l0, l1, l2, hl, hq0, hq2, hc⟩ := updateState_requested_log s env h
    unfold spawnCount
    rw [hl]
    simp only [List.countP_append, List.countP_cons, countP_isProcessStart_of_noStart l0 hq0,
      countP_isProcessStart_of_noStart l2 hq2, hc, Effect.isProcessStart, h, true_and]
    split_ifs <;> simp_all
  · rw [(updateState_not_requested s env h).spawnCount_eq]
    simp [h]

/-- Claim C8: in a poll tick in which `lookup()` reports that the window
exists, `startBetterbird()` is not called and no process is started, and the
tracked process handle is left as it is, whatever the settings, the launch
time and the `mBetterbirdWindowExisted` flag. -/
theorem updateState_window_found (s : State) (env : PollEnv) (h : env.lookup = true) :
    (updateState s env).mBetterbirdProcess = s.mBetterbirdProcess ∧
    (updateState s env).nextHandle = s.nextHandle ∧
    ∀ e ∈ effectsSince s (updateState s env), e.isStart = false := by
  have hn : ¬ startRequested s env := by
    intro hc
    rw [hc.2.1] at h
    exact Bool.noConfusion h
  have hq := updateState_not_requested s env hn
  exact ⟨hq.mBetterbirdProcess, hq.nextHandle, hq.effects⟩

theorem updateState_window_found_witness :
    (updateState
      { initialState { exampleSettings with mLaunchBetterbird := true } false true 0 with
        mBetterbirdProcess := some 7 }
      { exampleEnv with lookup := true, now := 5000 }).mBetterbirdProcess = some 7 :=
  (updateState_window_found
    { initialState { exampleSettings with mLaunchBetterbird := true } false true 0 with
      mBetterbirdProcess := some 7 }
    { exampleEnv with lookup := true, now := 5000 } rfl).1

theorem mem_of_countP_pos (l : List Effect) (h : 0 < l.countP Effect.isProcessStart) :
    ∃ (handle : Nat) (exe : String) (args : List String),
      Effect.processStart handle exe args ∈ l := by
  obtain ⟨e, he, hp⟩ := List.countP_pos_iff.mp h
  cases e <;> simp [Effect.isProcessStart] at hp
  exact ⟨_, _, _, he⟩

theorem updateState_start_requested (s : State) (env : PollEnv) :
    (Effect.startBetterbird ∈ effectsSince s (updateState s env) ↔ startRequested s env) ∧
    ((∃ (handle : Nat) (exe : String) (args : List String),
        Effect.processStart handle exe args ∈ effectsSince s (updateState s env)) ↔
      (startRequested s env ∧ s.settings.startCmdline.isSome = true)) := by
  by_cases h : startRequested s env
  · obtain ⟨l0, l1, l2, hl, hq0, hq2, hc⟩ := updateState_requested_log s env h
    rw [effectsSince_of_log s _ _ hl]
    constructor
    · simp [h]
    · constructor
      · rintro ⟨handle, exe, args, hm⟩
        refine ⟨h, ?_⟩
        by_contra hn
        rw [if_neg hn] at hc
        have hz := List.countP_eq_zero.mp hc
        simp only [List.mem_append, List.mem_cons, reduceCtorEq, false_or] at hm
        rcases hm with (hm | hm) | hm
        · have := hq0 _ hm
          simp [Effect.isStart] at this
        · exact hz _ hm rfl
        · have := hq2 _ hm
          simp [Effect.isStart] at this
      · rintro ⟨_, hcmd⟩
        rw [if_pos hcmd] at hc
        obtain ⟨handle, exe, args, hm⟩ := mem_of_countP_pos l1 (by omega)
        exact ⟨handle, exe, args, by simp [hm]⟩
  · have hq := (updateState_not_requested s env h).effects
    constructor
    · constructor
      · intro hm
        have := hq _ hm
        simp [Effect.isStart] at this
      · intro hc
        exact absurd hc h
    · constructor
      · rintro ⟨handle, exe, args, hm⟩
        have := hq _ hm
        simp [Effect.isStart] at this
      · rintro ⟨hc, _⟩
        exact absurd hc h

theorem setIgnoredUnreadMails_startTime (s : State) (v : Nat) (b : Bool) :
    (setIgnoredUnreadMails s v b).mBetterbirdStartTime = s.mBetterbirdStartTime :=
  (setIgnoredUnreadMails_quiet s v b).mBetterbirdStartTime

theorem unreadCounterUpdate_startTime (s : State) (total color : Nat) :
    (unreadCounterUpdate s total color).mBetterbirdStartTime = s.mBetterbirdStartTime := by
  unfold unreadCounterUpdate
  dsimp only
  rw [(updateIcon_sameCore _).mBetterbirdStartTime]
  dsimp only
  split_ifs <;> simp only [State.emit, setIgnoredUnreadMails_startTime]

theorem updateState_startTime (s : State) (env : PollEnv) :
    (updateState s env).mBetterbirdStartTime = s.mBetterbirdStartTime := by
  by_cases h : startRequested s env
  · obtain ⟨hide, hrw⟩ := updateState_of_requested s env h
    rw [hrw, (updateIcon_sameCore _).mBetterbirdStartTime]
    dsimp only
    rw [(startBetterbird_frame _).2.2.2.1]
    exact (checkSnooze_noStart s env.nowUtc).mBetterbirdStartTime
  · exact (updateState_not_requested s env h).mBetterbirdStartTime

theorem blinkTimeout_startTime (s : State) :
    (blinkTimeout s).mBetterbirdStartTime = s.mBetterbirdStartTime := by
  unfold blinkTimeout
  dsimp only
  split_ifs <;> rw [(updateIcon_sameCore _).mBetterbirdStartTime]

theorem createMenu_startTime (s : State) :
    (createMenu s).mBetterbirdStartTime = s.mBetterbirdStartTime := by
  unfold createMenu
  dsimp only
  split_ifs
  · rw [setIgnoredUnreadMails_startTime]
  · rfl

theorem settingsAccepted_startTime (s : State) (newSettings : Settings) :
    (settingsAccepted s newSettings).mBetterbirdStartTime = s.mBetterbirdStartTime := by
  unfold settingsAccepted State.emit
  dsimp only
  rw [(updateIcon_sameCore _).mBetterbirdStartTime,
    (enableBlinking_sameCore _ _).mBetterbirdStartTime, createMenu_startTime]
  split_ifs
  · rw [setIgnoredUnreadMails_startTime]
  · rfl

theorem actionActivate_startTime (s : State) (env : ActivateEnv) :
    (actionActivate s env).mBetterbirdStartTime = s.mBetterbirdStartTime := by
  unfold actionActivate
  dsimp only
  split_ifs
  · rfl
  · exact (startBetterbird_frame _).2.2.2.1
  · exact (startBetterbird_frame _).2.2.2.1
  · exact (showBetterbird_quiet _ _).mBetterbirdStartTime
  · exact (hideBetterbird_quiet _ _).mBetterbirdStartTime
  · exact (showBetterbird_quiet _ _).mBetterbirdStartTime
  · exact (hideBetterbird_quiet _ _).mBetterbirdStartTime

theorem step_mBetterbirdStartTime (s : State) (ev : Event) :
    (step s ev).mBetterbirdStartTime = s.mBetterbirdStartTime := by
  cases ev with
  | unreadCounterUpdate total color => exact unreadCounterUpdate_startTime s total color
  | unreadMonitorWarningChanged warnings =>
    exact (updateIcon_sameCore _).mBetterbirdStartTime
  | updateState env => exact updateState_startTime s env
  | blinkTimeout => exact blinkTimeout_startTime s
  | settingsAccepted newSettings => exact settingsAccepted_startTime s newSettings
  | actionActivate env => exact actionActivate_startTime s env
  | actionSystrayIconActivated trigger env =>
    show (actionSystrayIconActivated s trigger env).mBetterbirdStartTime = _
    unfold actionSystrayIconActivated
    split_ifs
    · exact actionActivate_startTime s env
    · rfl
  | actionSnoozeFor seconds nowUtc =>
    show (actionSnoozeFor s seconds nowUtc).mBetterbirdStartTime = _
    unfold actionSnoozeFor
    dsimp only
    rw [(updateIcon_sameCore _).mBetterbirdStartTime,
      (enableBlinking_sameCore _ _).mBetterbirdStartTime]
  | actionUnsnooze => exact (actionUnsnooze_noStart s).mBetterbirdStartTime
  | actionIgnoreEmails => exact setIgnoredUnreadMails_startTime s _ _
  | onBetterbirdWindowShown => exact (onBetterbirdWindowShown_quiet s).mBetterbirdStartTime
  | onBetterbirdWindowHidden => exact (onBetterbirdWindowHidden_quiet s).mBetterbirdStartTime
  | bbProcessError attached =>
    show (bbProcessError s attached).mBetterbirdStartTime = _
    unfold bbProcessError
    split_ifs <;> rfl
  | bbProcessFinished attached =>
    show (bbProcessFinished s attached).mBetterbirdStartTime = _
    unfold bbProcessFinished
    split_ifs
    · rfl
    · split <;> rfl
  | bbUpdaterProcessFinished isError =>
    show (bbUpdaterProcessFinished s isError).mBetterbirdStartTime = _
    unfold bbUpdaterProcessFinished
    split_ifs
    · rfl
    · split <;> rfl

theorem construct_mBetterbirdStartTime (settings : Settings) (isWindows hasWinTools : Bool)
    (now : Int) (env : PollEnv) :
    (construct settings isWindows hasWinTools now env).mBetterbirdStartTime =
      now + 1000 * settings.mLaunchBetterbirdDelay := by
  unfold construct
  dsimp only
  rw [(updateIcon_sameCore _).mBetterbirdStartTime, updateState_startTime, createMenu_startTime]
  rfl

/-- Claim C9, refuted as stated: the constructor runs at time 1000 with a launch
delay of 0, so that the launch time is 1000, and its own call of `updateState`
reads the time 1000 again. Auto-launch is set, no process is tracked, the
window never existed and `now ≥ earliestLaunchTime`, yet `startBetterbird()` is
not called. -/
theorem updateState_launch_counterexample :
    (createMenu (initialState launchSettings false true 1000)).hasWinTools = true ∧
    (createMenu (initialState launchSettings false true 1000)).mBetterbirdWindowExisted = false ∧
    (createMenu (initialState launchSettings false true 1000)).settings.mLaunchBetterbird = true ∧
    (createMenu (initialState launchSettings false true 1000)).mBetterbirdProcess = none ∧
    ({ exampleEnv with now := 1000 } : PollEnv).lookup = false ∧
    ({ exampleEnv with now := 1000 } : PollEnv).now ≥
      (createMenu (initialState launchSettings false true 1000)).mBetterbirdStartTime ∧
    Effect.startBetterbird ∉
      effectsSince (createMenu (initialState launchSettings false true 1000))
        (updateState (createMenu (initialState launchSettings false true 1000))
          { exampleEnv with now := 1000 }) := by
  refine ⟨by decide, by decide, by decide, by decide, by decide, by decide, ?_⟩
  rw [(updateState_start_requested _ _).1]
  decide

/-- Claim C9, amended: in a poll tick where `lookup()` is false and the window
has never existed, `updateState` calls `startBetterbird()` if and only if
auto-launch is configured, no process handle is tracked and
`now > earliestLaunchTime`; the process is started if and only if in addition a
command line to start it is configured. The launch time is the construction
time plus the launch delay configured then (in milliseconds), and no handler
changes it. -/
theorem updateState_first_launch (s : State) (env : PollEnv) (hw : s.hasWinTools = true)
    (hl : env.lookup = false) (he : s.mBetterbirdWindowExisted = false) :
    (Effect.startBetterbird ∈ effectsSince s (updateState s env) ↔
      (s.settings.mLaunchBetterbird = true ∧ s.mBetterbirdProcess = none ∧
        s.mBetterbirdStartTime < env.now)) ∧
    ((∃ (handle : Nat) (exe : String) (args : List String),
        Effect.processStart handle exe args ∈ effectsSince s (updateState s env)) ↔
      (s.settings.mLaunchBetterbird = true ∧ s.mBetterbirdProcess = none ∧
        s.mBetterbirdStartTime < env.now ∧ s.settings.startCmdline.isSome = true)) ∧
    (∀ ev : Event, (step s ev).mBetterbirdStartTime = s.mBetterbirdStartTime) ∧
    (∀ (settings : Settings) (isWindows hasWinTools : Bool) (now : Int) (env0 : PollEnv),
      (construct settings isWindows hasWinTools now env0).mBetterbirdStartTime =
        now + 1000 * settings.mLaunchBetterbirdDelay) := by
  have hreq : startRequested s env ↔ (s.settings.mLaunchBetterbird = true ∧
      s.mBetterbirdProcess = none ∧ s.mBetterbirdStartTime < env.now) := by
    unfold startRequested
    rw [if_pos he]
    constructor
    · rintro ⟨_, _, h3, h4, h5⟩
      exact ⟨h4, h3, h5⟩
    · rintro ⟨h4, h3, h5⟩
      exact ⟨hw, hl, h3, h4, h5⟩
  obtain ⟨h1, h2⟩ := updateState_start_requested s env
  refine ⟨h1.trans hreq, ?_, step_mBetterbirdStartTime s, construct_mBetterbirdStartTime⟩
  rw [h2, hreq]
  simp only [and_assoc]

theorem updateState_first_launch_witness :
    Effect.startBetterbird ∈
      effectsSince (createMenu (initialState launchSettings false true 1000))
        (updateState (createMenu (initialState launchSettings false true 1000))
          { exampleEnv with now := 1001 }) :=
  (updateState_first_launch (createMenu (initialState launchSettings false true 1000))
    { exampleEnv with now := 1001 } (by decide) (by decide) (by decide)).1.mpr (by decide)

theorem not_startRequested_of_held (s : State) (env : PollEnv)
    (h : s.mBetterbirdProcess ≠ none) : ¬ startRequested s env :=
  fun hc => h hc.2.2.1

theorem pollRun_held (envs : List PollEnv) :
    ∀ s : State, s.mBetterbirdProcess ≠ none →
      spawnCount (pollRun s envs) = spawnCount s ∧
      (pollRun s envs).mBetterbirdProcess = s.mBetterbirdProcess := by
  induction envs with
  | nil => intro s _; exact ⟨rfl, rfl⟩
  | cons env envs ih =>
    intro s h
    have hq := updateState_not_requested s env (not_startRequested_of_held s env h)
    have h1 : (updateState s env).mBetterbirdProcess ≠ none := by
      rw [hq.mBetterbirdProcess]; exact h
    obtain ⟨i1, i2⟩ := ih (updateState s env) h1
    show spawnCount (pollRun (updateState s env) envs) = _ ∧
      (pollRun (updateState s env) envs).mBetterbirdProcess = _
    exact ⟨i1.trans hq.spawnCount_eq, i2.trans hq.mBetterbirdProcess⟩

theorem pollRun_spawnCount_le (envs : List PollEnv) :
    ∀ s : State, spawnCount (pollRun s envs) ≤ spawnCount s + 1 := by
  induction envs with
  | nil => intro s; exact Nat.le_succ _
  | cons env envs ih =>
    intro s
    show spawnCount (pollRun (updateState s env) envs) ≤ _
    by_cases h : startRequested s env ∧ s.settings.startCmdline.isSome = true
    · have hp : (updateState s env).mBetterbirdProcess ≠ none := by
        rw [updateState_process, if_pos h]
        simp
      rw [(pollRun_held envs _ hp).1, updateState_spawnCount, if_pos h]
    · have := ih (updateState s env)
      rw [updateState_spawnCount, if_neg h] at this
      exact this

/-- Claim C10, refuted as stated: auto-restart is configured but no command line
to start Betterbird can be derived. The window existed at construction; in the
two poll ticks that follow it is absent and no process handle is held, and no
process is started, not exactly one. -/
theorem updateState_restart_counterexample :
    (construct restartSettingsNoCmdline false true 0
      { exampleEnv with lookup := true }).hasWinTools = true ∧
    (construct restartSettingsNoCmdline false true 0
      { exampleEnv with lookup := true }).mBetterbirdWindowExisted = true ∧
    (construct restartSettingsNoCmdline false true 0
      { exampleEnv with lookup := true }).mBetterbirdProcess = none ∧
    (construct restartSettingsNoCmdline false true 0
      { exampleEnv with lookup := true }).settings.mRestartBetterbird = true ∧
    exampleEnv.lookup = false ∧
    spawnCount (pollRun (construct restartSettingsNoCmdline false true 0
        { exampleEnv with lookup := true }) [exampleEnv, exampleEnv]) =
      spawnCount (construct restartSettingsNoCmdline false true 0
        { exampleEnv with lookup := true }) := by
  refine ⟨by decide, by decide, by decide, by decide, by decide, ?_⟩
  decide

/-- Claim C10, amended: `updateState` does not call `startBetterbird()` and
starts no process in a tick where a process handle is held, in either branch,
and leaves the handle as it is; so over any run of consecutive poll ticks at
most one process is started. When the window existed before, is absent in the
first tick of the run, no handle is held, auto-restart is configured and a
command line to start Betterbird is configured, exactly one process is started
over the run. -/
theorem updateState_spawns_at_most_once :
    (∀ (s : State) (env : PollEnv), s.mBetterbirdProcess ≠ none →
      (updateState s env).mBetterbirdProcess = s.mBetterbirdProcess ∧
      ∀ e ∈ effectsSince s (updateState s env), e.isStart = false) ∧
    (∀ (s : State) (envs : List PollEnv), spawnCount (pollRun s envs) ≤ spawnCount s + 1) ∧
    (∀ (s : State) (env : PollEnv) (envs : List PollEnv),
      s.hasWinTools = true → s.mBetterbirdWindowExisted = true →
      s.settings.mRestartBetterbird = true → s.mBetterbirdProcess = none →
      s.settings.startCmdline.isSome = true → env.lookup = false →
      spawnCount (pollRun s (env :: envs)) = spawnCount s + 1) := by
  refine ⟨?_, fun s envs => pollRun_spawnCount_le envs s, ?_⟩
  · intro s env h
    have hq := updateState_not_requested s env (not_startRequested_of_held s env h)
    exact ⟨hq.mBetterbirdProcess, hq.effects⟩
  · intro s env envs hw he hr hp hc hl
    have hreq : startRequested s env ∧ s.settings.startCmdline.isSome = true := by
      refine ⟨⟨hw, hl, hp, ?_⟩, hc⟩
      rw [if_neg (by rw [he]; simp)]
      exact hr
    have hp1 : (updateState s env).mBetterbirdProcess ≠ none := by
      rw [updateState_process, if_pos hreq]
      simp
    show spawnCount (pollRun (updateState s env) envs) = _
    rw [(pollRun_held envs _ hp1).1, updateState_spawnCount, if_pos hreq]

theorem updateState_spawns_at_most_once_witness :
    spawnCount (pollRun (construct restartSettings false true 0
        { exampleEnv with lookup := true }) [exampleEnv, exampleEnv, exampleEnv]) =
      spawnCount (construct restartSettings false true 0
        { exampleEnv with lookup := true }) + 1 :=
  updateState_spawns_at_most_once.2.2
    (construct restartSettings false true 0 { exampleEnv with lookup := true })
    exampleEnv [exampleEnv, exampleEnv]
    (by decide) (by decide) (by decide) (by decide) (by decide) (by decide)

/-! ## Process exit, blink reset, idempotence and the snooze menu (claims C12, C13, C19, C20) -/

/-- Claim C12, refuted as stated: on Windows, when the updater process can be
attached to, `bbProcessFinished` returns before it clears the handle; the
tracked process 7 is still tracked afterwards. -/
theorem bbProcessFinished_counterexample :
    ({ initialState exampleSettings true true 0 with
        mBetterbirdProcess := some 7 } : State).mBetterbirdProcess = some 7 ∧
    (bbProcessFinished { initialState exampleSettings true true 0 with
        mBetterbirdProcess := some 7 } true).mBetterbirdProcess = some 7 := by
  decide

/-- Claim C12, amended: the process-exit notification `bbProcessFinished`
clears the tracked process handle for every exit code and exit status (neither
is read), except on Windows when the attach to the updater process succeeds:
then the state is left as it is, and the handle is cleared by
`bbUpdaterProcessFinished` once the updater exits without error. -/
theorem bbProcessFinished_clears_handle (s : State) (attached : Bool) :
    (¬ (s.isWindows = true ∧ attached = true) →
      (bbProcessFinished s attached).mBetterbirdProcess = none) ∧
    (s.isWindows = true ∧ attached = true → bbProcessFinished s attached = s) ∧
    (bbUpdaterProcessFinished s false).mBetterbirdProcess = none := by
  refine ⟨?_, ?_, ?_⟩
  · intro h
    unfold bbProcessFinished
    rw [if_neg h]
    split
    · rfl
    · assumption
  · intro h
    unfold bbProcessFinished
    rw [if_pos h]
  · unfold bbUpdaterProcessFinished
    simp only [Bool.false_eq_true, if_false]
    split
    · rfl
    · assumption

theorem bbProcessFinished_clears_handle_witness :
    (bbProcessFinished { initialState exampleSettings false true 0 with
        mBetterbirdProcess := some 7 } true).mBetterbirdProcess = none ∧
    bbProcessFinished { initialState exampleSettings true true 0 with
        mBetterbirdProcess := some 7 } true =
      { initialState exampleSettings true true 0 with mBetterbirdProcess := some 7 } :=
  ⟨(bbProcessFinished_clears_handle { initialState exampleSettings false true 0 with
      mBetterbirdProcess := some 7 } true).1 (by decide),
    (bbProcessFinished_clears_handle { initialState exampleSettings true true 0 with
      mBetterbirdProcess := some 7 } true).2.1 (by decide)⟩

/-- Claim C13: whatever the blinking members were before (off, discrete or
alpha transition, any opacity, delta and interval), `enableBlinking(false)`
leaves `mBlinkingTimeout = 0`, the opacity 1.0 and the delta 0, and stops the
blink timer. -/
theorem enableBlinking_false_resets (s : State) :
    (enableBlinking s false).mBlinkingTimeout = 0 ∧
    (enableBlinking s false).mBlinkingIconOpacity = 1 ∧
    (enableBlinking s false).mBlinkingDelta = 0 ∧
    (enableBlinking s false).blinkTimerActive = false := by
  unfold enableBlinking
  simp

theorem setIgnoredUnreadMails_ignoredUnreadEmails (s : State) (v : Nat) (b : Bool) :
    (setIgnoredUnreadMails s v b).ignoredUnreadEmails = v := by
  unfold setIgnoredUnreadMails
  dsimp only
  split_ifs with h
  · exact h.symm
  · rw [(updateIcon_sameCore _).ignoredUnreadEmails]
  · rfl

/-- Claim C19: `setIgnoredUnreadMails` called with the value the baseline
already has returns the state as it is, log included: no member and no menu
text changes and `updateIcon` does not run. In particular a second call in a
row with the same value changes nothing. -/
theorem setIgnoredUnreadMails_idempotent (s : State) (v : Nat) (b b2 : Bool) :
    (s.ignoredUnreadEmails = v → setIgnoredUnreadMails s v b = s) ∧
    setIgnoredUnreadMails (setIgnoredUnreadMails s v b) v b2 = setIgnoredUnreadMails s v b := by
  have key : ∀ (t : State) (c : Bool), t.ignoredUnreadEmails = v →
      setIgnoredUnreadMails t v c = t := by
    intro t c h
    unfold setIgnoredUnreadMails
    rw [if_pos h.symm]
  exact ⟨key s b, key _ b2 (setIgnoredUnreadMails_ignoredUnreadEmails s v b)⟩

theorem setIgnoredUnreadMails_idempotent_witness :
    setIgnoredUnreadMails { initialState exampleSettings false true 0 with
        mUnreadCounter := 9, ignoredUnreadEmails := 4 } 4 true =
      { initialState exampleSettings false true 0 with
        mUnreadCounter := 9, ignoredUnreadEmails := 4 } :=
  (setIgnoredUnreadMails_idempotent { initialState exampleSettings false true 0 with
    mUnreadCounter := 9, ignoredUnreadEmails := 4 } 4 true true).1 rfl

theorem triggerSnoozeEntry_deadline (s : State) (label : String) (nowUtc : Int)
    (seconds : Nat) (h : snoozeEntrySeconds label = some seconds) :
    (triggerSnoozeEntry s label nowUtc).mSnoozedUntil =
      some (nowUtc + 1000 * (seconds : Int)) := by
  unfold triggerSnoozeEntry
  rw [h]
  exact actionSnoozeFor_mSnoozedUntil s _ nowUtc

/-- Claim C20 at its failing input: the snooze menu entry labelled "5 minutes"
carries 360 seconds, so triggering it at UTC time 0 sets the deadline to
360000 ms, which is not 300 s after 0. -/
theorem snooze_five_minutes_entry :
    snoozeEntrySeconds "5 minutes" = some 360 ∧
    (triggerSnoozeEntry exampleState "5 minutes" 0).mSnoozedUntil = some 360000 ∧
    (360000 : Int) ≠ 0 + 1000 * 300 := by
  have h : snoozeEntrySeconds "5 minutes" = some 360 := by decide
  refine ⟨h, ?_, by decide⟩
  rw [triggerSnoozeEntry_deadline exampleState "5 minutes" 0 360 h]
  rfl

/-- The other four entries of the snooze menu carry the duration their label
names. -/
theorem snooze_other_entries :
    snoozeEntrySeconds "10 minutes" = some 600 ∧
    snoozeEntrySeconds "30 minutes" = some 1800 ∧
    snoozeEntrySeconds "1 hour" = some 3600 ∧
    snoozeEntrySeconds "4 hours" = some 14400 := by
  decide

/-! ## What `updateIcon` arms, paints and publishes (claims C14 to C18) -/

theorem enableBlinking_render_fields (s : State) (b : Bool) :
    (enableBlinking s b).toolTip = s.toolTip ∧
      (enableBlinking s b).mLastDrawnIcon = s.mLastDrawnIcon ∧
      (enableBlinking s b).trayVisible = s.trayVisible := by
  unfold enableBlinking
  split_ifs <;> exact ⟨rfl, rfl, rfl⟩

theorem adjustBlinking_render_fields (s : State) (unread : Nat) :
    (adjustBlinking s unread).toolTip = s.toolTip ∧
      (adjustBlinking s unread).mLastDrawnIcon = s.mLastDrawnIcon ∧
      (adjustBlinking s unread).trayVisible = s.trayVisible := by
  have h1 := enableBlinking_render_fields s true
  have h2 := enableBlinking_render_fields s false
  have h3 := enableBlinking_render_fields (enableBlinking s true) false
  unfold adjustBlinking
  dsimp only
  split_ifs
  · exact ⟨h3.1.trans h1.1, h3.2.1.trans h1.2.1, h3.2.2.trans h1.2.2⟩
  · exact h1
  · exact h2
  · exact ⟨rfl, rfl, rfl⟩

theorem prepareIcon_render_fields (s : State) :
    (prepareIcon s).toolTip = s.toolTip ∧ (prepareIcon s).mLastDrawnIcon = s.mLastDrawnIcon ∧
      (prepareIcon s).trayVisible = s.trayVisible := by
  unfold prepareIcon
  dsimp only
  split_ifs
  · exact ⟨rfl, rfl, rfl⟩
  · exact adjustBlinking_render_fields _ _

theorem prepareIcon_of_arms (s : State) (h : armsBlinking s) :
    prepareIcon s = enableBlinking (s.emit (Effect.updateIcon (iconRunOf s))) true := by
  obtain ⟨h1, h2, h3, h4⟩ := h
  have hne : ¬ displayedUnread s = 0 := by omega
  unfold prepareIcon adjustBlinking
  simp [State.emit, h1, h2, h3, h4, hne]

theorem prepareIcon_log_blink (s : State) :
    ∃ l : List Effect, (prepareIcon s).log = s.log ++ Effect.updateIcon (iconRunOf s) :: l ∧
      (∀ e ∈ l, e.isBlinkTimer = true) ∧
      (¬ armsBlinking s → ∀ e ∈ l, e = Effect.blinkTimerStop) := by
  unfold prepareIcon adjustBlinking armsBlinking
  dsimp only [State.emit]
  split_ifs with c1 c2 c3 c4
  · refine ⟨[], rfl, by simp, by simp⟩
  · exfalso
    have := c2.1
    omega
  · refine ⟨[Effect.blinkTimerStart (enableBlinking (s.emit
      (Effect.updateIcon (iconRunOf s))) true).mBlinkingTimeout], ?_, ?_, ?_⟩
    · unfold enableBlinking State.emit
      simp only [if_true]
      split_ifs <;> simp
    · simp [Effect.isBlinkTimer]
    · intro hn
      exfalso
      exact hn ⟨by simpa using c1, c2.1, c2.2.1, c2.2.2⟩
  · refine ⟨[Effect.blinkTimerStop], ?_, by simp [Effect.isBlinkTimer], by simp⟩
    unfold enableBlinking
    simp
  · refine ⟨[], by simp, by simp, by simp⟩

theorem updateIcon_of_hides (s : State) (h : hidesIcon s) :
    updateIcon s = { prepareIcon s with
      trayVisible := false, log := (prepareIcon s).log ++ [Effect.trayHide] } := by
  unfold updateIcon
  dsimp only
  rw [if_pos ⟨(prepareIcon_sameCore s).settings.symm ▸ h.1, h.2⟩]

theorem updateIcon_of_paints (s : State) (h : ¬ hidesIcon s) :
    updateIcon s = renderIcon (prepareIcon s) (displayedUnread s) := by
  unfold updateIcon
  dsimp only
  rw [if_neg]
  intro hc
  exact h ⟨(prepareIcon_sameCore s).settings ▸ hc.1, hc.2⟩

theorem renderIcon_fields (s : State) (unread : Nat) :
    (renderIcon s unread).toolTip = toolTipText s.warnings ∧
      (renderIcon s unread).mLastDrawnIcon = some (paintIcon s unread) ∧
      (renderIcon s unread).trayVisible = true := by
  unfold renderIcon
  dsimp only
  split_ifs with h
  · exact ⟨rfl, rfl, rfl⟩
  · refine ⟨rfl, ?_, rfl⟩
    simpa using h

theorem renderIcon_log_exact (s : State) (unread : Nat) :
    (renderIcon s unread).log = s.log ++
      ([Effect.setToolTip (toolTipText s.warnings), Effect.painted (paintIcon s unread)] ++
        (if s.mLastDrawnIcon ≠ some (paintIcon s unread) then
          [Effect.setIcon (paintIcon s unread)] else []) ++ [Effect.trayShow]) := by
  unfold renderIcon
  dsimp only
  split_ifs <;> simp

theorem updateIcon_sameBlink_prepare (s : State) : SameBlink (prepareIcon s) (updateIcon s) := by
  by_cases h : hidesIcon s
  · rw [updateIcon_of_hides s h]
    exact ⟨rfl, rfl, rfl, rfl⟩
  · rw [updateIcon_of_paints s h]
    exact renderIcon_blink _ _

theorem updateIcon_painted_iff (s : State) (d : Drawing) :
    Effect.painted d ∈ effectsSince s (updateIcon s) ↔
      (¬ hidesIcon s ∧ d = paintIcon (prepareIcon s) (displayedUnread s)) := by
  obtain ⟨l, hl, hb, _⟩ := prepareIcon_log_blink s
  have hnb : Effect.painted d ∉ l := by
    intro hm
    have := hb _ hm
    simp [Effect.isBlinkTimer] at this
  by_cases h : hidesIcon s
  · have hlog : (updateIcon s).log =
        s.log ++ (Effect.updateIcon (iconRunOf s) :: l ++ [Effect.trayHide]) := by
      rw [updateIcon_of_hides s h]
      dsimp only
      rw [hl]
      simp
    rw [effectsSince_of_log s _ _ hlog]
    simp [h, hnb]
  · have hlog : (updateIcon s).log =
        s.log ++ (Effect.updateIcon (iconRunOf s) :: l ++
          ([Effect.setToolTip (toolTipText (prepareIcon s).warnings),
            Effect.painted (paintIcon (prepareIcon s) (displayedUnread s))] ++
          (if (prepareIcon s).mLastDrawnIcon ≠
              some (paintIcon (prepareIcon s) (displayedUnread s)) then
            [Effect.setIcon (paintIcon (prepareIcon s) (displayedUnread s))] else []) ++
          [Effect.trayShow])) := by
      rw [updateIcon_of_paints s h, renderIcon_log_exact, hl]
      simp
    rw [effectsSince_of_log s _ _ hlog]
    split_ifs <;> simp [h, hnb]

theorem updateIcon_log_split (s : State) :
    ∃ l2 : List Effect, (updateIcon s).log = (prepareIcon s).log ++ l2 ∧
      (∀ e ∈ l2, e.isBlinkTimer = false) ∧
      (hidesIcon s → l2 = [Effect.trayHide]) ∧
      (¬ hidesIcon s → Effect.trayShow ∈ l2) := by
  by_cases h : hidesIcon s
  · refine ⟨[Effect.trayHide], ?_, by simp [Effect.isBlinkTimer], fun _ => rfl,
      fun hn => absurd h hn⟩
    rw [updateIcon_of_hides s h]
  · refine ⟨[Effect.setToolTip (toolTipText (prepareIcon s).warnings),
        Effect.painted (paintIcon (prepareIcon s) (displayedUnread s))] ++
      (if (prepareIcon s).mLastDrawnIcon ≠
          some (paintIcon (prepareIcon s) (displayedUnread s)) then
        [Effect.setIcon (paintIcon (prepareIcon s) (displayedUnread s))] else []) ++
      [Effect.trayShow], ?_, ?_, fun hc => absurd hc h, fun _ => ?_⟩
    · rw [updateIcon_of_paints s h, renderIcon_log_exact]
    · intro e he
      split_ifs at he <;> simp at he
      · rcases he with rfl | rfl | rfl | rfl <;> rfl
      · rcases he with rfl | rfl | rfl <;> rfl
    · simp

theorem enableBlinking_true_fields (s : State) :
    (enableBlinking s true).blinkTimerActive = true ∧
    (enableBlinking s true).mBlinkingIconOpacity = 1 ∧
    (enableBlinking s true).mBlinkingTimeout =
      (if s.settings.mBlinkingUseAlphaTransition = true then
        (if s.settings.mBlinkSpeed = 1 then 50 else 100)
      else s.settings.mBlinkSpeed * 50 % UINT_MOD) ∧
    (enableBlinking s true).log =
      s.log ++ [Effect.blinkTimerStart (enableBlinking s true).mBlinkingTimeout] := by
  unfold enableBlinking
  simp only [if_true]
  split_ifs <;> exact ⟨rfl, rfl, rfl, rfl⟩

theorem updateIcon_blink_of_arms (s : State) (h : armsBlinking s) :
    (updateIcon s).blinkTimerActive = true ∧
    (updateIcon s).mBlinkingIconOpacity = 1 ∧
    (updateIcon s).mBlinkingTimeout =
      (if s.settings.mBlinkingUseAlphaTransition = true then
        (if s.settings.mBlinkSpeed = 1 then 50 else 100)
      else s.settings.mBlinkSpeed * 50 % UINT_MOD) ∧
    Effect.blinkTimerStart (updateIcon s).mBlinkingTimeout ∈ effectsSince s (updateIcon s) := by
  obtain ⟨b1, b2, _, b4⟩ := updateIcon_sameBlink_prepare s
  obtain ⟨f1, f2, f3, f4⟩ := enableBlinking_true_fields
    (s.emit (Effect.updateIcon (iconRunOf s)))
  have hp := prepareIcon_of_arms s h
  rw [← hp] at f1 f2 f3 f4
  obtain ⟨l2, hl2, _, _, _⟩ := updateIcon_log_split s
  refine ⟨b4.trans f1, b2.trans f2, b1.trans f3, ?_⟩
  have hlog : (updateIcon s).log = s.log ++ ([Effect.updateIcon (iconRunOf s)] ++
      [Effect.blinkTimerStart (prepareIcon s).mBlinkingTimeout] ++ l2) := by
    rw [hl2, f4]
    simp [State.emit]
  rw [effectsSince_of_log s _ _ hlog, b1]
  simp

theorem updateIcon_no_arm (s : State) (h : ¬ armsBlinking s) (interval : Nat) :
    Effect.blinkTimerStart interval ∉ effectsSince s (updateIcon s) := by
  obtain ⟨l, hl, _, hstop⟩ := prepareIcon_log_blink s
  obtain ⟨l2, hl2, hn2, _, _⟩ := updateIcon_log_split s
  have hlog : (updateIcon s).log = s.log ++ (Effect.updateIcon (iconRunOf s) :: l ++ l2) := by
    rw [hl2, hl]
    simp
  rw [effectsSince_of_log s _ _ hlog]
  intro hm
  simp only [List.cons_append, List.mem_cons, reduceCtorEq, List.mem_append, false_or] at hm
  rcases hm with hm | hm
  · have := hstop h _ hm
    simp at this
  · have := hn2 _ hm
    simp [Effect.isBlinkTimer] at this

/-- Claim C14, refuted as stated: with the configured speed 2147483648 in
discrete mode, 5 unread mails and no snooze, `updateIcon` arms the blinking,
but `mBlinkSpeed * 50` wraps to 0 in `unsigned int` arithmetic, so the armed
state has the interval 0. -/
theorem updateIcon_arms_counterexample :
    armsBlinking { initialState { exampleSettings with mBlinkSpeed := 2147483648 }
      false true 0 with mUnreadCounter := 5 } ∧
    (updateIcon { initialState { exampleSettings with mBlinkSpeed := 2147483648 }
      false true 0 with mUnreadCounter := 5 }).blinkTimerActive = true ∧
    (updateIcon { initialState { exampleSettings with mBlinkSpeed := 2147483648 }
      false true 0 with mUnreadCounter := 5 }).mBlinkingTimeout = 0 := by
  have h : armsBlinking { initialState { exampleSettings with mBlinkSpeed := 2147483648 }
      false true 0 with mUnreadCounter := 5 } := by decide
  obtain ⟨h1, _, h3, _⟩ := updateIcon_blink_of_arms _ h
  refine ⟨h, h1, ?_⟩
  rw [h3]
  decide

/-- Claim C14, amended: `updateIcon` arms the blinking (calls
`enableBlinking(true)`, which starts the blink timer) exactly when no snooze
deadline is set, the displayed count is above 0, the configured speed is above
0 and `mBlinkingTimeout` is 0. The armed interval is `50 * speed` modulo
`2 ^ 32` in discrete mode, which is `50 * speed` and not 0 whenever
`50 * speed < 2 ^ 32`, and it is 50 for speed 1 and 100 otherwise in alpha
transition mode. -/
theorem updateIcon_arms_blinking (s : State) :
    ((∃ interval : Nat, Effect.blinkTimerStart interval ∈ effectsSince s (updateIcon s)) ↔
      (s.mSnoozedUntil.isSome = false ∧ 0 < displayedUnread s ∧ 0 < s.settings.mBlinkSpeed ∧
        s.mBlinkingTimeout = 0)) ∧
    ((s.mSnoozedUntil.isSome = false ∧ 0 < displayedUnread s ∧ 0 < s.settings.mBlinkSpeed ∧
        s.mBlinkingTimeout = 0) →
      (updateIcon s).blinkTimerActive = true ∧
      Effect.blinkTimerStart (updateIcon s).mBlinkingTimeout ∈ effectsSince s (updateIcon s) ∧
      (s.settings.mBlinkingUseAlphaTransition = true →
        (updateIcon s).mBlinkingTimeout = (if s.settings.mBlinkSpeed = 1 then 50 else 100) ∧
        (updateIcon s).mBlinkingTimeout ≠ 0) ∧
      (s.settings.mBlinkingUseAlphaTransition = false →
        (updateIcon s).mBlinkingTimeout = s.settings.mBlinkSpeed * 50 % UINT_MOD ∧
        (s.settings.mBlinkSpeed * 50 < UINT_MOD →
          (updateIcon s).mBlinkingTimeout = 50 * s.settings.mBlinkSpeed ∧
          (updateIcon s).mBlinkingTimeout ≠ 0))) := by
  constructor
  · constructor
    · rintro ⟨interval, hm⟩
      by_contra hn
      exact updateIcon_no_arm s hn interval hm
    · intro h
      exact ⟨_, (updateIcon_blink_of_arms s h).2.2.2⟩
  · intro h
    obtain ⟨h1, _, h3, h4⟩ := updateIcon_blink_of_arms s h
    refine ⟨h1, h4, ?_, ?_⟩
    · intro ha
      rw [h3, if_pos ha]
      refine ⟨rfl, ?_⟩
      split_ifs <;> decide
    · intro ha
      rw [h3, if_neg (by rw [ha]; decide)]
      refine ⟨rfl, fun hlt => ?_⟩
      have hpos := h.2.2.1
      rw [Nat.mod_eq_of_lt hlt]
      constructor <;> omega

theorem updateIcon_arms_blinking_witness :
    (updateIcon { initialState (blinkSettings false) false true 0 with
      mUnreadCounter := 5 }).mBlinkingTimeout = 50 * 10 ∧
    (updateIcon { initialState (blinkSettings true) false true 0 with
      mUnreadCounter := 5 }).mBlinkingTimeout = 100 :=
  ⟨(((updateIcon_arms_blinking { initialState (blinkSettings false) false true 0 with
      mUnreadCounter := 5 }).2 (by decide)).2.2.2 (by decide)).2 (by decide) |>.1,
    (((updateIcon_arms_blinking { initialState (blinkSettings true) false true 0 with
      mUnreadCounter := 5 }).2 (by decide)).2.2.1 (by decide)).1⟩

theorem prepareIcon_of_steady (s : State) (h : ¬ armsBlinking s)
    (hu : displayedUnread s ≠ 0) :
    prepareIcon s = s.emit (Effect.updateIcon (iconRunOf s)) := by
  unfold prepareIcon adjustBlinking
  dsimp only
  split_ifs with c1 c2 c3 c4
  · rfl
  · exact absurd c3.1 hu
  · exact absurd ⟨by simpa [State.emit] using c1, c2.1, c2.2.1, c2.2.2⟩ h
  · exact absurd c4.1 hu
  · rfl

theorem paintIcon_iconOpacity (t : State) (unread : Nat) :
    (paintIcon t unread).iconOpacity =
      if t.mSnoozedUntil.isSome then 1 / 2
      else if unread = 0 then 1
      else t.mBlinkingIconOpacity := rfl

/-- Claim C15: in every frame `updateIcon` paints, the opacity the base icon is
drawn with is 0.5 if a snooze deadline is set, otherwise 1.0 if the displayed
unread count is 0, otherwise the blink opacity `mBlinkingIconOpacity` at that
moment: the value the member has after `updateIcon`, which is 1.0 when this
call has just armed the blinking and the value it had before otherwise. -/
theorem updateIcon_base_opacity (s : State) (d : Drawing)
    (h : Effect.painted d ∈ effectsSince s (updateIcon s)) :
    d.iconOpacity =
      (if s.mSnoozedUntil.isSome then 1 / 2
      else if displayedUnread s = 0 then 1
      else (updateIcon s).mBlinkingIconOpacity) ∧
    (armsBlinking s → (updateIcon s).mBlinkingIconOpacity = 1) ∧
    (¬ armsBlinking s → displayedUnread s ≠ 0 →
      (updateIcon s).mBlinkingIconOpacity = s.mBlinkingIconOpacity) := by
  obtain ⟨_, hd⟩ := (updateIcon_painted_iff s d).mp h
  have hb := (updateIcon_sameBlink_prepare s).2.1
  refine ⟨?_, fun ha => (updateIcon_blink_of_arms s ha).2.1, ?_⟩
  · rw [hd, paintIcon_iconOpacity, (prepareIcon_sameCore s).mSnoozedUntil, hb]
  · intro ha hu
    rw [hb, prepareIcon_of_steady s ha hu]
    rfl

theorem updateIcon_base_opacity_witness :
    (paintIcon (prepareIcon { initialState (blinkSettings false) false true 0 with
        mUnreadCounter := 5, mBlinkingIconOpacity := 1 / 4, mBlinkingTimeout := 500 })
      5).iconOpacity = 1 / 4 := by
  have h := updateIcon_base_opacity
    { initialState (blinkSettings false) false true 0 with
      mUnreadCounter := 5, mBlinkingIconOpacity := 1 / 4, mBlinkingTimeout := 500 }
    (paintIcon (prepareIcon { initialState (blinkSettings false) false true 0 with
        mUnreadCounter := 5, mBlinkingIconOpacity := 1 / 4, mBlinkingTimeout := 500 }) 5)
    ((updateIcon_painted_iff _ _).mpr ⟨by decide, rfl⟩)
  rw [h.1, h.2.2 (by decide) (by decide)]
  rfl

/-- Claim C16: in every frame `updateIcon` paints while window monitoring is
configured and the window is absent, the error sign is drawn: the two diagonals
from (2, 2) to (w - 3, h - 3) and from (w - 3, 2) to (2, h - 3) at painter
opacity 1.0 with pen width `(w * 10) / 100` rounded towards zero, which is the
floor for an icon of width `w ≥ 0`; and no unread counter is drawn, whatever
the unread count and the show-count setting. -/
theorem updateIcon_error_sign (s : State) (d : Drawing)
    (h : Effect.painted d ∈ effectsSince s (updateIcon s))
    (hm : s.settings.mMonitorBetterbirdWindow = true)
    (ha : s.mBetterbirdWindowExists = false) :
    d.errorOpacity = some 1 ∧
    d.errorPenWidth = some (Int.tdiv (s.settings.iconSize.width * 10) 100) ∧
    (0 ≤ s.settings.iconSize.width →
      d.errorPenWidth = some (Int.fdiv (10 * s.settings.iconSize.width) 100)) ∧
    d.errorLines =
      [(2, 2, s.settings.iconSize.width - 3, s.settings.iconSize.height - 3),
        (s.settings.iconSize.width - 3, 2, 2, s.settings.iconSize.height - 3)] ∧
    d.counter = none := by
  obtain ⟨_, hd⟩ := (updateIcon_painted_iff s d).mp h
  have c := prepareIcon_sameCore s
  have e1 : (prepareIcon s).settings.mMonitorBetterbirdWindow = true := by
    rw [c.settings]; exact hm
  have e2 : (prepareIcon s).mBetterbirdWindowExists = false := by
    rw [c.mBetterbirdWindowExists]; exact ha
  have hw : d.errorPenWidth = some (Int.tdiv (s.settings.iconSize.width * 10) 100) := by
    rw [hd]
    simp [paintIcon, e1, e2, c.settings, hm]
  refine ⟨?_, hw, ?_, ?_, ?_⟩
  · rw [hd]
    simp [paintIcon, e1, e2]
  · intro h0
    rw [hw, Int.tdiv_eq_ediv (by omega) (by omega), Int.fdiv_eq_ediv _ (by omega),
      mul_comm]
  · rw [hd]
    simp [paintIcon, e1, e2, c.settings, hm]
  · rw [hd]
    simp [paintIcon, paintCounter, e1, e2]

theorem updateIcon_error_sign_witness :
    (paintIcon (prepareIcon { initialState monitorSettings false true 0 with
        mUnreadCounter := 5 }) 5).errorPenWidth = some 12 ∧
    (paintIcon (prepareIcon { initialState monitorSettings false true 0 with
        mUnreadCounter := 5 }) 5).counter = none := by
  have h := updateIcon_error_sign
    { initialState monitorSettings false true 0 with mUnreadCounter := 5 }
    (paintIcon (prepareIcon { initialState monitorSettings false true 0 with
        mUnreadCounter := 5 }) 5)
    ((updateIcon_painted_iff _ _).mpr ⟨by decide, rfl⟩) rfl rfl
  refine ⟨?_, h.2.2.2.2⟩
  rw [h.2.1]
  decide

theorem updateIcon_toolTip (s : State) :
    (updateIcon s).toolTip = if hidesIcon s then s.toolTip else toolTipText s.warnings := by
  by_cases h : hidesIcon s
  · rw [if_pos h, updateIcon_of_hides s h]
    exact (prepareIcon_render_fields s).1
  · rw [if_neg h, updateIcon_of_paints s h, (renderIcon_fields _ _).1,
      (prepareIcon_sameCore s).warnings]

theorem displayedUnread_eq_zero_iff (s : State) (hc : s.mUnreadCounter < UINT_MOD)
    (hi : s.ignoredUnreadEmails < UINT_MOD) :
    displayedUnread s = 0 ↔
      (s.mSnoozedUntil.isSome = true ∨ s.mUnreadCounter = s.ignoredUnreadEmails) := by
  unfold displayedUnread
  by_cases hs : s.mSnoozedUntil.isSome = true
  · simp [hs]
  · rw [if_neg hs]
    simp only [hs, Bool.false_eq_true, false_or]
    by_cases hle : s.ignoredUnreadEmails ≤ s.mUnreadCounter
    · rw [usub_of_le _ _ hle hc]
      constructor
      · intro h
        omega
      · intro h
        rw [h]
        exact Nat.sub_self _
    · have hmod : s.ignoredUnreadEmails % UINT_MOD = s.ignoredUnreadEmails :=
        Nat.mod_eq_of_lt hi
      have hlt : s.mUnreadCounter + (UINT_MOD - s.ignoredUnreadEmails) < UINT_MOD := by
        omega
      unfold usub
      rw [hmod, Nat.mod_eq_of_lt hlt]
      constructor
      · intro h
        omega
      · intro h
        exact absurd (le_of_eq h.symm) hle

/-- Claim C17: when "only show icon on unread" is configured and the displayed
count is zero (a snooze deadline is set, or the raw count equals the baseline),
`updateIcon` hides the tray icon and paints nothing: the last drawn bitmap and
the tooltip are left as they are and no tooltip, painting or icon is published.
In every other case `updateIcon` ends with the tray icon shown. -/
theorem updateIcon_hides_or_shows (s : State) :
    ((s.settings.onlyShowIconOnUnreadMessages = true ∧ displayedUnread s = 0) →
      (updateIcon s).trayVisible = false ∧
      (updateIcon s).mLastDrawnIcon = s.mLastDrawnIcon ∧
      (updateIcon s).toolTip = s.toolTip ∧
      Effect.trayHide ∈ effectsSince s (updateIcon s) ∧
      ∀ e ∈ effectsSince s (updateIcon s),
        (∀ d : Drawing, e ≠ Effect.painted d ∧ e ≠ Effect.setIcon d) ∧
        (∀ text : String, e ≠ Effect.setToolTip text) ∧ e ≠ Effect.trayShow) ∧
    (¬ (s.settings.onlyShowIconOnUnreadMessages = true ∧ displayedUnread s = 0) →
      (updateIcon s).trayVisible = true ∧
      Effect.trayShow ∈ effectsSince s (updateIcon s) ∧
      Effect.trayHide ∉ effectsSince s (updateIcon s)) ∧
    (s.mUnreadCounter < UINT_MOD → s.ignoredUnreadEmails < UINT_MOD →
      (displayedUnread s = 0 ↔
        (s.mSnoozedUntil.isSome = true ∨ s.mUnreadCounter = s.ignoredUnreadEmails))) := by
  obtain ⟨l, hl, hb, _⟩ := prepareIcon_log_blink s
  obtain ⟨l2, hl2, hn2, hh, hp⟩ := updateIcon_log_split s
  have hlog : (updateIcon s).log = s.log ++ (Effect.updateIcon (iconRunOf s) :: l ++ l2) := by
    rw [hl2, hl]
    simp
  have hnot : ∀ e ∈ l, (∀ d : Drawing, e ≠ Effect.painted d ∧ e ≠ Effect.setIcon d) ∧
      (∀ text : String, e ≠ Effect.setToolTip text) ∧ e ≠ Effect.trayShow ∧
      e ≠ Effect.trayHide := by
    intro e he
    have := hb e he
    cases e <;> simp [Effect.isBlinkTimer] at this <;> simp
  refine ⟨?_, ?_, displayedUnread_eq_zero_iff s⟩
  · intro h
    have hh2 : hidesIcon s := h
    have e2 := hh hh2
    subst e2
    rw [effectsSince_of_log s _ _ hlog, updateIcon_of_hides s hh2]
    refine ⟨rfl, (prepareIcon_render_fields s).2.1, (prepareIcon_render_fields s).1,
      by simp, ?_⟩
    intro e he
    simp only [List.cons_append, List.mem_cons, List.mem_append, List.mem_singleton,
      List.not_mem_nil, or_false] at he
    rcases he with rfl | he | rfl
    · simp
    · obtain ⟨a, b, c, _⟩ := hnot e he
      exact ⟨a, b, c⟩
    · simp
  · intro h
    have hh2 : ¬ hidesIcon s := h
    have hshow := hp hh2
    rw [effectsSince_of_log s _ _ hlog]
    refine ⟨?_, ?_, ?_⟩
    · rw [updateIcon_of_paints s hh2]
      exact (renderIcon_fields _ _).2.2
    · simp [hshow]
    · intro hm
      simp only [List.cons_append, List.mem_cons, List.mem_append, reduceCtorEq,
        false_or] at hm
      rcases hm with hm | hm
      · exact (hnot _ hm).2.2.2 rfl
      · obtain ⟨l3, hl3, hd3⟩ := renderIcon_log (prepareIcon s) (displayedUnread s)
        rw [updateIcon_of_paints s hh2, hl3] at hl2
        have : l2 = l3 := List.append_cancel_left hl2.symm
        subst this
        have hx := renderIcon_effects (prepareIcon s) (displayedUnread s)
        obtain ⟨l4, hl4, hd4⟩ := hx
        have : l2 = l4 := List.append_cancel_left (hl3.symm.trans hl4)
        subst this
        rcases hd4 _ hm with e | e | e | e <;> simp at e

theorem updateIcon_hides_or_shows_witness :
    (updateIcon { initialState onlyUnreadSettings false true 0 with
        mUnreadCounter := 3, ignoredUnreadEmails := 3 }).trayVisible = false ∧
    (updateIcon { initialState onlyUnreadSettings false true 0 with
        mUnreadCounter := 5, ignoredUnreadEmails := 3 }).trayVisible = true :=
  ⟨((updateIcon_hides_or_shows { initialState onlyUnreadSettings false true 0 with
      mUnreadCounter := 3, ignoredUnreadEmails := 3 }).1 (by decide)).1,
    ((updateIcon_hides_or_shows { initialState onlyUnreadSettings false true 0 with
      mUnreadCounter := 5, ignoredUnreadEmails := 3 }).2.1 (by decide)).1⟩

/-- Claim C18, refuted as stated: "only show icon on unread" is configured, 5
mails are unread and snoozed, and the unread monitor has reported a warning
while the icon was hidden, so that the tooltip is still empty. For this state
`updateIcon` hides the icon and leaves the tooltip empty; for the state that
differs from it only in having no snooze deadline (the state `actionUnsnooze`
hands to `updateIcon`) it paints the icon and sets the tooltip to the
warning. -/
theorem updateIcon_toolTip_counterexample :
    snoozedWithWarning.mSnoozedUntil = some 600000 ∧
    (updateIcon snoozedWithWarning).toolTip = "" ∧
    (updateIcon { snoozedWithWarning with mSnoozedUntil := none }).toolTip =
      "Warning: unreadable" := by
  rw [updateIcon_toolTip, updateIcon_toolTip]
  decide

/-- Claim C18, amended: whenever `updateIcon` paints the icon, the tooltip it
sets is determined by the warning map alone, and when it hides the icon instead
the tooltip is left as it was. So for two states that differ only in whether a
snooze deadline is set, the tooltip after `updateIcon` is the same provided
"only show icon on unread" is not configured, or the count displayed without
the snooze is zero as well. -/
theorem updateIcon_toolTip_snooze (s : State) (deadline : Int)
    (h : s.settings.onlyShowIconOnUnreadMessages = false ∨
      usub s.mUnreadCounter s.ignoredUnreadEmails = 0) :
    (updateIcon { s with mSnoozedUntil := some deadline }).toolTip =
      (updateIcon { s with mSnoozedUntil := none }).toolTip ∧
    (s.settings.onlyShowIconOnUnreadMessages = false →
      (updateIcon { s with mSnoozedUntil := some deadline }).toolTip =
        toolTipText s.warnings) ∧
    (¬ (s.settings.onlyShowIconOnUnreadMessages = true ∧ displayedUnread s = 0) →
      (updateIcon s).toolTip = toolTipText s.warnings) ∧
    ((s.settings.onlyShowIconOnUnreadMessages = true ∧ displayedUnread s = 0) →
      (updateIcon s).toolTip = s.toolTip) := by
  refine ⟨?_, ?_, ?_, ?_⟩
  · rw [updateIcon_toolTip, updateIcon_toolTip]
    unfold hidesIcon displayedUnread
    dsimp only
    rcases h with h | h
    · simp [h]
    · simp [h]
  · intro h1
    rw [updateIcon_toolTip]
    unfold hidesIcon
    dsimp only
    simp [h1]
  · intro h1
    rw [updateIcon_toolTip, if_neg (show ¬ hidesIcon s from h1)]
  · intro h1
    rw [updateIcon_toolTip, if_pos (show hidesIcon s from h1)]

theorem updateIcon_toolTip_snooze_witness :
    (updateIcon { ({ initialState exampleSettings false true 0 with
        mUnreadCounter := 5, warnings := exampleWarnings } : State) with
        mSnoozedUntil := some 600000 }).toolTip =
      (updateIcon { ({ initialState exampleSettings false true 0 with
        mUnreadCounter := 5, warnings := exampleWarnings } : State) with
        mSnoozedUntil := none }).toolTip :=
  (updateIcon_toolTip_snooze { initialState exampleSettings false true 0 with
    mUnreadCounter := 5, warnings := exampleWarnings } 600000 (Or.inl rfl)).1

/-! ## Hiding the window from the poll tick (claim C11) -/

theorem count_icon_effects (l : List Effect)
    (h : ∀ e ∈ l, (∃ r : IconRun, e = Effect.updateIcon r) ∨ e.isIconDetail = true) :
    l.countP Effect.isHide = 0 ∧ l.countP Effect.isFound = 0 := by
  constructor
  · rw [List.countP_eq_zero]
    intro e he hp
    rcases h e he with ⟨r, rfl⟩ | hd
    · simp [Effect.isHide] at hp
    · cases e <;> simp [Effect.isHide] at hp
      simp [Effect.isIconDetail] at hd
  · rw [List.countP_eq_zero]
    intro e he hp
    rcases h e he with ⟨r, rfl⟩ | hd
    · simp [Effect.isFound] at hp
    · cases e <;> simp [Effect.isFound] at hp
      simp [Effect.isIconDetail] at hd

theorem tickIdle_refl (s : State) : TickIdle s s := ⟨rfl, rfl, rfl⟩

theorem tickIdle_trans {s t u : State} (h1 : TickIdle s t) (h2 : TickIdle t u) :
    TickIdle s u :=
  ⟨h2.flag.trans h1.flag, h2.hides.trans h1.hides, h2.founds.trans h1.founds⟩

theorem updateIcon_idle (s : State) : TickIdle s (updateIcon s) := by
  obtain ⟨l, hl, hd⟩ := updateIcon_log_icon s
  obtain ⟨c1, c2⟩ := count_icon_effects l hd
  refine ⟨(updateIcon_sameCore s).mBetterbirdWindowHide, ?_, ?_⟩
  · unfold hideCount
    rw [hl, List.countP_append, c1]
    rfl
  · unfold foundCount
    rw [hl, List.countP_append, c2]
    rfl

theorem setIgnoredUnreadMails_idle (s : State) (v : Nat) (b : Bool) :
    TickIdle s (setIgnoredUnreadMails s v b) := by
  unfold setIgnoredUnreadMails
  dsimp only
  split_ifs
  · exact tickIdle_refl s
  · refine tickIdle_trans ?_ (updateIcon_idle _)
    exact ⟨rfl, rfl, rfl⟩
  · exact ⟨rfl, rfl, rfl⟩

theorem onBetterbirdWindowHidden_idle (s : State) :
    TickIdle s (onBetterbirdWindowHidden s) := by
  unfold onBetterbirdWindowHidden
  dsimp only
  split_ifs
  · refine tickIdle_trans ?_ (setIgnoredUnreadMails_idle _ _ _)
    exact ⟨rfl, rfl, rfl⟩
  · exact ⟨rfl, rfl, rfl⟩

theorem hideBetterbird_counts (s : State) (ok : Bool) :
    (hideBetterbird s ok).mBetterbirdWindowHide = s.mBetterbirdWindowHide ∧
    hideCount (hideBetterbird s ok) = hideCount s + 1 ∧
    foundCount (hideBetterbird s ok) = foundCount s := by
  have h0 : (s.emit (Effect.hideWindow ok)).mBetterbirdWindowHide = s.mBetterbirdWindowHide ∧
      hideCount (s.emit (Effect.hideWindow ok)) = hideCount s + 1 ∧
      foundCount (s.emit (Effect.hideWindow ok)) = foundCount s := by
    refine ⟨rfl, ?_, ?_⟩
    · simp [hideCount, State.emit, List.countP_append, Effect.isHide]
    · simp [foundCount, State.emit, List.countP_append, Effect.isFound]
  unfold hideBetterbird
  dsimp only
  split_ifs
  · have h1 := onBetterbirdWindowHidden_idle (s.emit (Effect.hideWindow ok))
    exact ⟨h1.flag.trans h0.1, h1.hides.trans h0.2.1, h1.founds.trans h0.2.2⟩
  · exact h0

theorem startBetterbird_idle (s : State) : TickIdle s (startBetterbird s) := by
  unfold startBetterbird State.emit
  dsimp only
  split
  · refine ⟨rfl, ?_, ?_⟩
    · simp [hideCount, List.countP_append, Effect.isHide]
    · simp [foundCount, List.countP_append, Effect.isFound]
  · split
    · refine ⟨rfl, ?_, ?_⟩
      · simp [hideCount, List.countP_append, Effect.isHide]
      · simp [foundCount, List.countP_append, Effect.isFound]
    · refine ⟨rfl, ?_, ?_⟩
      · simp [hideCount, List.countP_append, Effect.isHide]
      · simp [foundCount, List.countP_append, Effect.isFound]

theorem checkSnooze_idle (s : State) (nowUtc : Int) : TickIdle s (checkSnooze s nowUtc) := by
  unfold checkSnooze
  split
  · split_ifs
    · unfold actionUnsnooze
      refine tickIdle_trans ?_ (updateIcon_idle _)
      refine ⟨rfl, ?_, ?_⟩
      · simp [hideCount, List.countP_append, Effect.isHide]
      · simp [foundCount, List.countP_append, Effect.isFound]
    · exact tickIdle_refl s
  · exact tickIdle_refl s

theorem reconcileWindow_found_pending (s : State) (env : PollEnv)
    (hl : env.lookup = true) (hf : s.mBetterbirdWindowHide = true) :
    (reconcileWindow s env).mBetterbirdWindowHide = false ∧
    hideCount (reconcileWindow s env) = hideCount s + 1 ∧
    foundCount (reconcileWindow s env) = foundCount s + 1 := by
  unfold reconcileWindow
  dsimp only
  rw [if_pos hl, if_pos hf]
  obtain ⟨f, hc, fc⟩ := hideBetterbird_counts { s with
    mBetterbirdWindowExists := env.lookup
    log := s.log ++ [Effect.lookup env.lookup]
    mBetterbirdWindowExisted := true
    mMenuShowHideEnabled := true
    mBetterbirdWindowHide := false } env.hideOk
  refine ⟨f, ?_, ?_⟩
  · rw [hc]
    simp [hideCount, List.countP_append, Effect.isHide]
  · rw [fc]
    simp [foundCount, List.countP_append, Effect.isFound, hl]

theorem reconcileWindow_found_clear (s : State) (env : PollEnv)
    (hl : env.lookup = true) (hf : ¬ s.mBetterbirdWindowHide = true) :
    (reconcileWindow s env).mBetterbirdWindowHide = false ∧
    hideCount (reconcileWindow s env) = hideCount s ∧
    foundCount (reconcileWindow s env) = foundCount s + 1 := by
  unfold reconcileWindow
  dsimp only
  rw [if_pos hl, if_neg hf]
  refine ⟨by simpa using hf, ?_, ?_⟩
  · simp [hideCount, List.countP_append, Effect.isHide]
  · simp [foundCount, List.countP_append, Effect.isFound, hl]

theorem reconcileWindow_absent (s : State) (env : PollEnv) (hl : env.lookup = false) :
    (s.mBetterbirdWindowHide = true → (reconcileWindow s env).mBetterbirdWindowHide = true) ∧
    hideCount (reconcileWindow s env) = hideCount s ∧
    foundCount (reconcileWindow s env) = foundCount s := by
  have h1 : TickIdle s { s with
      mBetterbirdWindowExists := env.lookup
      log := s.log ++ [Effect.lookup env.lookup] } := by
    refine ⟨rfl, ?_, ?_⟩
    · simp [hideCount, List.countP_append, Effect.isHide]
    · simp [foundCount, List.countP_append, Effect.isFound, hl]
  have h2 := tickIdle_trans h1 (startBetterbird_idle _)
  unfold reconcileWindow
  dsimp only
  rw [if_neg (by simp [hl])]
  split_ifs
  · exact ⟨fun _ => rfl, h2.hides, h2.founds⟩
  · exact ⟨fun hf => h2.flag.trans hf, h2.hides, h2.founds⟩
  · exact ⟨fun hf => hf, h1.hides, h1.founds⟩
  · exact ⟨fun _ => rfl, h2.hides, h2.founds⟩
  · exact ⟨fun hf => h2.flag.trans hf, h2.hides, h2.founds⟩
  · exact ⟨fun hf => hf, h1.hides, h1.founds⟩

theorem updateState_tools (s : State) (env : PollEnv) (hw : s.hasWinTools = true) :
    TickIdle (reconcileWindow (checkSnooze s env.nowUtc) env) (updateState s env) := by
  unfold updateState
  dsimp only
  rw [if_pos ((checkSnooze_noStart s env.nowUtc).hasWinTools.trans hw)]
  refine tickIdle_trans ?_ (updateIcon_idle _)
  exact ⟨rfl, rfl, rfl⟩

theorem updateState_no_tools (s : State) (env : PollEnv) (hw : ¬ s.hasWinTools = true) :
    TickIdle s (updateState s env) := by
  unfold updateState
  dsimp only
  rw [if_neg (fun h => hw ((checkSnooze_noStart s env.nowUtc).hasWinTools.symm.trans h))]
  exact checkSnooze_idle s env.nowUtc

theorem updateState_counts (s : State) (env : PollEnv) :
    hideCount (updateState s env) = hideCount s +
      (if s.hasWinTools = true ∧ env.lookup = true ∧ s.mBetterbirdWindowHide = true then 1
        else 0) ∧
    foundCount (updateState s env) = foundCount s +
      (if s.hasWinTools = true ∧ env.lookup = true then 1 else 0) ∧
    (s.hasWinTools = true → env.lookup = true →
      (updateState s env).mBetterbirdWindowHide = false) ∧
    (¬ (s.hasWinTools = true ∧ env.lookup = true) → s.mBetterbirdWindowHide = true →
      (updateState s env).mBetterbirdWindowHide = true) := by
  have h0 := checkSnooze_idle s env.nowUtc
  by_cases hw : s.hasWinTools = true
  · have h2 := updateState_tools s env hw
    by_cases hl : env.lookup = true
    · by_cases hf : s.mBetterbirdWindowHide = true
      · obtain ⟨f, hc, fc⟩ := reconcileWindow_found_pending (checkSnooze s env.nowUtc) env hl
          (h0.flag.trans hf)
        refine ⟨?_, ?_, fun _ _ => h2.flag.trans f, fun h => absurd ⟨hw, hl⟩ h⟩
        · rw [h2.hides, hc, h0.hides, if_pos ⟨hw, hl, hf⟩]
        · rw [h2.founds, fc, h0.founds, if_pos ⟨hw, hl⟩]
      · obtain ⟨f, hc, fc⟩ := reconcileWindow_found_clear (checkSnooze s env.nowUtc) env hl
          (fun h => hf (h0.flag.symm.trans h))
        refine ⟨?_, ?_, fun _ _ => h2.flag.trans f, fun h => absurd ⟨hw, hl⟩ h⟩
        · rw [h2.hides, hc, h0.hides, if_neg (fun h => hf h.2.2)]
          rfl
        · rw [h2.founds, fc, h0.founds, if_pos ⟨hw, hl⟩]
    · obtain ⟨f, hc, fc⟩ := reconcileWindow_absent (checkSnooze s env.nowUtc) env
        (by simpa using hl)
      refine ⟨?_, ?_, fun _ h => absurd h hl, fun _ hf => h2.flag.trans (f (h0.flag.trans hf))⟩
      · rw [h2.hides, hc, h0.hides, if_neg (fun h => hl h.2.1)]
        rfl
      · rw [h2.founds, fc, h0.founds, if_neg (fun h => hl h.2)]
        rfl
  · have h2 := updateState_no_tools s env hw
    refine ⟨?_, ?_, fun h => absurd h hw, fun _ hf => h2.flag.trans hf⟩
    · rw [h2.hides, if_neg (fun h => hw h.1)]
      rfl
    · rw [h2.founds, if_neg (fun h => hw h.1)]
      rfl

theorem updateState_log_grows (s : State) (env : PollEnv) :
    ∃ l : List Effect, (updateState s env).log = s.log ++ l := by
  by_cases h : startRequested s env
  · obtain ⟨l0, l1, l2, hl, _⟩ := updateState_requested_log s env h
    exact ⟨_, hl⟩
  · obtain ⟨l, hl, _⟩ := (updateState_not_requested s env h).log
    exact ⟨l, hl⟩

theorem effectsSince_countP (s t : State) (p : Effect → Bool)
    (h : ∃ l : List Effect, t.log = s.log ++ l) :
    t.log.countP p = s.log.countP p + (effectsSince s t).countP p := by
  obtain ⟨l, hl⟩ := h
  rw [effectsSince_of_log s t l hl, hl, List.countP_append]

theorem mem_hideWindow_iff (l : List Effect) :
    (∃ ok : Bool, Effect.hideWindow ok ∈ l) ↔ 0 < l.countP Effect.isHide := by
  rw [List.countP_pos_iff]
  constructor
  · rintro ⟨ok, h⟩
    exact ⟨_, h, rfl⟩
  · rintro ⟨e, he, hp⟩
    cases e <;> simp [Effect.isHide] at hp
    exact ⟨_, he⟩

theorem mem_lookup_true_iff (l : List Effect) :
    Effect.lookup true ∈ l ↔ 0 < l.countP Effect.isFound := by
  rw [List.countP_pos_iff]
  constructor
  · intro h
    exact ⟨_, h, rfl⟩
  · rintro ⟨e, he, hp⟩
    cases e with
    | lookup found =>
      cases found
      · simp [Effect.isFound] at hp
      · exact he
    | _ => simp [Effect.isFound] at hp

theorem updateState_tick_effects (s : State) (env : PollEnv) :
    (effectsSince s (updateState s env)).countP Effect.isHide =
      (if s.hasWinTools = true ∧ env.lookup = true ∧ s.mBetterbirdWindowHide = true then 1
        else 0) ∧
    (effectsSince s (updateState s env)).countP Effect.isFound =
      (if s.hasWinTools = true ∧ env.lookup = true then 1 else 0) := by
  have h1 := effectsSince_countP s (updateState s env) Effect.isHide (updateState_log_grows s env)
  have h2 := effectsSince_countP s (updateState s env) Effect.isFound (updateState_log_grows s env)
  obtain ⟨c1, c2, _, _⟩ := updateState_counts s env
  unfold hideCount at c1
  unfold foundCount at c2
  constructor
  · omega
  · omega

theorem updateState_armedIn (s : State) (env : PollEnv) :
    hideCount (updateState s env) + pendingHide (updateState s env) =
      hideCount s + pendingHide s + armedIn s env := by
  obtain ⟨c1, _, f1, f2⟩ := updateState_counts s env
  rw [c1]
  unfold pendingHide armedIn
  by_cases hf : s.mBetterbirdWindowHide = true
  · by_cases hc : s.hasWinTools = true ∧ env.lookup = true
    · rw [if_pos ⟨hc.1, hc.2, hf⟩, if_neg (by rw [f1 hc.1 hc.2]; simp), if_pos hf,
        if_neg (fun h => by rw [hf] at h; exact Bool.noConfusion h.1)]
    · rw [if_neg (fun h => hc ⟨h.1, h.2.1⟩), if_pos (f2 hc hf), if_pos hf,
        if_neg (fun h => by rw [hf] at h; exact Bool.noConfusion h.1)]
  · have hf0 : s.mBetterbirdWindowHide = false := by simpa using hf
    rw [if_neg (fun h => hf h.2.2), if_neg hf]
    by_cases hu : (updateState s env).mBetterbirdWindowHide = true
    · rw [if_pos hu, if_pos ⟨hf0, hu⟩]
    · rw [if_neg hu, if_neg (fun h => hu h.2)]

theorem pollRun_armings (envs : List PollEnv) :
    ∀ s : State, hideCount (pollRun s envs) + pendingHide (pollRun s envs) =
      hideCount s + pendingHide s + armings s envs := by
  induction envs with
  | nil =>
    intro s
    rfl
  | cons env envs ih =>
    intro s
    have h1 := ih (updateState s env)
    have h2 := updateState_armedIn s env
    have e1 : pollRun s (env :: envs) = pollRun (updateState s env) envs := rfl
    have e2 : armings s (env :: envs) = armedIn s env + armings (updateState s env) envs := rfl
    rw [e1, e2, h1, h2]
    omega

/-- Claim C11: a poll tick (`updateState`) calls `hide()` on the window if and
only if `lookup()` returned true in that same tick and the hide-after-shown
flag was pending when the tick began; `lookup()` returns true in a tick exactly
when the window tools exist and the window is found; a tick that calls `hide()`
leaves the flag cleared and calls it once. Hence over any run of poll ticks the
calls of `hide()` plus the flag still pending at the end equal the flag pending
at the start plus the armings of the flag in the run: one arming yields at most
one `hide()`, and none in a tick where the window is absent. -/
theorem updateState_hide_after_shown (s : State) (env : PollEnv) :
    ((∃ ok : Bool, Effect.hideWindow ok ∈ effectsSince s (updateState s env)) ↔
      Effect.lookup true ∈ effectsSince s (updateState s env) ∧
        s.mBetterbirdWindowHide = true) ∧
    (Effect.lookup true ∈ effectsSince s (updateState s env) ↔
      s.hasWinTools = true ∧ env.lookup = true) ∧
    ((∃ ok : Bool, Effect.hideWindow ok ∈ effectsSince s (updateState s env)) →
      (updateState s env).mBetterbirdWindowHide = false) ∧
    (effectsSince s (updateState s env)).countP Effect.isHide ≤ 1 ∧
    (∀ envs : List PollEnv,
      hideCount (pollRun s envs) + pendingHide (pollRun s envs) =
        hideCount s + pendingHide s + armings s envs) ∧
    (∀ envs : List PollEnv, hideCount (pollRun s envs) ≤
      hideCount s + pendingHide s + armings s envs) := by
  obtain ⟨c1, c2⟩ := updateState_tick_effects s env
  obtain ⟨_, _, f1, _⟩ := updateState_counts s env
  have hh : (∃ ok : Bool, Effect.hideWindow ok ∈ effectsSince s (updateState s env)) ↔
      (s.hasWinTools = true ∧ env.lookup = true ∧ s.mBetterbirdWindowHide = true) := by
    rw [mem_hideWindow_iff, c1]
    by_cases h : s.hasWinTools = true ∧ env.lookup = true ∧ s.mBetterbirdWindowHide = true
    · simp [h]
    · rw [if_neg h]
      simp [h]
  have hl : Effect.lookup true ∈ effectsSince s (updateState s env) ↔
      (s.hasWinTools = true ∧ env.lookup = true) := by
    rw [mem_lookup_true_iff, c2]
    by_cases h : s.hasWinTools = true ∧ env.lookup = true
    · simp [h]
    · rw [if_neg h]
      simp [h]
  refine ⟨?_, hl, ?_, ?_, fun envs => pollRun_armings envs s, ?_⟩
  · rw [hh, hl, and_assoc]
  · intro h
    obtain ⟨hw, hk, _⟩ := hh.mp h
    exact f1 hw hk
  · rw [c1]
    split_ifs <;> omega
  · intro envs
    have := pollRun_armings envs s
    omega

theorem updateState_hide_after_shown_witness :
    (pollRun (construct hideWhenStartedSettings false true 0 exampleEnv)
      (hideRunEnvs.take 1)).mBetterbirdWindowHide = true ∧
    Effect.lookup true ∈
      effectsSince (pollRun (construct hideWhenStartedSettings false true 0 exampleEnv)
          (hideRunEnvs.take 1))
        (updateState (pollRun (construct hideWhenStartedSettings false true 0 exampleEnv)
          (hideRunEnvs.take 1)) { exampleEnv with now := 2, lookup := true }) ∧
    (updateState (pollRun (construct hideWhenStartedSettings false true 0 exampleEnv)
      (hideRunEnvs.take 1))
      { exampleEnv with now := 2, lookup := true }).mBetterbirdWindowHide = false :=
  have h := updateState_hide_after_shown
    (pollRun (construct hideWhenStartedSettings false true 0 exampleEnv) (hideRunEnvs.take 1))
    { exampleEnv with now := 2, lookup := true }
  ⟨by decide, h.2.1.mpr ⟨by decide, by decide⟩,
    h.2.2.1 (h.1.mpr ⟨h.2.1.mpr ⟨by decide, by decide⟩, by decide⟩)⟩

/-- An example run for claim C11: with auto-launch and hide-when-started, the
tick at time 1 finds no window, starts Betterbird and arms the flag; the tick
at time 2 finds the window and calls `hide()`; the tick at time 3 finds it again
and does not. -/
theorem pollRun_hide_example :
    armings (construct hideWhenStartedSettings false true 0 exampleEnv) hideRunEnvs = 1 ∧
    hideCount (pollRun (construct hideWhenStartedSettings false true 0 exampleEnv)
      (hideRunEnvs.take 1)) = 0 ∧
    (pollRun (construct hideWhenStartedSettings false true 0 exampleEnv)
      (hideRunEnvs.take 1)).mBetterbirdWindowHide = true ∧
    hideCount (pollRun (construct hideWhenStartedSettings false true 0 exampleEnv)
      (hideRunEnvs.take 2)) = 1 ∧
    hideCount (pollRun (construct hideWhenStartedSettings false true 0 exampleEnv)
      hideRunEnvs) = 1 := by
  decide

/-! ## The hook command (claim C21) -/

theorem unreadCounterUpdate_log (s : State) (total color : Nat) :
    ∃ l : List Effect,
      (unreadCounterUpdate s total color).log =
        s.log ++ ((if s.settings.mProcessRunOnCountChange ≠ "" then
          [Effect.hookCommand
            (hookCmdline s.settings.mProcessRunOnCountChange total s.mUnreadCounter)]
          else []) ++ l) ∧
      ∀ e ∈ l, (∃ r : IconRun, e = Effect.updateIcon r) ∨ e.isIconDetail = true := by
  unfold unreadCounterUpdate
  dsimp only
  have k1 : ∀ s1 : State,
      s1 = (if s.settings.ignoreUnreadCountOnStart = true ∧ s.haveUnreadMailsData = false then
        setIgnoredUnreadMails s total false else s) →
      s1.log = s.log ∧ s1.settings = s.settings ∧ s1.mUnreadCounter = s.mUnreadCounter := by
    intro s1 e
    subst e
    split_ifs
    · obtain ⟨_, f2, f3, _, _, f6, _⟩ := setIgnoredUnreadMails_false_fields s total
      exact ⟨f3, f6, f2⟩
    · exact ⟨rfl, rfl, rfl⟩
  generalize hs1 : (if s.settings.ignoreUnreadCountOnStart = true ∧
      s.haveUnreadMailsData = false then setIgnoredUnreadMails s total false else s) = s1
  obtain ⟨a1, a2, a3⟩ := k1 s1 hs1.symm
  have k2 : ∀ s2 : State,
      s2 = (if total < s1.ignoredUnreadEmails then setIgnoredUnreadMails s1 total false
        else s1) →
      s2.log = s.log ∧ s2.settings = s.settings ∧ s2.mUnreadCounter = s.mUnreadCounter := by
    intro s2 e
    subst e
    split_ifs
    · obtain ⟨_, f2, f3, _, _, f6, _⟩ := setIgnoredUnreadMails_false_fields s1 total
      exact ⟨f3.trans a1, f6.trans a2, f2.trans a3⟩
    · exact ⟨a1, a2, a3⟩
  generalize hs2 : (if total < s1.ignoredUnreadEmails then
      setIgnoredUnreadMails s1 total false else s1) = s2
  obtain ⟨b1, b2, b3⟩ := k2 s2 hs2.symm
  rw [b2, b3]
  by_cases ht : s.settings.mProcessRunOnCountChange ≠ ""
  · rw [if_pos ht, if_pos ht]
    obtain ⟨l, hl, hd⟩ := updateIcon_log_icon { s2.emit (Effect.hookCommand
        (hookCmdline s.settings.mProcessRunOnCountChange total s.mUnreadCounter)) with
      mUnreadCounter := total
      mUnreadColor := color
      haveUnreadMailsData := true }
    refine ⟨l, ?_, hd⟩
    rw [hl]
    simp [State.emit, b1]
  · rw [if_neg ht, if_neg ht]
    obtain ⟨l, hl, hd⟩ := updateIcon_log_icon { s2 with
      mUnreadCounter := total
      mUnreadColor := color
      haveUnreadMailsData := true }
    refine ⟨l, ?_, hd⟩
    rw [hl]
    simp [b1]

theorem icon_effects_no_hook (l : List Effect)
    (h : ∀ e ∈ l, (∃ r : IconRun, e = Effect.updateIcon r) ∨ e.isIconDetail = true) :
    l.countP Effect.isHook = 0 := by
  rw [List.countP_eq_zero]
  intro e he hp
  rcases h e he with ⟨r, rfl⟩ | hd
  · simp [Effect.isHook] at hp
  · cases e <;> simp [Effect.isHook] at hp
    simp [Effect.isIconDetail] at hd

theorem unreadCounterUpdate_hook_effects (s : State) (total color : Nat) :
    (s.settings.mProcessRunOnCountChange ≠ "" →
      Effect.hookCommand
          (hookCmdline s.settings.mProcessRunOnCountChange total s.mUnreadCounter) ∈
        effectsSince s (unreadCounterUpdate s total color)) ∧
    (effectsSince s (unreadCounterUpdate s total color)).countP Effect.isHook =
      (if s.settings.mProcessRunOnCountChange ≠ "" then 1 else 0) := by
  obtain ⟨l, hl, hd⟩ := unreadCounterUpdate_log s total color
  rw [effectsSince_of_log s _ _ hl]
  have h0 := icon_effects_no_hook l hd
  constructor
  · intro ht
    rw [if_pos ht]
    simp
  · rw [List.countP_append, h0]
    split_ifs <;> simp [Effect.isHook]

/-- Claim C21 at its failing input: after construction and a first report of 5
unread mails the stored count is 5; a second report of the same total 5 runs
the hook command again, once, with both placeholders replaced by 5, although
the number of unread mails has not changed. -/
theorem unreadCounterUpdate_hook_unchanged_total :
    Reachable hookState ∧
    hookState.mUnreadCounter = 5 ∧
    hookState.settings.mProcessRunOnCountChange = "notify %NEW% %OLD%" ∧
    Effect.hookCommand (hookCmdline "notify %NEW% %OLD%" 5 5) ∈
      effectsSince hookState (unreadCounterUpdate hookState 5 0) ∧
    (effectsSince hookState (unreadCounterUpdate hookState 5 0)).countP Effect.isHook = 1 := by
  have h1 : hookState.mUnreadCounter = 5 := by decide
  have h2 : hookState.settings.mProcessRunOnCountChange = "notify %NEW% %OLD%" := by decide
  have hne : hookState.settings.mProcessRunOnCountChange ≠ "" := by rw [h2]; decide
  refine ⟨?_, h1, h2, ?_, ?_⟩
  · exact Reachable.step _ (Event.unreadCounterUpdate 5 0) (Reachable.init _ _ _ _ _)
      (show (5 : Nat) < UINT_MOD by decide)
  · have h := (unreadCounterUpdate_hook_effects hookState 5 0).1 hne
    rw [h1, h2] at h
    exact h
  · rw [(unreadCounterUpdate_hook_effects hookState 5 0).2, if_pos hne]

/-- What `unreadCounterUpdate` does with the hook command (lines 131-146): the
only test is whether the template is empty. With a non-empty template every run
logs the hook command exactly once, with `%NEW%` replaced by the new total and
`%OLD%` by the count stored before; with an empty template no command is run.
The new total is not compared with the stored count. -/
theorem unreadCounterUpdate_hook (s : State) (total color : Nat) :
    ((∃ cmdline : String, Effect.hookCommand cmdline ∈
        effectsSince s (unreadCounterUpdate s total color)) ↔
      s.settings.mProcessRunOnCountChange ≠ "") ∧
    (s.settings.mProcessRunOnCountChange ≠ "" →
      Effect.hookCommand
          (hookCmdline s.settings.mProcessRunOnCountChange total s.mUnreadCounter) ∈
        effectsSince s (unreadCounterUpdate s total color) ∧
      (effectsSince s (unreadCounterUpdate s total color)).countP Effect.isHook = 1) ∧
    (s.settings.mProcessRunOnCountChange = "" →
      (effectsSince s (unreadCounterUpdate s total color)).countP Effect.isHook = 0) := by
  obtain ⟨h1, h2⟩ := unreadCounterUpdate_hook_effects s total color
  refine ⟨⟨?_, fun ht => ⟨_, h1 ht⟩⟩, fun ht => ⟨h1 ht, by rw [h2, if_pos ht]⟩, ?_⟩
  · rintro ⟨cmdline, hm⟩
    by_contra hn
    rw [if_neg (not_not.mpr hn), List.countP_eq_zero] at h2
    exact absurd rfl (h2 _ hm)
  · intro ht
    rw [h2, if_neg (fun hn => hn ht)]

theorem unreadCounterUpdate_hook_example :
    Effect.hookCommand (hookCmdline hookSettings.mProcessRunOnCountChange 7 5) ∈
        effectsSince
          { initialState hookSettings false true 0 with mUnreadCounter := 5 }
          (unreadCounterUpdate
            { initialState hookSettings false true 0 with mUnreadCounter := 5 } 7 0) ∧
    (effectsSince
      { initialState exampleSettings false true 0 with mUnreadCounter := 5 }
      (unreadCounterUpdate
        { initialState exampleSettings false true 0 with mUnreadCounter := 5 } 7 0)).countP
      Effect.isHook = 0 :=
  ⟨((unreadCounterUpdate_hook
      { initialState hookSettings false true 0 with mUnreadCounter := 5 } 7 0).2.1
      (by decide)).1,
    (unreadCounterUpdate_hook
      { initialState exampleSettings false true 0 with mUnreadCounter := 5 } 7 0).2.2
      (by decide)⟩

/-! ## Publishing the bitmap (claim C24) -/

theorem updateIcon_effects_exact (s : State) :
    ∃ l : List Effect, (∀ e ∈ l, e.isBlinkTimer = true) ∧
      effectsSince s (updateIcon s) =
        Effect.updateIcon (iconRunOf s) :: l ++
          (if hidesIcon s then [Effect.trayHide]
          else
            [Effect.setToolTip (toolTipText s.warnings),
              Effect.painted (paintIcon (prepareIcon s) (displayedUnread s))] ++
            (if s.mLastDrawnIcon ≠ some (paintIcon (prepareIcon s) (displayedUnread s)) then
              [Effect.setIcon (paintIcon (prepareIcon s) (displayedUnread s))] else []) ++
            [Effect.trayShow]) := by
  obtain ⟨l, hl, hb, _⟩ := prepareIcon_log_blink s
  have hw : (prepareIcon s).warnings = s.warnings := (prepareIcon_sameCore s).warnings
  have hi : (prepareIcon s).mLastDrawnIcon = s.mLastDrawnIcon := (prepareIcon_render_fields s).2.1
  refine ⟨l, hb, ?_⟩
  by_cases h : hidesIcon s
  · rw [if_pos h]
    apply effectsSince_of_log
    rw [updateIcon_of_hides s h]
    dsimp only
    rw [hl]
    simp
  · rw [if_neg h]
    apply effectsSince_of_log
    rw [updateIcon_of_paints s h, renderIcon_log_exact, hl, hw, hi]
    simp

theorem updateIcon_setIcon_iff (s : State) (d : Drawing) :
    Effect.setIcon d ∈ effectsSince s (updateIcon s) ↔
      (¬ hidesIcon s ∧ d = paintIcon (prepareIcon s) (displayedUnread s) ∧
        s.mLastDrawnIcon ≠ some d) := by
  obtain ⟨l, hb, hl⟩ := updateIcon_effects_exact s
  have hnb : Effect.setIcon d ∉ l := by
    intro hm
    have := hb _ hm
    simp [Effect.isBlinkTimer] at this
  rw [hl]
  by_cases h : hidesIcon s
  · simp [h, hnb]
  · by_cases hd : s.mLastDrawnIcon ≠ some (paintIcon (prepareIcon s) (displayedUnread s))
    · rw [if_neg h, if_pos hd]
      simp only [h, not_false_eq_true, true_and, List.mem_append, List.mem_cons, hnb,
        List.mem_singleton, List.mem_nil_iff, or_false, false_or, reduceCtorEq,
        Effect.setIcon.injEq]
      constructor
      · rintro rfl
        exact ⟨rfl, hd⟩
      · exact fun h2 => h2.1
    · rw [if_neg h, if_neg hd]
      simp only [h, not_false_eq_true, true_and, List.mem_append, List.mem_cons, hnb,
        List.mem_singleton, List.mem_nil_iff, or_false, false_or, reduceCtorEq,
        List.append_nil]
      constructor
      · exact fun h2 => absurd h2 (by simp)
      · rintro ⟨rfl, h3⟩
        exact absurd h3 hd

theorem updateIcon_setIcon_count (s : State) :
    (effectsSince s (updateIcon s)).countP Effect.isSetIcon =
      (if ¬ hidesIcon s ∧
          s.mLastDrawnIcon ≠ some (paintIcon (prepareIcon s) (displayedUnread s)) then 1
        else 0) := by
  obtain ⟨l, hb, hl⟩ := updateIcon_effects_exact s
  have h0 : l.countP Effect.isSetIcon = 0 := by
    rw [List.countP_eq_zero]
    intro e he hp
    have := hb e he
    cases e <;> simp [Effect.isSetIcon] at hp
    simp [Effect.isBlinkTimer] at this
  rw [hl]
  by_cases h : hidesIcon s
  · simp [h, h0, List.countP_append, List.countP_cons, Effect.isSetIcon]
  · by_cases hd : s.mLastDrawnIcon = some (paintIcon (prepareIcon s) (displayedUnread s))
    · simp [h, hd, h0, List.countP_append, List.countP_cons, Effect.isSetIcon]
    · simp [h, hd, h0, List.countP_append, List.countP_cons, Effect.isSetIcon]

theorem updateIcon_mLastDrawnIcon (s : State) :
    (updateIcon s).mLastDrawnIcon =
      (if hidesIcon s then s.mLastDrawnIcon
        else some (paintIcon (prepareIcon s) (displayedUnread s))) := by
  by_cases h : hidesIcon s
  · rw [if_pos h, updateIcon_of_hides s h]
    exact (prepareIcon_render_fields s).2.1
  · rw [if_neg h, updateIcon_of_paints s h]
    exact (renderIcon_fields _ _).2.1

/-- Claim C24: a run of `updateIcon` publishes a bitmap (`setIcon`) if and only
if it paints an image and that image differs from `mLastDrawnIcon`; the bitmap
published is the image painted, at most one is published per run, and after a
run that paints, `mLastDrawnIcon` is the image painted. Hence when a render
paints an image and the next render, from any state with the `mLastDrawnIcon`
the first one left, paints the same image, the second render publishes nothing:
the two publish at most once. -/
theorem updateIcon_publishes (s : State) :
    (∀ d : Drawing, Effect.setIcon d ∈ effectsSince s (updateIcon s) ↔
      (Effect.painted d ∈ effectsSince s (updateIcon s) ∧ s.mLastDrawnIcon ≠ some d)) ∧
    (∀ d : Drawing, Effect.painted d ∈ effectsSince s (updateIcon s) →
      (updateIcon s).mLastDrawnIcon = some d) ∧
    (effectsSince s (updateIcon s)).countP Effect.isSetIcon ≤ 1 ∧
    (∀ (u : State) (d : Drawing), u.mLastDrawnIcon = (updateIcon s).mLastDrawnIcon →
      Effect.painted d ∈ effectsSince s (updateIcon s) →
      Effect.painted d ∈ effectsSince u (updateIcon u) →
      (effectsSince u (updateIcon u)).countP Effect.isSetIcon = 0 ∧
      (effectsSince s (updateIcon s)).countP Effect.isSetIcon +
        (effectsSince u (updateIcon u)).countP Effect.isSetIcon ≤ 1) := by
  have hc := updateIcon_setIcon_count s
  have hle : (effectsSince s (updateIcon s)).countP Effect.isSetIcon ≤ 1 := by
    rw [hc]
    split_ifs <;> omega
  have hlast : ∀ d : Drawing, Effect.painted d ∈ effectsSince s (updateIcon s) →
      (updateIcon s).mLastDrawnIcon = some d := by
    intro d hd
    obtain ⟨h1, h2⟩ := (updateIcon_painted_iff s d).mp hd
    rw [updateIcon_mLastDrawnIcon, if_neg h1, h2]
  refine ⟨?_, hlast, hle, ?_⟩
  · intro d
    rw [updateIcon_setIcon_iff, updateIcon_painted_iff, and_assoc]
  · intro u d hu hs hd
    obtain ⟨h1, h2⟩ := (updateIcon_painted_iff u d).mp hd
    have h3 : (effectsSince u (updateIcon u)).countP Effect.isSetIcon = 0 := by
      rw [updateIcon_setIcon_count, if_neg]
      rintro ⟨_, hne⟩
      apply hne
      rw [hu, hlast d hs, h2]
    exact ⟨h3, by omega⟩

theorem updateIcon_publishes_witness :
    (updateIcon exampleState).mLastDrawnIcon = some (paintIcon exampleState 0) ∧
    (effectsSince (updateIcon exampleState)
      (updateIcon (updateIcon exampleState))).countP Effect.isSetIcon = 0 :=
  ⟨(updateIcon_publishes exampleState).2.1 (paintIcon exampleState 0) (by decide),
    ((updateIcon_publishes exampleState).2.2.2 (updateIcon exampleState)
      (paintIcon exampleState 0) rfl (by decide) (by decide)).1⟩

/-! ## The blinking members after `updateIcon` -/

theorem prepareIcon_of_disarms (s : State) (h : disarmsBlinking s) :
    prepareIcon s = enableBlinking (s.emit (Effect.updateIcon (iconRunOf s))) false := by
  obtain ⟨h1, h2, h3⟩ := h
  unfold prepareIcon adjustBlinking
  simp [State.emit, h1, h2, h3]

theorem prepareIcon_of_idle (s : State) (ha : ¬ armsBlinking s) (hd : ¬ disarmsBlinking s) :
    prepareIcon s = s.emit (Effect.updateIcon (iconRunOf s)) := by
  by_cases hu : displayedUnread s = 0
  · by_cases hs : s.mSnoozedUntil.isSome = true
    · unfold prepareIcon State.emit
      simp [hs]
    · have hs2 : s.mSnoozedUntil.isSome = false := by simpa using hs
      have ht : s.mBlinkingTimeout = 0 := by
        by_contra hne
        exact hd ⟨hs2, hu, hne⟩
      unfold prepareIcon
      dsimp only
      rw [if_neg (by simpa [State.emit] using hs), hu]
      exact adjustBlinking_zero_off _ ht
  · exact prepareIcon_of_steady s ha hu

theorem updateIcon_blink_cases (s : State) :
    (armsBlinking s →
      (updateIcon s).blinkTimerActive = true ∧ (updateIcon s).mBlinkingIconOpacity = 1 ∧
      (updateIcon s).mBlinkingTimeout =
        (if s.settings.mBlinkingUseAlphaTransition = true then
          (if s.settings.mBlinkSpeed = 1 then 50 else 100)
        else s.settings.mBlinkSpeed * 50 % UINT_MOD) ∧
      (updateIcon s).mBlinkingDelta =
        (if s.settings.mBlinkingUseAlphaTransition = true then
          (if s.settings.mBlinkSpeed = 0 then 1 else min 1 (2 / (s.settings.mBlinkSpeed : ℚ)))
        else 0)) ∧
    (disarmsBlinking s → BlinkOff (updateIcon s)) ∧
    (¬ armsBlinking s → ¬ disarmsBlinking s → SameBlink s (updateIcon s)) := by
  obtain ⟨b1, b2, b3, b4⟩ := updateIcon_sameBlink_prepare s
  refine ⟨?_, ?_, ?_⟩
  · intro h
    rw [b1, b2, b3, b4, prepareIcon_of_arms s h]
    unfold enableBlinking State.emit
    by_cases ha : s.settings.mBlinkingUseAlphaTransition = true
    · simp [ha]
    · have ha2 : s.settings.mBlinkingUseAlphaTransition = false := by simpa using ha
      simp [ha2]
  · intro h
    unfold BlinkOff
    rw [b1, b2, b3, b4, prepareIcon_of_disarms s h]
    exact ⟨rfl, rfl, rfl, rfl⟩
  · intro ha hd
    unfold SameBlink
    rw [b1, b2, b3, b4, prepareIcon_of_idle s ha hd]
    exact ⟨rfl, rfl, rfl, rfl⟩

/-! ## The opacity of the unread icon without blinking (claim C25) -/

/-- Claim C25 at its failing input: with blink speed 0 and the unread opacity
level 0.75, after a report of 5 unread mails the displayed count is 5, no snooze
is set and the interval is 0, and both the frame that report painted and the
frame a further `updateIcon` paints draw the base icon with opacity 1.0, not
0.75. -/
theorem updateIcon_unread_opacity_level :
    steadyUnreadState.settings.mBlinkSpeed = 0 ∧
    steadyUnreadState.settings.mUnreadOpacityLevel = 3 / 4 ∧
    displayedUnread steadyUnreadState = 5 ∧
    steadyUnreadState.mSnoozedUntil = none ∧
    steadyUnreadState.mBlinkingTimeout = 0 ∧
    steadyUnreadState.mLastDrawnIcon.map Drawing.iconOpacity = some 1 ∧
    (updateIcon steadyUnreadState).mLastDrawnIcon.map Drawing.iconOpacity = some 1 ∧
    Effect.painted (paintIcon steadyUnreadState 5) ∈
      effectsSince steadyUnreadState (updateIcon steadyUnreadState) ∧
    (paintIcon steadyUnreadState 5).iconOpacity = 1 := by
  refine ⟨by decide, rfl, by decide, by decide, by decide, by decide, by decide, by decide,
    by decide⟩

/-- Without blinking the unread opacity level is never read by `updateIcon`:
when no snooze is set, the displayed count is above 0 and the blink speed is 0,
every frame painted draws the base icon with `mBlinkingIconOpacity` as it was
before the call, which is 1.0 after construction and after every
`enableBlinking(false)`. -/
theorem updateIcon_steady_opacity (s : State) (d : Drawing)
    (hs : s.mSnoozedUntil.isSome = false) (hu : 0 < displayedUnread s)
    (hb : s.settings.mBlinkSpeed = 0)
    (h : Effect.painted d ∈ effectsSince s (updateIcon s)) :
    d.iconOpacity = s.mBlinkingIconOpacity := by
  obtain ⟨_, hd⟩ := (updateIcon_painted_iff s d).mp h
  have ha : ¬ armsBlinking s := fun hc => by
    have := hc.2.2.1
    omega
  have hne : displayedUnread s ≠ 0 := by omega
  rw [hd, prepareIcon_of_steady s ha hne, paintIcon_iconOpacity]
  simp [State.emit, hs, hne]

/-! ## The opacity of the unread counter (claim C26) -/

theorem paintCounter_some (t : State) (unread : Nat) (size : QSize) (c : CounterText)
    (h : paintCounter t unread size = some c) :
    0 < unread ∧
    c.opacity = (if t.mBlinkingTimeout ≠ 0 then 1 - t.mBlinkingIconOpacity else 1) := by
  unfold paintCounter at h
  by_cases hc : 0 < unread ∧ t.settings.mShowUnreadEmailCount = true
  · rw [if_pos hc] at h
    have h3 := Option.some.inj h
    subst h3
    exact ⟨hc.1, rfl⟩
  · rw [if_neg hc] at h
    exact Option.noConfusion h

theorem paintIcon_counter_some (t : State) (unread : Nat) (c : CounterText)
    (h : (paintIcon t unread).counter = some c) :
    0 < unread ∧
    c.opacity = (if t.mBlinkingTimeout ≠ 0 then 1 - t.mBlinkingIconOpacity else 1) := by
  have e : (paintIcon t unread).counter =
      paintCounter t
        (if (t.settings.mMonitorBetterbirdWindow && !t.mBetterbirdWindowExists) = true then 0
          else unread) t.settings.iconSize := rfl
  rw [e] at h
  obtain ⟨h1, h2⟩ := paintCounter_some _ _ _ c h
  refine ⟨?_, h2⟩
  split_ifs at h1
  · exact absurd h1 (by decide)
  · exact h1

/-- Claim C26: in every frame in which `updateIcon` draws the unread counter,
the opacity of the digits is `1 - mBlinkingIconOpacity` if a blink interval is
armed (`mBlinkingTimeout` is not 0 when the frame is painted) and 1.0
otherwise. So on every frame painted with an interval armed the opacity of the
base icon and that of the digits add up to 1, and on the frame painted by the
call that arms an interval (opacity 1.0) the digits have opacity 0: that is the
case whenever the call arms the blinking in alpha transition mode, or in
discrete mode with `50 * speed` not a multiple of `2 ^ 32`. -/
theorem updateIcon_counter_opacity (s : State) (d : Drawing) (c : CounterText)
    (h : Effect.painted d ∈ effectsSince s (updateIcon s)) (hc : d.counter = some c) :
    c.opacity =
      (if (updateIcon s).mBlinkingTimeout ≠ 0 then 1 - (updateIcon s).mBlinkingIconOpacity
        else 1) ∧
    ((updateIcon s).mBlinkingTimeout ≠ 0 → d.iconOpacity + c.opacity = 1) ∧
    (armsBlinking s → (updateIcon s).mBlinkingTimeout ≠ 0 →
      d.iconOpacity = 1 ∧ c.opacity = 0) ∧
    (armsBlinking s →
      (s.settings.mBlinkingUseAlphaTransition = true ∨
        s.settings.mBlinkSpeed * 50 % UINT_MOD ≠ 0) →
      d.iconOpacity = 1 ∧ c.opacity = 0) := by
  obtain ⟨_, hd⟩ := (updateIcon_painted_iff s d).mp h
  obtain ⟨b1, b2, _, _⟩ := updateIcon_sameBlink_prepare s
  rw [hd] at hc
  obtain ⟨hu, ho⟩ := paintIcon_counter_some _ _ c hc
  rw [← b1, ← b2] at ho
  have hs : s.mSnoozedUntil.isSome = false := by
    by_contra hn
    have hn2 : s.mSnoozedUntil.isSome = true := by
      cases hb : s.mSnoozedUntil.isSome
      · exact absurd hb hn
      · rfl
    unfold displayedUnread at hu
    rw [if_pos hn2] at hu
    exact absurd hu (by decide)
  have hi : d.iconOpacity = (updateIcon s).mBlinkingIconOpacity := by
    rw [hd, paintIcon_iconOpacity, (prepareIcon_sameCore s).mSnoozedUntil, hs, b2]
    simp only [Bool.false_eq_true, if_false]
    rw [if_neg (by omega)]
  have key : (updateIcon s).mBlinkingTimeout ≠ 0 → armsBlinking s →
      d.iconOpacity = 1 ∧ c.opacity = 0 := by
    intro ht ha
    have h1 := ((updateIcon_blink_cases s).1 ha).2.1
    rw [hi, ho, if_pos ht, h1]
    exact ⟨rfl, by norm_num⟩
  refine ⟨ho, ?_, fun ha ht => key ht ha, ?_⟩
  · intro ht
    rw [hi, ho, if_pos ht]
    ring
  · intro ha hm
    apply key _ ha
    rw [((updateIcon_blink_cases s).1 ha).2.2.1]
    rcases hm with hm | hm
    · rw [if_pos hm]
      split_ifs <;> decide
    · by_cases hal : s.settings.mBlinkingUseAlphaTransition = true
      · rw [if_pos hal]
        split_ifs <;> decide
      · rw [if_neg hal]
        exact hm

theorem updateIcon_counter_opacity_witness :
    Option.map CounterText.opacity
      (paintIcon (prepareIcon { initialState (counterSettings 10) false true 0 with
        mUnreadCounter := 5 }) 5).counter = some 0 := by
  have hp : Effect.painted (paintIcon (prepareIcon
        { initialState (counterSettings 10) false true 0 with mUnreadCounter := 5 }) 5) ∈
      effectsSince { initialState (counterSettings 10) false true 0 with mUnreadCounter := 5 }
        (updateIcon { initialState (counterSettings 10) false true 0 with
          mUnreadCounter := 5 }) :=
    (updateIcon_painted_iff _ _).mpr ⟨by decide, rfl⟩
  cases hc : (paintIcon (prepareIcon { initialState (counterSettings 10) false true 0 with
      mUnreadCounter := 5 }) 5).counter with
  | none =>
    have hs : (paintIcon (prepareIcon { initialState (counterSettings 10) false true 0 with
        mUnreadCounter := 5 }) 5).counter.isSome = true := by decide
    rw [hc] at hs
    exact absurd hs (by decide)
  | some c =>
    have h := (updateIcon_counter_opacity _ _ c hp hc).2.2.2 (by decide) (Or.inr (by decide))
    rw [Option.map_some', h.2]

/-! ## The alpha transition (claim C22) -/

theorem blinkTimeout_alpha (s : State) (h : s.mBlinkingDelta ≠ 0) :
    blinkTimeout s = updateIcon { s with
      mBlinkingDelta := tickDelta s
      mBlinkingIconOpacity := s.mBlinkingIconOpacity + tickDelta s } := by
  unfold blinkTimeout tickDelta
  rw [if_pos h]

theorem tickDelta_abs (s : State) : |tickDelta s| = |s.mBlinkingDelta| := by
  unfold tickDelta
  split_ifs
  · exact abs_neg _
  · rfl

theorem alphaInv_tick_fields (s : State) (h : AlphaInv s) (hd : s.mBlinkingDelta ≠ 0) :
    0 ≤ s.mBlinkingIconOpacity + tickDelta s ∧ s.mBlinkingIconOpacity + tickDelta s ≤ 1 ∧
    ∃ k : Nat, s.mBlinkingIconOpacity + tickDelta s = 1 - (k : ℚ) * |s.mBlinkingDelta| := by
  obtain ⟨h0, h1, ha, ⟨k, hk⟩, _⟩ := h
  have hk0 : (0 : ℚ) ≤ (k : ℚ) := Nat.cast_nonneg k
  rcases lt_or_gt_of_ne hd with hneg | hpos
  · -- the delta is negative
    have habs : |s.mBlinkingDelta| = -s.mBlinkingDelta := abs_of_neg hneg
    rw [habs] at ha hk ⊢
    unfold tickDelta
    by_cases hf : s.mBlinkingIconOpacity + s.mBlinkingDelta > 1 ∨
        s.mBlinkingIconOpacity + s.mBlinkingDelta < 0
    · rw [if_pos hf]
      rcases hf with hf | hf
      · exfalso
        linarith
      · rcases Nat.eq_zero_or_pos k with hz | hp
        · exfalso
          rw [hz] at hk
          simp at hk
          linarith
        · have hk1 : (1 : ℚ) ≤ (k : ℚ) := by exact_mod_cast hp
          refine ⟨by linarith, ?_, k - 1, ?_⟩
          · have : 0 ≤ ((k : ℚ) - 1) * (-s.mBlinkingDelta) :=
              mul_nonneg (by linarith) (by linarith)
            nlinarith
          · rw [Nat.cast_sub hp, hk]
            push_cast
            ring
    · rw [if_neg hf]
      push_neg at hf
      refine ⟨hf.2, hf.1, k + 1, ?_⟩
      rw [hk]
      push_cast
      ring
  · -- the delta is positive
    have habs : |s.mBlinkingDelta| = s.mBlinkingDelta := abs_of_pos hpos
    rw [habs] at ha hk ⊢
    unfold tickDelta
    by_cases hf : s.mBlinkingIconOpacity + s.mBlinkingDelta > 1 ∨
        s.mBlinkingIconOpacity + s.mBlinkingDelta < 0
    · rw [if_pos hf]
      rcases hf with hf | hf
      · rcases Nat.eq_zero_or_pos k with hz | hp
        · rw [hz] at hk
          simp at hk
          refine ⟨by linarith, by linarith, 1, ?_⟩
          rw [hk]
          push_cast
          ring
        · exfalso
          have hk1 : (1 : ℚ) ≤ (k : ℚ) := by exact_mod_cast hp
          have : 0 ≤ ((k : ℚ) - 1) * s.mBlinkingDelta :=
            mul_nonneg (by linarith) (by linarith)
          nlinarith
      · exfalso
        linarith
    · rw [if_neg hf]
      push_neg at hf
      rcases Nat.eq_zero_or_pos k with hz | hp
      · exfalso
        rw [hz] at hk
        simp at hk
        linarith
      · refine ⟨hf.2, hf.1, k - 1, ?_⟩
        rw [Nat.cast_sub hp, hk]
        push_cast
        ring

theorem updateIcon_alphaInv (s : State) (h : AlphaInv s) (ht : s.blinkTimerActive = true) :
    AlphaInv (updateIcon s) := by
  obtain ⟨c1, c2, c3⟩ := updateIcon_blink_cases s
  obtain ⟨hd, hi⟩ := h.2.2.2.2 ht
  by_cases hx : disarmsBlinking s
  · obtain ⟨b1, b2, b3, b4⟩ := c2 hx
    unfold AlphaInv
    rw [b1, b2, b3, b4]
    refine ⟨by norm_num, le_refl _, by norm_num, ⟨0, by norm_num⟩, fun hc => ?_⟩
    exact absurd hc (by decide)
  · have ha : ¬ armsBlinking s := fun hc => hi hc.2.2.2
    obtain ⟨b1, b2, b3, b4⟩ := c3 ha hx
    unfold AlphaInv
    rw [b1, b2, b3, b4]
    exact h

theorem blinkTick_alphaInv (s : State) (h : AlphaInv s) : AlphaInv (blinkTick s) := by
  unfold blinkTick
  by_cases ht : s.blinkTimerActive = true
  · rw [if_pos ht]
    obtain ⟨hd, hi⟩ := h.2.2.2.2 ht
    rw [blinkTimeout_alpha s hd]
    refine updateIcon_alphaInv { s with
      mBlinkingDelta := tickDelta s
      mBlinkingIconOpacity := s.mBlinkingIconOpacity + tickDelta s } ?_ ht
    obtain ⟨f1, f2, k, f3⟩ := alphaInv_tick_fields s h hd
    refine ⟨f1, f2, ?_, ⟨k, ?_⟩, fun _ => ⟨?_, hi⟩⟩
    · show |tickDelta s| ≤ 1
      rw [tickDelta_abs]
      exact h.2.2.1
    · show s.mBlinkingIconOpacity + tickDelta s = 1 - (k : ℚ) * |tickDelta s|
      rw [tickDelta_abs]
      exact f3
    · show tickDelta s ≠ 0
      intro hz
      have := tickDelta_abs s
      rw [hz, abs_zero] at this
      exact hd (abs_eq_zero.mp this.symm)
  · rw [if_neg ht]
    exact h

theorem enableBlinking_alphaInv (s : State)
    (ha : s.settings.mBlinkingUseAlphaTransition = true) (hs : 1 ≤ s.settings.mBlinkSpeed) :
    (enableBlinking s true).mBlinkingDelta = min 1 (2 / (s.settings.mBlinkSpeed : ℚ)) ∧
    0 < (enableBlinking s true).mBlinkingDelta ∧
    AlphaInv (enableBlinking s true) := by
  have hne : s.settings.mBlinkSpeed ≠ 0 := by omega
  have hq : (0 : ℚ) < (s.settings.mBlinkSpeed : ℚ) := by exact_mod_cast hs
  have hpos : (0 : ℚ) < min 1 (2 / (s.settings.mBlinkSpeed : ℚ)) :=
    lt_min (by norm_num) (div_pos (by norm_num) hq)
  have e1 : (enableBlinking s true).mBlinkingDelta = min 1 (2 / (s.settings.mBlinkSpeed : ℚ)) := by
    unfold enableBlinking
    simp [ha, hne]
  have e2 : (enableBlinking s true).mBlinkingIconOpacity = 1 := by
    unfold enableBlinking
    simp [ha]
  have e3 : (enableBlinking s true).mBlinkingTimeout ≠ 0 := by
    unfold enableBlinking
    simp only [ha, if_true]
    split_ifs <;> decide
  refine ⟨e1, by rw [e1]; exact hpos, ?_⟩
  unfold AlphaInv
  rw [e1, e2, abs_of_pos hpos]
  refine ⟨by norm_num, le_refl _, min_le_left _ _, ⟨0, by norm_num⟩, fun _ => ⟨ne_of_gt hpos, e3⟩⟩

theorem blinkTicks_alphaInv (n : Nat) (s : State) (h : AlphaInv s) :
    AlphaInv (blinkTicks n s) := by
  induction n with
  | zero => exact h
  | succ n ih => exact blinkTick_alphaInv _ ih

/-- Claim C22: in alpha transition mode, for every configured speed of at least
1, `enableBlinking(true)` sets the delta `min(1, 2 / speed)`, and after every
number of expiries of the blink interval from there the opacity is within 0
and 1 in exact arithmetic. Each tick that finds the delta not 0 adds the delta
to the opacity, after reversing its sign whenever the sum would be above 1 or
below 0 (unless the `updateIcon` that ends the tick switches the blinking off,
which leaves the opacity 1). -/
theorem blinkTicks_alpha_opacity (s : State) (n : Nat)
    (ha : s.settings.mBlinkingUseAlphaTransition = true) (hs : 1 ≤ s.settings.mBlinkSpeed) :
    (enableBlinking s true).mBlinkingIconOpacity = 1 ∧
    (enableBlinking s true).mBlinkingDelta = min 1 (2 / (s.settings.mBlinkSpeed : ℚ)) ∧
    0 ≤ (blinkTicks n (enableBlinking s true)).mBlinkingIconOpacity ∧
    (blinkTicks n (enableBlinking s true)).mBlinkingIconOpacity ≤ 1 ∧
    ((blinkTicks n (enableBlinking s true)).blinkTimerActive = true →
      (blinkTicks n (enableBlinking s true)).mBlinkingDelta ≠ 0 ∧
      ((blinkTicks (n + 1) (enableBlinking s true)).mBlinkingIconOpacity =
          (blinkTicks n (enableBlinking s true)).mBlinkingIconOpacity +
            tickDelta (blinkTicks n (enableBlinking s true)) ∨
        BlinkOff (blinkTicks (n + 1) (enableBlinking s true)))) ∧
    ((blinkTicks n (enableBlinking s true)).blinkTimerActive = false →
      blinkTicks (n + 1) (enableBlinking s true) = blinkTicks n (enableBlinking s true)) := by
  obtain ⟨e1, _, e3⟩ := enableBlinking_alphaInv s ha hs
  have hinv := blinkTicks_alphaInv n _ e3
  refine ⟨?_, e1, hinv.1, hinv.2.1, ?_, ?_⟩
  · unfold enableBlinking
    simp [ha]
  · intro ht
    obtain ⟨hd, hi⟩ := hinv.2.2.2.2 ht
    refine ⟨hd, ?_⟩
    have e : blinkTicks (n + 1) (enableBlinking s true) =
        blinkTimeout (blinkTicks n (enableBlinking s true)) := by
      show blinkTick _ = _
      unfold blinkTick
      rw [if_pos ht]
    rw [e, blinkTimeout_alpha _ hd]
    obtain ⟨_, c2, c3⟩ := updateIcon_blink_cases { blinkTicks n (enableBlinking s true) with
      mBlinkingDelta := tickDelta (blinkTicks n (enableBlinking s true))
      mBlinkingIconOpacity := (blinkTicks n (enableBlinking s true)).mBlinkingIconOpacity +
        tickDelta (blinkTicks n (enableBlinking s true)) }
    by_cases hx : disarmsBlinking { blinkTicks n (enableBlinking s true) with
      mBlinkingDelta := tickDelta (blinkTicks n (enableBlinking s true))
      mBlinkingIconOpacity := (blinkTicks n (enableBlinking s true)).mBlinkingIconOpacity +
        tickDelta (blinkTicks n (enableBlinking s true)) }
    · exact Or.inr (c2 hx)
    · left
      exact (c3 (fun hc => hi hc.2.2.2) hx).2.1
  · intro ht
    show blinkTick _ = _
    unfold blinkTick
    rw [if_neg (by rw [ht]; decide)]

theorem blinkTicks_alpha_opacity_witness :
    0 ≤ (blinkTicks 7 (enableBlinking { initialState (blinkSettings true) false true 0 with
      mUnreadCounter := 5 } true)).mBlinkingIconOpacity ∧
    (blinkTicks 7 (enableBlinking { initialState (blinkSettings true) false true 0 with
      mUnreadCounter := 5 } true)).mBlinkingIconOpacity ≤ 1 :=
  ⟨(blinkTicks_alpha_opacity { initialState (blinkSettings true) false true 0 with
      mUnreadCounter := 5 } 7 (by decide) (by decide)).2.2.1,
    (blinkTicks_alpha_opacity { initialState (blinkSettings true) false true 0 with
      mUnreadCounter := 5 } 7 (by decide) (by decide)).2.2.2.1⟩

/-! ## The blink timer runs only with unread mail displayed -/

theorem armed_of_fields (s t : State) (h : ArmedUnread s)
    (h1 : t.mSnoozedUntil = s.mSnoozedUntil) (h2 : t.mUnreadCounter = s.mUnreadCounter)
    (h3 : t.ignoredUnreadEmails = s.ignoredUnreadEmails)
    (h4 : t.blinkTimerActive = s.blinkTimerActive)
    (h5 : t.mBlinkingTimeout = s.mBlinkingTimeout) : ArmedUnread t := by
  unfold ArmedUnread displayedUnread at *
  rw [h1, h2, h3, h4, h5]
  exact h

theorem updateIcon_displayedUnread (s : State) :
    displayedUnread (updateIcon s) = displayedUnread s := by
  have c := updateIcon_sameCore s
  unfold displayedUnread
  rw [c.mSnoozedUntil, c.mUnreadCounter, c.ignoredUnreadEmails]

theorem updateIcon_armed (s : State)
    (h : s.mSnoozedUntil.isSome = true → s.blinkTimerActive = false) :
    ArmedUnread (updateIcon s) := by
  have c := updateIcon_sameCore s
  obtain ⟨c1, c2, c3⟩ := updateIcon_blink_cases s
  constructor
  · intro hs
    rw [c.mSnoozedUntil] at hs
    rw [(updateIcon_blink_snoozed s hs).2.2.2]
    exact h hs
  · intro ht hi
    rw [updateIcon_displayedUnread]
    by_cases ha : armsBlinking s
    · exact ha.2.1
    · by_cases hd : disarmsBlinking s
      · have := (c2 hd).2.2.2
        rw [this] at ht
        exact absurd ht (by decide)
      · obtain ⟨b1, _, _, b4⟩ := c3 ha hd
        rw [b1] at hi
        rw [b4] at ht
        by_contra hu
        have hu0 : displayedUnread s = 0 := by omega
        cases hs : s.mSnoozedUntil.isSome
        · exact hd ⟨hs, hu0, hi⟩
        · have := h hs
          rw [this] at ht
          exact absurd ht (by decide)

theorem setIgnoredUnreadMails_armed (s : State) (h : ArmedUnread s) (v : Nat) :
    ArmedUnread (setIgnoredUnreadMails s v true) := by
  unfold setIgnoredUnreadMails
  dsimp only
  split_ifs with h1 h2
  · exact h
  · exact updateIcon_armed _ h.1
  · exact absurd rfl h2

theorem onBetterbirdWindowShown_armed (s : State) (h : ArmedUnread s) :
    ArmedUnread (onBetterbirdWindowShown s) := by
  unfold onBetterbirdWindowShown
  dsimp only
  split_ifs
  · apply setIgnoredUnreadMails_armed
    exact armed_of_fields s _ h rfl rfl rfl rfl rfl
  · exact armed_of_fields s _ h rfl rfl rfl rfl rfl

theorem onBetterbirdWindowHidden_armed (s : State) (h : ArmedUnread s) :
    ArmedUnread (onBetterbirdWindowHidden s) := by
  unfold onBetterbirdWindowHidden
  dsimp only
  split_ifs
  · apply setIgnoredUnreadMails_armed
    exact armed_of_fields s _ h rfl rfl rfl rfl rfl
  · exact armed_of_fields s _ h rfl rfl rfl rfl rfl

theorem hideBetterbird_armed (s : State) (h : ArmedUnread s) (ok : Bool) :
    ArmedUnread (hideBetterbird s ok) := by
  unfold hideBetterbird
  dsimp only
  split_ifs
  · apply onBetterbirdWindowHidden_armed
    exact armed_of_fields s _ h rfl rfl rfl rfl rfl
  · exact armed_of_fields s _ h rfl rfl rfl rfl rfl

theorem showBetterbird_armed (s : State) (h : ArmedUnread s) (ok : Bool) :
    ArmedUnread (showBetterbird s ok) := by
  unfold showBetterbird
  dsimp only
  split_ifs
  · apply onBetterbirdWindowShown_armed
    exact armed_of_fields s _ h rfl rfl rfl rfl rfl
  · exact armed_of_fields s _ h rfl rfl rfl rfl rfl

theorem startBetterbird_armed (s : State) (h : ArmedUnread s) :
    ArmedUnread (startBetterbird s) := by
  unfold startBetterbird State.emit
  dsimp only
  split
  · exact armed_of_fields s _ h rfl rfl rfl rfl rfl
  · split
    · exact armed_of_fields s _ h rfl rfl rfl rfl rfl
    · exact armed_of_fields s _ h rfl rfl rfl rfl rfl

theorem actionUnsnooze_armed (s : State) : ArmedUnread (actionUnsnooze s) := by
  unfold actionUnsnooze
  apply updateIcon_armed
  intro hs
  simp at hs

theorem enableBlinking_false_timer (s : State) :
    (enableBlinking s false).blinkTimerActive = false := by
  unfold enableBlinking
  simp

theorem actionSnoozeFor_armed (s : State) (seconds nowUtc : Int) :
    ArmedUnread (actionSnoozeFor s seconds nowUtc) := by
  unfold actionSnoozeFor
  dsimp only
  apply updateIcon_armed
  intro _
  exact enableBlinking_false_timer _

theorem checkSnooze_armed (s : State) (h : ArmedUnread s) (nowUtc : Int) :
    ArmedUnread (checkSnooze s nowUtc) := by
  unfold checkSnooze
  split
  · split_ifs
    · exact actionUnsnooze_armed s
    · exact h
  · exact h

theorem reconcileWindow_armed (s : State) (h : ArmedUnread s) (env : PollEnv) :
    ArmedUnread (reconcileWindow s env) := by
  have h1 : ArmedUnread (startBetterbird { s with
      mBetterbirdWindowExists := env.lookup
      log := s.log ++ [Effect.lookup env.lookup] }) :=
    startBetterbird_armed _ (armed_of_fields s { s with
      mBetterbirdWindowExists := env.lookup
      log := s.log ++ [Effect.lookup env.lookup] } h rfl rfl rfl rfl rfl)
  unfold reconcileWindow
  dsimp only
  split_ifs
  · apply hideBetterbird_armed
    exact armed_of_fields s _ h rfl rfl rfl rfl rfl
  · exact armed_of_fields s _ h rfl rfl rfl rfl rfl
  · exact armed_of_fields _ _ h1 rfl rfl rfl rfl rfl
  · exact h1
  · exact armed_of_fields s _ h rfl rfl rfl rfl rfl
  · exact armed_of_fields _ _ h1 rfl rfl rfl rfl rfl
  · exact h1
  · exact armed_of_fields s _ h rfl rfl rfl rfl rfl

theorem updateState_armed (s : State) (h : ArmedUnread s) (env : PollEnv) :
    ArmedUnread (updateState s env) := by
  have h1 := checkSnooze_armed s h env.nowUtc
  have h2 := reconcileWindow_armed _ h1 env
  unfold updateState
  dsimp only
  split_ifs
  · exact updateIcon_armed _ h2.1
  · exact updateIcon_armed _ h2.1
  · exact h1

theorem blinkTimeout_armed (s : State) (h : ArmedUnread s) : ArmedUnread (blinkTimeout s) := by
  unfold blinkTimeout
  split_ifs
  all_goals exact updateIcon_armed _ h.1

theorem createMenu_armed_fields (s : State) :
    (createMenu s).mSnoozedUntil = s.mSnoozedUntil ∧
    (createMenu s).blinkTimerActive = s.blinkTimerActive := by
  unfold createMenu
  dsimp only
  split_ifs
  · obtain ⟨_, _, _, f4, f5, _, _⟩ := setIgnoredUnreadMails_false_fields
      { s with
        mMenuShowHideText := "Hide Betterbird"
        mMenuShowHideEnabled := false
        mMenuUnsnoozeVisible := false
        mMenuIgnoreUnreads := some "Ignore unread emails"
        ignoredUnreadEmails := (s.ignoredUnreadEmails + 1) % UINT_MOD }
      s.ignoredUnreadEmails
    exact ⟨f4, f5.2.2.2⟩
  · exact ⟨rfl, rfl⟩

theorem settingsAccepted_armed (s : State) (newSettings : Settings) :
    ArmedUnread (settingsAccepted s newSettings) := by
  unfold settingsAccepted
  dsimp only
  refine armed_of_fields _ _ (updateIcon_armed _ ?_) rfl rfl rfl rfl rfl
  intro _
  exact enableBlinking_false_timer _

theorem unreadCounterUpdate_armed (s : State) (h : ArmedUnread s) (total color : Nat) :
    ArmedUnread (unreadCounterUpdate s total color) := by
  unfold unreadCounterUpdate
  dsimp only
  apply updateIcon_armed
  have k1 : ∀ s1 : State,
      s1 = (if s.settings.ignoreUnreadCountOnStart = true ∧ s.haveUnreadMailsData = false then
        setIgnoredUnreadMails s total false else s) →
      s1.mSnoozedUntil = s.mSnoozedUntil ∧ s1.blinkTimerActive = s.blinkTimerActive := by
    intro s1 e
    subst e
    split_ifs
    · obtain ⟨_, _, _, f4, f5, _, _⟩ := setIgnoredUnreadMails_false_fields s total
      exact ⟨f4, f5.2.2.2⟩
    · exact ⟨rfl, rfl⟩
  generalize hs1 : (if s.settings.ignoreUnreadCountOnStart = true ∧
      s.haveUnreadMailsData = false then setIgnoredUnreadMails s total false else s) = s1
  obtain ⟨a1, a2⟩ := k1 s1 hs1.symm
  have k2 : ∀ s2 : State,
      s2 = (if total < s1.ignoredUnreadEmails then setIgnoredUnreadMails s1 total false
        else s1) →
      s2.mSnoozedUntil = s.mSnoozedUntil ∧ s2.blinkTimerActive = s.blinkTimerActive := by
    intro s2 e
    subst e
    split_ifs
    · obtain ⟨_, _, _, f4, f5, _, _⟩ := setIgnoredUnreadMails_false_fields s1 total
      exact ⟨f4.trans a1, f5.2.2.2.trans a2⟩
    · exact ⟨a1, a2⟩
  generalize hs2 : (if total < s1.ignoredUnreadEmails then
      setIgnoredUnreadMails s1 total false else s1) = s2
  obtain ⟨b1, b2⟩ := k2 s2 hs2.symm
  split_ifs
  · intro hs
    have hs3 : s2.mSnoozedUntil.isSome = true := hs
    rw [b1] at hs3
    exact b2.trans (h.1 hs3)
  · intro hs
    have hs3 : s2.mSnoozedUntil.isSome = true := hs
    rw [b1] at hs3
    exact b2.trans (h.1 hs3)

theorem actionActivate_armed (s : State) (h : ArmedUnread s) (env : ActivateEnv) :
    ArmedUnread (actionActivate s env) := by
  have h1 : ArmedUnread (s.emit (Effect.lookup env.lookup)) :=
    armed_of_fields s (s.emit (Effect.lookup env.lookup)) h rfl rfl rfl rfl rfl
  have h2 := startBetterbird_armed _ h1
  unfold actionActivate
  dsimp only
  split_ifs
  · exact h
  · exact armed_of_fields _ _ h2 rfl rfl rfl rfl rfl
  · exact h2
  · exact showBetterbird_armed _ h1 _
  · exact hideBetterbird_armed _ h1 _
  · exact showBetterbird_armed _ h _
  · exact hideBetterbird_armed _ h _

theorem bbProcess_armed (s : State) (h : ArmedUnread s) (b : Bool) :
    ArmedUnread (bbProcessError s b) ∧ ArmedUnread (bbProcessFinished s b) ∧
    ArmedUnread (bbUpdaterProcessFinished s b) := by
  refine ⟨?_, ?_, ?_⟩
  · unfold bbProcessError State.emit
    split_ifs
    · exact h
    · exact armed_of_fields s _ h rfl rfl rfl rfl rfl
  · unfold bbProcessFinished
    split_ifs
    · exact h
    · split
      · exact armed_of_fields s _ h rfl rfl rfl rfl rfl
      · exact h
  · unfold bbUpdaterProcessFinished State.emit
    split_ifs
    · exact armed_of_fields s _ h rfl rfl rfl rfl rfl
    · split
      · exact armed_of_fields s _ h rfl rfl rfl rfl rfl
      · exact h

theorem step_armed (s : State) (ev : Event) (h : ArmedUnread s) : ArmedUnread (step s ev) := by
  cases ev with
  | unreadCounterUpdate total color => exact unreadCounterUpdate_armed s h total color
  | unreadMonitorWarningChanged warnings =>
    exact updateIcon_armed { s with warnings := warnings } h.1
  | updateState env => exact updateState_armed s h env
  | blinkTimeout => exact blinkTimeout_armed s h
  | settingsAccepted newSettings => exact settingsAccepted_armed s newSettings
  | actionActivate env => exact actionActivate_armed s h env
  | actionSystrayIconActivated trigger env =>
    show ArmedUnread (actionSystrayIconActivated s trigger env)
    unfold actionSystrayIconActivated
    split_ifs
    · exact actionActivate_armed s h env
    · exact h
  | actionSnoozeFor seconds nowUtc => exact actionSnoozeFor_armed s seconds nowUtc
  | actionUnsnooze => exact actionUnsnooze_armed s
  | actionIgnoreEmails => exact setIgnoredUnreadMails_armed s h _
  | onBetterbirdWindowShown => exact onBetterbirdWindowShown_armed s h
  | onBetterbirdWindowHidden => exact onBetterbirdWindowHidden_armed s h
  | bbProcessError attached => exact (bbProcess_armed s h attached).1
  | bbProcessFinished attached => exact (bbProcess_armed s h attached).2.1
  | bbUpdaterProcessFinished isError => exact (bbProcess_armed s h isError).2.2

theorem construct_armed (settings : Settings) (isWindows hasWinTools : Bool) (now : Int)
    (env : PollEnv) : ArmedUnread (construct settings isWindows hasWinTools now env) := by
  obtain ⟨_, f2⟩ := createMenu_armed_fields (initialState settings isWindows hasWinTools now)
  have f3 : (createMenu (initialState settings isWindows hasWinTools now)).blinkTimerActive =
      false := f2
  have h0 : ArmedUnread (createMenu (initialState settings isWindows hasWinTools now)) :=
    ⟨fun _ => f3, fun ht => by rw [f3] at ht; exact absurd ht (by decide)⟩
  have h1 := updateState_armed _ h0 env
  have h2 := updateIcon_armed _ h1.1
  exact armed_of_fields _ _ h2 rfl rfl rfl rfl rfl

theorem reachable_armed (s : State) (h : Reachable s) : ArmedUnread s := by
  induction h with
  | init settings isWindows hasWinTools now env =>
    exact construct_armed settings isWindows hasWinTools now env
  | step s ev _ _ ih => exact step_armed s ev ih

/-! ## Discrete blinking (claim C23) -/

theorem blinkTimeout_discrete_eq (s : State) (hd : s.mBlinkingDelta = 0)
    (hs : s.settings.mBlinkSpeed ≠ 0) :
    blinkTimeout s = updateIcon { s with
      mBlinkingIconOpacity :=
        if s.mBlinkingIconOpacity = s.settings.mUnreadOpacityLevel then
          1 - s.settings.mUnreadOpacityLevel
        else s.settings.mUnreadOpacityLevel } := by
  unfold blinkTimeout
  rw [if_neg (not_not.mpr hd), if_pos hs]
  split_ifs <;> rfl

theorem blinkTimeout_discrete_fields (s : State) (h : ArmedUnread s)
    (ht : s.blinkTimerActive = true) (hi : s.mBlinkingTimeout ≠ 0) (hd : s.mBlinkingDelta = 0)
    (hs : s.settings.mBlinkSpeed ≠ 0) :
    (blinkTimeout s).mBlinkingIconOpacity =
      (if s.mBlinkingIconOpacity = s.settings.mUnreadOpacityLevel then
        1 - s.settings.mUnreadOpacityLevel
      else s.settings.mUnreadOpacityLevel) ∧
    (blinkTimeout s).blinkTimerActive = true ∧ (blinkTimeout s).mBlinkingTimeout ≠ 0 ∧
    (blinkTimeout s).mBlinkingDelta = 0 ∧ (blinkTimeout s).settings = s.settings := by
  have hu := h.2 ht hi
  rw [blinkTimeout_discrete_eq s hd hs]
  obtain ⟨_, _, c3⟩ := updateIcon_blink_cases { s with
    mBlinkingIconOpacity :=
      if s.mBlinkingIconOpacity = s.settings.mUnreadOpacityLevel then
        1 - s.settings.mUnreadOpacityLevel
      else s.settings.mUnreadOpacityLevel }
  have hu2 : 0 < displayedUnread { s with
      mBlinkingIconOpacity :=
        if s.mBlinkingIconOpacity = s.settings.mUnreadOpacityLevel then
          1 - s.settings.mUnreadOpacityLevel
        else s.settings.mUnreadOpacityLevel } := hu
  obtain ⟨b1, b2, b3, b4⟩ := c3 (fun hc => hi hc.2.2.2) (fun hc => by
    have := hc.2.1
    omega)
  refine ⟨b2, b4.trans ht, ?_, b3.trans hd, (updateIcon_sameCore _).settings⟩
  rw [b1]
  exact hi

theorem blinkTicks_discrete (s : State) (hr : Reachable s) (ht : s.blinkTimerActive = true)
    (hi : s.mBlinkingTimeout ≠ 0) (hd : s.mBlinkingDelta = 0)
    (hs : s.settings.mBlinkSpeed ≠ 0) (n : Nat) :
    Reachable (blinkTicks n s) ∧ (blinkTicks n s).blinkTimerActive = true ∧
    (blinkTicks n s).mBlinkingTimeout ≠ 0 ∧ (blinkTicks n s).mBlinkingDelta = 0 ∧
    (blinkTicks n s).settings = s.settings ∧
    blinkTicks (n + 1) s = blinkTimeout (blinkTicks n s) := by
  have key : ∀ n : Nat, Reachable (blinkTicks n s) ∧ (blinkTicks n s).blinkTimerActive = true ∧
      (blinkTicks n s).mBlinkingTimeout ≠ 0 ∧ (blinkTicks n s).mBlinkingDelta = 0 ∧
      (blinkTicks n s).settings = s.settings := by
    intro n
    induction n with
    | zero => exact ⟨hr, ht, hi, hd, rfl⟩
    | succ n ih =>
      obtain ⟨r1, r2, r3, r4, r5⟩ := ih
      have e : blinkTicks (n + 1) s = blinkTimeout (blinkTicks n s) := by
        show blinkTick _ = _
        unfold blinkTick
        rw [if_pos r2]
      obtain ⟨_, f2, f3, f4, f5⟩ := blinkTimeout_discrete_fields _ (reachable_armed _ r1)
        r2 r3 r4 (by rw [r5]; exact hs)
      rw [e]
      exact ⟨Reachable.step _ Event.blinkTimeout r1 r2, f2, f3, f4, f5.trans r5⟩
  obtain ⟨r1, r2, r3, r4, r5⟩ := key n
  refine ⟨r1, r2, r3, r4, r5, ?_⟩
  show blinkTick _ = _
  unfold blinkTick
  rw [if_pos r2]

/-- Claim C23, refuted as stated: with discrete blinking at speed 2147483648 and
level 0.75, a report of 5 unread mails starts the blink timer with the interval
0 (`mBlinkSpeed * 50` wraps). In that reachable state the delta is 0, the speed
is not 0 and the opacity is 1.0; the blink tick sets the opacity to 0.75 and the
`updateIcon` that ends it arms the blinking again, so the tick leaves the
opacity 1.0, which is neither 0.75 nor 0.25. -/
theorem blinkTimeout_discrete_counterexample :
    Reachable wrapState ∧ wrapState.blinkTimerActive = true ∧
    wrapState.mBlinkingDelta = 0 ∧ wrapState.settings.mBlinkSpeed ≠ 0 ∧
    wrapState.settings.mUnreadOpacityLevel = 3 / 4 ∧
    wrapState.mBlinkingIconOpacity = 1 ∧
    (blinkTimeout wrapState).mBlinkingIconOpacity = 1 ∧
    (1 : ℚ) ≠ 3 / 4 ∧ (1 : ℚ) ≠ 1 - 3 / 4 := by
  refine ⟨?_, by decide, by decide, by decide, rfl, by decide, ?_, by norm_num, by norm_num⟩
  · exact Reachable.step _ (Event.unreadCounterUpdate 5 0) (Reachable.init _ _ _ _ _)
      (show (5 : Nat) < UINT_MOD by decide)
  · rw [blinkTimeout_discrete_eq wrapState (by decide) (by decide)]
    exact ((updateIcon_blink_cases _).1 (by decide)).2.1

/-- Claim C23, amended: in every reachable state in which the blink timer runs
with an interval other than 0 in discrete mode (delta 0, speed not 0), with
configured level L, a blink tick from opacity L gives `1 - L` and a tick from
any other opacity gives L, so every tick leaves the opacity in `{L, 1 - L}`;
the mode persists, and from the first tick on each tick turns the opacity `o`
into `1 - o`, alternating between `1 - L` and L. -/
theorem blinkTimeout_discrete (s : State) (hr : Reachable s)
    (ht : s.blinkTimerActive = true) (hi : s.mBlinkingTimeout ≠ 0)
    (hd : s.mBlinkingDelta = 0) (hs : s.settings.mBlinkSpeed ≠ 0) :
    (blinkTimeout s).mBlinkingIconOpacity =
      (if s.mBlinkingIconOpacity = s.settings.mUnreadOpacityLevel then
        1 - s.settings.mUnreadOpacityLevel
      else s.settings.mUnreadOpacityLevel) ∧
    ((blinkTimeout s).mBlinkingIconOpacity = s.settings.mUnreadOpacityLevel ∨
      (blinkTimeout s).mBlinkingIconOpacity = 1 - s.settings.mUnreadOpacityLevel) ∧
    (∀ n : Nat,
      (blinkTicks (n + 1) s).mBlinkingIconOpacity =
        (if (blinkTicks n s).mBlinkingIconOpacity = s.settings.mUnreadOpacityLevel then
          1 - s.settings.mUnreadOpacityLevel
        else s.settings.mUnreadOpacityLevel) ∧
      ((blinkTicks (n + 1) s).mBlinkingIconOpacity = s.settings.mUnreadOpacityLevel ∨
        (blinkTicks (n + 1) s).mBlinkingIconOpacity = 1 - s.settings.mUnreadOpacityLevel) ∧
      (blinkTicks (n + 2) s).mBlinkingIconOpacity =
        1 - (blinkTicks (n + 1) s).mBlinkingIconOpacity ∧
      (blinkTicks (n + 3) s).mBlinkingIconOpacity =
        (blinkTicks (n + 1) s).mBlinkingIconOpacity) := by
  have tick : ∀ n : Nat, (blinkTicks (n + 1) s).mBlinkingIconOpacity =
      (if (blinkTicks n s).mBlinkingIconOpacity = s.settings.mUnreadOpacityLevel then
        1 - s.settings.mUnreadOpacityLevel
      else s.settings.mUnreadOpacityLevel) := by
    intro n
    obtain ⟨r1, r2, r3, r4, r5, r6⟩ := blinkTicks_discrete s hr ht hi hd hs n
    have f := (blinkTimeout_discrete_fields _ (reachable_armed _ r1) r2 r3 r4
      (by rw [r5]; exact hs)).1
    rw [r5] at f
    rw [r6]
    exact f
  have mem : ∀ n : Nat,
      (blinkTicks (n + 1) s).mBlinkingIconOpacity = s.settings.mUnreadOpacityLevel ∨
      (blinkTicks (n + 1) s).mBlinkingIconOpacity = 1 - s.settings.mUnreadOpacityLevel := by
    intro n
    rw [tick n]
    split_ifs
    · exact Or.inr rfl
    · exact Or.inl rfl
  have flip : ∀ n : Nat, (blinkTicks (n + 2) s).mBlinkingIconOpacity =
      1 - (blinkTicks (n + 1) s).mBlinkingIconOpacity := by
    intro n
    rw [tick (n + 1)]
    rcases mem n with h | h
    · rw [if_pos h, h]
    · by_cases hl : (blinkTicks (n + 1) s).mBlinkingIconOpacity = s.settings.mUnreadOpacityLevel
      · rw [if_pos hl, hl]
      · rw [if_neg hl, h]
        ring
  have e0 : blinkTicks (0 + 1) s = blinkTimeout s :=
    (blinkTicks_discrete s hr ht hi hd hs 0).2.2.2.2.2
  have t0 := tick 0
  have m0 := mem 0
  rw [e0] at t0 m0
  refine ⟨t0, m0, fun n => ⟨tick n, mem n, flip n, ?_⟩⟩
  rw [flip (n + 1), flip n]
  ring

theorem blinkTimeout_discrete_witness :
    (blinkTimeout discreteState).mBlinkingIconOpacity = 3 / 4 ∧
    (blinkTicks 2 discreteState).mBlinkingIconOpacity = 1 - 3 / 4 := by
  have hr : Reachable discreteState :=
    Reachable.step _ (Event.unreadCounterUpdate 5 0) (Reachable.init _ _ _ _ _)
      (show (5 : Nat) < UINT_MOD by decide)
  have h := blinkTimeout_discrete discreteState hr (by decide) (by decide) (by decide)
    (by decide)
  have e1 : discreteState.mBlinkingIconOpacity = 1 := by decide
  have e2 : discreteState.settings.mUnreadOpacityLevel = 3 / 4 := rfl
  have h1 : (blinkTimeout discreteState).mBlinkingIconOpacity = 3 / 4 := by
    rw [h.1, e1, e2]
    norm_num
  refine ⟨h1, ?_⟩
  have h2 := (h.2.2 0).2.2.1
  have h3 : (blinkTicks 1 discreteState).mBlinkingIconOpacity = 3 / 4 := h1
  rw [h2, h3]

end Birdtray
